import Mathlib

/-!
# frida_jni.cpp: a shallow embedding of the JNI bridge

The bridge is glue between three parties: the JVM (through `JNIEnv` and `JavaVM`), GLib /
frida-core (through `frida_core.h`) and the C++ heap.  None of the three is part of the
repository, so each is modelled by the part of its documented behaviour that the bridge relies
on:

* the results of frida-core calls are taken from a parameter `F : FridaCore`;
* the JVM and GLib calls that have an effect update an explicit `World` and are appended, in
  program order, to `World.ops`;
* the behaviour of managed callbacks is a parameter `M : Managed`.

Every function of `frida_jni.cpp` that the properties below talk about is translated statement by
statement, with the name it has in the source.
-/

namespace FridaJni

/-! ## Machine values -/

/-- A native address; `nullptr` is `0`.  Addresses of real objects are below `2 ^ 64`. -/
abbrev Ptr := Nat

/-- The JNI type `jlong`: a signed 64-bit integer. -/
abbrev jlong := Int

/-- The JNI type `jint`: a signed 32-bit integer. -/
abbrev jint := Int

/-- A JNI reference.  A reference handed in by the JVM is named by the object it refers to; a
global reference is named by its handle (see `NewGlobalRef`). -/
abbrev jobject := Nat

/-- One octet of a byte buffer. -/
abbrev Byte := Fin 256

/-- The cast `(jlong)(intptr_t)p` of a pointer: the 64-bit pattern read as a signed integer. -/
def ptrToJlong (p : Ptr) : jlong :=
  if p % 2 ^ 64 < 2 ^ 63 then ((p % 2 ^ 64 : Nat) : Int) else ((p % 2 ^ 64 : Nat) : Int) - 2 ^ 64

/-- The cast `(T*)(intptr_t)h` of a `jlong`: the 64-bit pattern read as an address. -/
def jlongToPtr (h : jlong) : Ptr :=
  (h % 2 ^ 64).toNat

/-- The cast `(jint)n` of a `guint`. -/
def guintToJint (n : Nat) : jint :=
  if n % 2 ^ 32 < 2 ^ 31 then ((n % 2 ^ 32 : Nat) : Int) else ((n % 2 ^ 32 : Nat) : Int) - 2 ^ 32

/-- The cast `(guint)i` of a `jint`. -/
def jintToGuint (i : jint) : Nat :=
  (i % 2 ^ 32).toNat

/-- The cast `(jsize)n` of a `gsize`. -/
def gsizeToJsize (n : Nat) : Int :=
  if n % 2 ^ 32 < 2 ^ 31 then ((n % 2 ^ 32 : Nat) : Int) else ((n % 2 ^ 32 : Nat) : Int) - 2 ^ 32

/-! ## Data model -/

/-- A `GError`: the bridge reads only `error->message`. -/
structure GError where
  message : String
deriving DecidableEq, Repr

/-- A managed exception: its class and its message. -/
structure Throwable where
  cls : String
  message : String
deriving DecidableEq, Repr

/-- The part of a `JavaVM` that decides what `GetEnv` and `AttachCurrentThread` answer. -/
structure JavaVM where
  supportsVersion : Bool
  attachSucceeds : Bool
deriving DecidableEq, Repr

/-- A `jmethodID`, named by the method name and signature it was resolved from. -/
structure jmethodID where
  name : String
  sig : String
deriving DecidableEq, Repr

/-- An argument passed to a managed method. -/
inductive jvalue
  | i (n : jint)
  | j (h : jlong)
  | l (s : String)
deriving DecidableEq, Repr

/-- One call of `CallVoidMethod`: receiver, method and arguments. -/
structure Invocation where
  receiver : jobject
  methodId : jmethodID
  args : List jvalue
deriving DecidableEq, Repr

/-- What managed code does when a method is invoked: return (`none`) or raise. -/
abbrev Managed := Invocation → Option Throwable

/-- The subscription record.  `DetachedData`, `MessageData`, `ChildSignalData`,
`DeviceSignalData`, `ChangedData` and `DestroyedData` are declared field for field alike. -/
structure SignalData where
  jvm : JavaVM
  callback : jobject
  methodId : jmethodID
  handlerId : Nat
deriving DecidableEq, Repr

abbrev DetachedData := SignalData
abbrev MessageData := SignalData
abbrev ChildSignalData := SignalData
abbrev DeviceSignalData := SignalData
abbrev ChangedData := SignalData
abbrev DestroyedData := SignalData

/-- The native trampolines handed to `g_signal_connect`. -/
inductive GCallback
  | on_session_detached
  | on_script_message
  | on_script_destroyed
  | on_child_added
  | on_child_removed
  | on_device_added
  | on_device_removed
  | on_device_changed
deriving DecidableEq, Repr

/-- A signal handler installed on a GObject: what `g_signal_connect` was given, and the
handler id it answered. -/
structure Handler where
  inst : Ptr
  detailed_signal : String
  c_handler : GCallback
  data : Ptr
  id : Nat
deriving DecidableEq, Repr

/-- The calls with an effect that the bridge makes on the JVM, GLib and the heap. -/
inductive Op
  | ThrowNew (cls : String) (message : String)
  | g_error_free (e : GError)
  | g_object_ref (p : Ptr)
  | frida_unref (p : Ptr)
  | g_bytes_unref (p : Ptr)
  | frida_script_post (script : Ptr) (message : String)
  | GetStringUTFChars (s : String)
  | ReleaseStringUTFChars (s : String)
  | NewGlobalRef (obj : jobject) (ref : jobject)
  | DeleteGlobalRef (ref : jobject)
  | g_signal_connect (inst : Ptr) (detailed_signal : String) (id : Nat)
  | g_signal_handler_disconnect (inst : Ptr) (id : Nat)
  | opNew (p : Ptr)
  | opDelete (p : Ptr)
  | AttachCurrentThread
  | DetachCurrentThread
  | CallVoidMethod (inv : Invocation)
  | ExceptionClear
deriving DecidableEq, Repr

/-- Everything the bridge can change.

* `refcount p`: GObject / GBytes reference count of the native object at `p`; the bridge
  changes it through `g_object_ref`, `frida_unref` and `g_bytes_unref` only;
* `pending`: the pending managed exception of the current thread;
* `utfChars`: the native string copies handed out by `GetStringUTFChars` and not yet released;
* `globalRefs`: the JNI global references alive, each a handle and the object it refers to,
  oldest first; `nextGlobalRef`: the handle the next `NewGlobalRef` answers;
* `heap p`: the subscription record allocated with `new` at `p` and not yet deleted;
* `handlers`: the signal handlers installed, oldest first; `nextHandlerId`: GLib's handler
  sequence number;
* `attached`: whether the current thread is attached to the JVM;
* `jvm`: the process's `JavaVM`;
* `calls`: the managed methods invoked so far, in order;
* `ops`: the calls with an effect made so far, in order. -/
structure World where
  refcount : Ptr → Int
  pending : Option Throwable
  utfChars : List String
  globalRefs : List (jobject × jobject)
  nextGlobalRef : Nat
  heap : Ptr → Option SignalData
  handlers : List Handler
  nextHandlerId : Nat
  attached : Bool
  jvm : JavaVM
  calls : List Invocation
  ops : List Op

/-- Dereferencing an address that holds no live record is undefined behaviour in C++; the
embedding stops there and reports the address. -/
inductive Fault
  | invalidRead (p : Ptr)
deriving DecidableEq, Repr

/-! ## frida-core as used by the bridge (`frida_core.h`) -/

/-- A `GBytes`: an immutable buffer, with its address. -/
structure GBytes where
  addr : Ptr
  data : List Byte
deriving DecidableEq, Repr

/-- A `FridaApplicationQueryOptions` / `FridaProcessQueryOptions` object local to one call. -/
structure QueryOptions where
  addr : Ptr
  scope : Int
deriving DecidableEq, Repr

/-- A `FridaScriptOptions` object local to one call. -/
structure FridaScriptOptions where
  addr : Ptr
  snapshot : Option GBytes
deriving DecidableEq, Repr

/-- A `FridaSnapshotOptions` object local to one call. -/
structure FridaSnapshotOptions where
  addr : Ptr
  warmup_script : Option String
deriving DecidableEq, Repr

/-- The outcome of a `_sync` call: the value it returns and what it stores through the
`GError**` out-parameter. -/
structure SyncResult (α : Type) where
  value : α
  error : Option GError

/-- The frida-core and GLib entry points whose answers the bridge only passes on. -/
structure FridaCore where
  frida_device_manager_new : Ptr
  frida_device_manager_enumerate_devices_sync : Ptr → SyncResult Ptr
  frida_device_list_size : Ptr → Nat
  frida_device_list_get : Ptr → Nat → Ptr
  frida_device_manager_get_device_by_id_sync : Ptr → String → Int → SyncResult Ptr
  frida_application_query_options_new : QueryOptions
  frida_device_enumerate_applications_sync : Ptr → QueryOptions → SyncResult Ptr
  frida_application_list_size : Ptr → Nat
  frida_application_list_get : Ptr → Nat → Ptr
  frida_process_query_options_new : QueryOptions
  frida_device_enumerate_processes_sync : Ptr → QueryOptions → SyncResult Ptr
  frida_process_list_size : Ptr → Nat
  frida_process_list_get : Ptr → Nat → Ptr
  frida_device_attach_sync : Ptr → Nat → SyncResult Ptr
  frida_device_spawn_sync : Ptr → String → SyncResult Nat
  frida_device_resume_sync : Ptr → Nat → SyncResult Unit
  frida_script_options_new : FridaScriptOptions
  frida_session_create_script_sync : Ptr → String → FridaScriptOptions → SyncResult Ptr
  frida_session_detach_sync : Ptr → SyncResult Unit
  frida_script_load_sync : Ptr → SyncResult Unit
  frida_script_unload_sync : Ptr → SyncResult Unit
  frida_device_enable_spawn_gating_sync : Ptr → SyncResult Unit
  frida_device_disable_spawn_gating_sync : Ptr → SyncResult Unit
  frida_device_enumerate_pending_children_sync : Ptr → SyncResult Ptr
  frida_child_list_size : Ptr → Nat
  frida_child_list_get : Ptr → Nat → Ptr
  frida_device_manager_add_remote_device_sync : Ptr → String → SyncResult Ptr
  frida_device_manager_remove_remote_device_sync : Ptr → String → SyncResult Unit
  frida_snapshot_options_new : FridaSnapshotOptions
  frida_session_snapshot_script_sync : Ptr → String → FridaSnapshotOptions → SyncResult GBytes
  g_bytes_new_addr : List Byte → Ptr

/-! ## JNI and GLib primitives -/

/-- JNI call `env->FindClass(name)`: a class is named by its binary name. -/
def FindClass (name : String) : String :=
  name

/-- JNI call `env->ThrowNew(cls, message)`: a new exception becomes pending on the current
thread. -/
def ThrowNew (w : World) (cls : String) (message : String) : World :=
  { w with pending := some ⟨cls, message⟩, ops := w.ops ++ [Op.ThrowNew cls message] }

/-- GLib call `g_error_free(error)`. -/
def g_error_free (w : World) (error : GError) : World :=
  { w with ops := w.ops ++ [Op.g_error_free error] }

/-- GLib call `g_object_ref(p)`: one more reference on `p`. -/
def g_object_ref (w : World) (p : Ptr) : World :=
  { w with refcount := Function.update w.refcount p (w.refcount p + 1),
           ops := w.ops ++ [Op.g_object_ref p] }

/-- Native call `frida_unref(p)`: one reference less on `p`. -/
def frida_unref (w : World) (p : Ptr) : World :=
  { w with refcount := Function.update w.refcount p (w.refcount p - 1),
           ops := w.ops ++ [Op.frida_unref p] }

/-- GLib call `g_bytes_unref(bytes)`: one reference less on the buffer. -/
def g_bytes_unref (w : World) (p : Ptr) : World :=
  { w with refcount := Function.update w.refcount p (w.refcount p - 1),
           ops := w.ops ++ [Op.g_bytes_unref p] }

/-- JNI call `env->GetStringUTFChars(s, nullptr)`: a native copy of the string, outstanding until
released. -/
def GetStringUTFChars (w : World) (s : String) : String × World :=
  (s, { w with utfChars := s :: w.utfChars, ops := w.ops ++ [Op.GetStringUTFChars s] })

/-- JNI call `env->ReleaseStringUTFChars(s, chars)`: gives one outstanding copy back. -/
def ReleaseStringUTFChars (w : World) (chars : String) : World :=
  { w with utfChars := w.utfChars.erase chars, ops := w.ops ++ [Op.ReleaseStringUTFChars chars] }

/-- JNI call `env->NewLongArray(size)`: a zero-filled array. -/
def NewLongArray (size : Nat) : List jlong :=
  List.replicate size 0

/-- JNI call `env->NewByteArray(size)`: a zero-filled array, or null when `size` is negative. -/
def NewByteArray (size : Int) : Option (List Byte) :=
  if size < 0 then none else some (List.replicate size.toNat 0)

/-- JNI call `env->SetByteArrayRegion(array, 0, len, buf)`: overwrite the first `len` elements
of the array with the first `len` bytes of `buf`. -/
def SetByteArrayRegion (array : Option (List Byte)) (len : Int) (buf : List Byte) :
    Option (List Byte) :=
  array.map (fun a => buf.take len.toNat ++ a.drop len.toNat)

/-- GLib call `g_bytes_new(buf, len)`: a new buffer holding a copy of the first `len` bytes of
`buf`. -/
def g_bytes_new (F : FridaCore) (buf : List Byte) (len : Nat) : GBytes :=
  ⟨F.g_bytes_new_addr (buf.take len), buf.take len⟩

/-- Native calls `frida_application_query_options_set_scope` and
`frida_process_query_options_set_scope`. -/
def query_options_set_scope (opts : QueryOptions) (scope : Int) : QueryOptions :=
  { opts with scope := scope }

/-- Native call `frida_script_options_set_snapshot(opts, snapshot)`. -/
def frida_script_options_set_snapshot (opts : FridaScriptOptions) (snapshot : GBytes) :
    FridaScriptOptions :=
  { opts with snapshot := some snapshot }

/-- Native call `frida_snapshot_options_set_warmup_script(opts, warmup)`. -/
def frida_snapshot_options_set_warmup_script (opts : FridaSnapshotOptions) (warmup : String) :
    FridaSnapshotOptions :=
  { opts with warmup_script := some warmup }

/-! ## Error translation -/

/-- Function `throw_from_gerror`: nothing for a null error; otherwise throw a
`RuntimeException` with the error's message and free the error. -/
def throw_from_gerror (w : World) (error : Option GError) : World :=
  match error with
  | none => w
  | some e =>
    let cls := FindClass "java/lang/RuntimeException"
    let w1 := ThrowNew w cls e.message
    g_error_free w1 e

/-! ## Array access -/

/-- JNI call `env->GetLongArrayElements(array, nullptr)`: the elements, as a buffer to work on. -/
def GetLongArrayElements (array : List jlong) : List jlong :=
  array

/-- JNI call `env->ReleaseLongArrayElements(array, elems, mode)`: with mode `0` the buffer is
copied back into the array, with `JNI_ABORT` (`2`) it is dropped. -/
def ReleaseLongArrayElements (array : List jlong) (elems : List jlong) (mode : Int) : List jlong :=
  if mode = 2 then array else elems

/-- JNI call `env->GetArrayLength(array)`. -/
def GetArrayLength (array : List Byte) : Int :=
  array.length

/-- JNI call `env->GetByteArrayElements(array, nullptr)`. -/
def GetByteArrayElements (array : List Byte) : List Byte :=
  array

/-- The cast `(gsize)len` of a `jsize`. -/
def jsizeToGsize (len : Int) : Nat :=
  (len % 2 ^ 64).toNat

/-! ## Synchronous call wrappers -/

/-- Wrapper `Java_dev_supersam_frida_FridaNative_deviceManagerEnumerateDevices`. -/
def Java_dev_supersam_frida_FridaNative_deviceManagerEnumerateDevices (F : FridaCore) (w : World)
    (handle : jlong) : Option (List jlong) × World :=
  let manager := jlongToPtr handle
  let r := F.frida_device_manager_enumerate_devices_sync manager
  if r.error.isSome then (none, throw_from_gerror w r.error) else
  let list := r.value
  let size := F.frida_device_list_size list
  let result := NewLongArray size
  let elems := (List.range size).foldl
    (fun elems i => elems.set i (ptrToJlong (F.frida_device_list_get list i)))
    (GetLongArrayElements result)
  let result1 := ReleaseLongArrayElements result elems 0
  let w1 := frida_unref w list
  (some result1, w1)

/-- Wrapper `Java_dev_supersam_frida_FridaNative_deviceManagerGetDeviceById`. -/
def Java_dev_supersam_frida_FridaNative_deviceManagerGetDeviceById (F : FridaCore) (w : World)
    (handle : jlong) (jid : String) (timeout : jint) : jlong × World :=
  let manager := jlongToPtr handle
  let g := GetStringUTFChars w jid
  let id := g.1
  let r := F.frida_device_manager_get_device_by_id_sync manager id timeout
  let w1 := ReleaseStringUTFChars g.2 id
  if r.error.isSome then (0, throw_from_gerror w1 r.error) else
  (ptrToJlong r.value, w1)

/-- Wrapper `Java_dev_supersam_frida_FridaNative_deviceEnumerateApplications`. -/
def Java_dev_supersam_frida_FridaNative_deviceEnumerateApplications (F : FridaCore) (w : World)
    (handle : jlong) (scope : jint) : Option (List jlong) × World :=
  let device := jlongToPtr handle
  let opts := F.frida_application_query_options_new
  let opts1 := query_options_set_scope opts scope
  let r := F.frida_device_enumerate_applications_sync device opts1
  let w1 := frida_unref w opts.addr
  if r.error.isSome then (none, throw_from_gerror w1 r.error) else
  let list := r.value
  let size := F.frida_application_list_size list
  let result := NewLongArray size
  let elems := (List.range size).foldl
    (fun elems i => elems.set i (ptrToJlong (F.frida_application_list_get list i)))
    (GetLongArrayElements result)
  let result1 := ReleaseLongArrayElements result elems 0
  let w2 := frida_unref w1 list
  (some result1, w2)

/-- Wrapper `Java_dev_supersam_frida_FridaNative_deviceEnumerateProcesses`. -/
def Java_dev_supersam_frida_FridaNative_deviceEnumerateProcesses (F : FridaCore) (w : World)
    (handle : jlong) (scope : jint) : Option (List jlong) × World :=
  let device := jlongToPtr handle
  let opts := F.frida_process_query_options_new
  let opts1 := query_options_set_scope opts scope
  let r := F.frida_device_enumerate_processes_sync device opts1
  let w1 := frida_unref w opts.addr
  if r.error.isSome then (none, throw_from_gerror w1 r.error) else
  let list := r.value
  let size := F.frida_process_list_size list
  let result := NewLongArray size
  let elems := (List.range size).foldl
    (fun elems i => elems.set i (ptrToJlong (F.frida_process_list_get list i)))
    (GetLongArrayElements result)
  let result1 := ReleaseLongArrayElements result elems 0
  let w2 := frida_unref w1 list
  (some result1, w2)

/-- Wrapper `Java_dev_supersam_frida_FridaNative_deviceAttach`. -/
def Java_dev_supersam_frida_FridaNative_deviceAttach (F : FridaCore) (w : World)
    (handle : jlong) (pid : jint) : jlong × World :=
  let device := jlongToPtr handle
  let r := F.frida_device_attach_sync device (jintToGuint pid)
  if r.error.isSome then (0, throw_from_gerror w r.error) else
  (ptrToJlong r.value, w)

/-- Wrapper `Java_dev_supersam_frida_FridaNative_deviceSpawn`. -/
def Java_dev_supersam_frida_FridaNative_deviceSpawn (F : FridaCore) (w : World)
    (handle : jlong) (jprogram : String) : jint × World :=
  let device := jlongToPtr handle
  let g := GetStringUTFChars w jprogram
  let program := g.1
  let r := F.frida_device_spawn_sync device program
  let w1 := ReleaseStringUTFChars g.2 program
  if r.error.isSome then (0, throw_from_gerror w1 r.error) else
  (guintToJint r.value, w1)

/-- Wrapper `Java_dev_supersam_frida_FridaNative_deviceResume`. -/
def Java_dev_supersam_frida_FridaNative_deviceResume (F : FridaCore) (w : World)
    (handle : jlong) (pid : jint) : World :=
  let device := jlongToPtr handle
  let r := F.frida_device_resume_sync device (jintToGuint pid)
  if r.error.isSome then throw_from_gerror w r.error else w

/-- Wrapper `Java_dev_supersam_frida_FridaNative_sessionCreateScript`. -/
def Java_dev_supersam_frida_FridaNative_sessionCreateScript (F : FridaCore) (w : World)
    (handle : jlong) (jsource : String) : jlong × World :=
  let session := jlongToPtr handle
  let g := GetStringUTFChars w jsource
  let source := g.1
  let opts := F.frida_script_options_new
  let r := F.frida_session_create_script_sync session source opts
  let w1 := ReleaseStringUTFChars g.2 source
  let w2 := frida_unref w1 opts.addr
  if r.error.isSome then (0, throw_from_gerror w2 r.error) else
  (ptrToJlong r.value, w2)

/-- Wrapper `Java_dev_supersam_frida_FridaNative_sessionDetach`. -/
def Java_dev_supersam_frida_FridaNative_sessionDetach (F : FridaCore) (w : World)
    (handle : jlong) : World :=
  let session := jlongToPtr handle
  let r := F.frida_session_detach_sync session
  if r.error.isSome then throw_from_gerror w r.error else w

/-- Wrapper `Java_dev_supersam_frida_FridaNative_scriptLoad`. -/
def Java_dev_supersam_frida_FridaNative_scriptLoad (F : FridaCore) (w : World)
    (handle : jlong) : World :=
  let script := jlongToPtr handle
  let r := F.frida_script_load_sync script
  if r.error.isSome then throw_from_gerror w r.error else w

/-- Wrapper `Java_dev_supersam_frida_FridaNative_scriptUnload`. -/
def Java_dev_supersam_frida_FridaNative_scriptUnload (F : FridaCore) (w : World)
    (handle : jlong) : World :=
  let script := jlongToPtr handle
  let r := F.frida_script_unload_sync script
  if r.error.isSome then throw_from_gerror w r.error else w

/-- Wrapper `Java_dev_supersam_frida_FridaNative_deviceEnableSpawnGating`. -/
def Java_dev_supersam_frida_FridaNative_deviceEnableSpawnGating (F : FridaCore) (w : World)
    (handle : jlong) : World :=
  let r := F.frida_device_enable_spawn_gating_sync (jlongToPtr handle)
  if r.error.isSome then throw_from_gerror w r.error else w

/-- Wrapper `Java_dev_supersam_frida_FridaNative_deviceDisableSpawnGating`. -/
def Java_dev_supersam_frida_FridaNative_deviceDisableSpawnGating (F : FridaCore) (w : World)
    (handle : jlong) : World :=
  let r := F.frida_device_disable_spawn_gating_sync (jlongToPtr handle)
  if r.error.isSome then throw_from_gerror w r.error else w

/-- Wrapper `Java_dev_supersam_frida_FridaNative_deviceEnumeratePendingChildren`. -/
def Java_dev_supersam_frida_FridaNative_deviceEnumeratePendingChildren (F : FridaCore) (w : World)
    (handle : jlong) : Option (List jlong) × World :=
  let r := F.frida_device_enumerate_pending_children_sync (jlongToPtr handle)
  if r.error.isSome then (none, throw_from_gerror w r.error) else
  let list := r.value
  let size := F.frida_child_list_size list
  let result := NewLongArray size
  let loop := (List.range size).foldl
    (fun (acc : List jlong × World) i =>
      let child := F.frida_child_list_get list i
      let w1 := g_object_ref acc.2 child
      (acc.1.set i (ptrToJlong child), w1))
    (GetLongArrayElements result, w)
  let result1 := ReleaseLongArrayElements result loop.1 0
  let w2 := frida_unref loop.2 list
  (some result1, w2)

/-- Wrapper `Java_dev_supersam_frida_FridaNative_deviceManagerAddRemoteDevice`. -/
def Java_dev_supersam_frida_FridaNative_deviceManagerAddRemoteDevice (F : FridaCore) (w : World)
    (handle : jlong) (jaddress : String) : jlong × World :=
  let manager := jlongToPtr handle
  let g := GetStringUTFChars w jaddress
  let address := g.1
  let r := F.frida_device_manager_add_remote_device_sync manager address
  let w1 := ReleaseStringUTFChars g.2 address
  if r.error.isSome then (0, throw_from_gerror w1 r.error) else
  (ptrToJlong r.value, w1)

/-- Wrapper `Java_dev_supersam_frida_FridaNative_deviceManagerRemoveRemoteDevice`. -/
def Java_dev_supersam_frida_FridaNative_deviceManagerRemoveRemoteDevice (F : FridaCore)
    (w : World) (handle : jlong) (jaddress : String) : World :=
  let manager := jlongToPtr handle
  let g := GetStringUTFChars w jaddress
  let address := g.1
  let r := F.frida_device_manager_remove_remote_device_sync manager address
  let w1 := ReleaseStringUTFChars g.2 address
  if r.error.isSome then throw_from_gerror w1 r.error else w1

/-- Wrapper `Java_dev_supersam_frida_FridaNative_sessionSnapshotScript`; a null `jwarmupScript` is
`none`. -/
def Java_dev_supersam_frida_FridaNative_sessionSnapshotScript (F : FridaCore) (w : World)
    (handle : jlong) (jembedScript : String) (jwarmupScript : Option String) :
    Option (List Byte) × World :=
  let session := jlongToPtr handle
  let g := GetStringUTFChars w jembedScript
  let embedScript := g.1
  let opts := F.frida_snapshot_options_new
  let s : FridaSnapshotOptions × World :=
    match jwarmupScript with
    | none => (opts, g.2)
    | some js =>
      let gw := GetStringUTFChars g.2 js
      let warmup := gw.1
      let opts1 :=
        if warmup ≠ "" then frida_snapshot_options_set_warmup_script opts warmup else opts
      (opts1, ReleaseStringUTFChars gw.2 warmup)
  let r := F.frida_session_snapshot_script_sync session embedScript s.1
  let w1 := ReleaseStringUTFChars s.2 embedScript
  let w2 := frida_unref w1 opts.addr
  if r.error.isSome then (none, throw_from_gerror w2 r.error) else
  let bytes := r.value
  let size := bytes.data.length
  let raw := bytes.data
  let result := NewByteArray (gsizeToJsize size)
  let result1 := SetByteArrayRegion result (gsizeToJsize size) raw
  let w3 := g_bytes_unref w2 bytes.addr
  (result1, w3)

/-- Wrapper `Java_dev_supersam_frida_FridaNative_sessionCreateScriptFromSnapshot`. -/
def Java_dev_supersam_frida_FridaNative_sessionCreateScriptFromSnapshot (F : FridaCore)
    (w : World) (handle : jlong) (jsource : String) (jsnapshot : List Byte) : jlong × World :=
  let session := jlongToPtr handle
  let g := GetStringUTFChars w jsource
  let source := g.1
  let len := GetArrayLength jsnapshot
  let buf := GetByteArrayElements jsnapshot
  let snapshot := g_bytes_new F buf (jsizeToGsize len)
  let opts := F.frida_script_options_new
  let opts1 := frida_script_options_set_snapshot opts snapshot
  let w1 := g_bytes_unref g.2 snapshot.addr
  let r := F.frida_session_create_script_sync session source opts1
  let w2 := ReleaseStringUTFChars w1 source
  let w3 := frida_unref w2 opts.addr
  if r.error.isSome then (0, throw_from_gerror w3 r.error) else
  (ptrToJlong r.value, w3)

/-- Wrapper `Java_dev_supersam_frida_FridaNative_deviceManagerNew`. -/
def Java_dev_supersam_frida_FridaNative_deviceManagerNew (F : FridaCore) : jlong :=
  ptrToJlong F.frida_device_manager_new

/-- Native call `frida_script_post(script, message, nullptr)`. -/
def frida_script_post (w : World) (script : Ptr) (message : String) : World :=
  { w with ops := w.ops ++ [Op.frida_script_post script message] }

/-- Wrapper `Java_dev_supersam_frida_FridaNative_scriptPost`. -/
def Java_dev_supersam_frida_FridaNative_scriptPost (w : World) (handle : jlong)
    (jmessage : String) : World :=
  let script := jlongToPtr handle
  let g := GetStringUTFChars w jmessage
  let message := g.1
  let w1 := frida_script_post g.2 script message
  ReleaseStringUTFChars w1 message

/-- Wrapper `Java_dev_supersam_frida_FridaNative_unref`. -/
def Java_dev_supersam_frida_FridaNative_unref (w : World) (handle : jlong) : World :=
  if handle ≠ 0 then frida_unref w (jlongToPtr handle) else w

/-! ## The synchronous wrappers as one family -/

/-- What a wrapper hands back to the JVM. -/
inductive RetVal
  | void
  | jlong (h : Int)
  | jint (n : Int)
  | jlongArray (a : Option (List Int))
  | jbyteArray (a : Option (List Byte))
deriving DecidableEq, Repr

/-- The value a wrapper returns on its failure path: nothing, `0`, or a null array. -/
def RetVal.isSentinel : RetVal → Bool
  | .void => true
  | .jlong h => decide (h = 0)
  | .jint n => decide (n = 0)
  | .jlongArray a => a.isNone
  | .jbyteArray a => a.isNone

/-- A call of one of the wrappers that pass `&error` to frida-core, with its arguments. -/
inductive SyncCall
  | deviceManagerEnumerateDevices (handle : jlong)
  | deviceManagerGetDeviceById (handle : jlong) (jid : String) (timeout : jint)
  | deviceEnumerateApplications (handle : jlong) (scope : jint)
  | deviceEnumerateProcesses (handle : jlong) (scope : jint)
  | deviceAttach (handle : jlong) (pid : jint)
  | deviceSpawn (handle : jlong) (jprogram : String)
  | deviceResume (handle : jlong) (pid : jint)
  | sessionCreateScript (handle : jlong) (jsource : String)
  | sessionDetach (handle : jlong)
  | scriptLoad (handle : jlong)
  | scriptUnload (handle : jlong)
  | deviceEnableSpawnGating (handle : jlong)
  | deviceDisableSpawnGating (handle : jlong)
  | deviceEnumeratePendingChildren (handle : jlong)
  | deviceManagerAddRemoteDevice (handle : jlong) (jaddress : String)
  | deviceManagerRemoveRemoteDevice (handle : jlong) (jaddress : String)
  | sessionSnapshotScript (handle : jlong) (jembedScript : String) (jwarmupScript : Option String)
  | sessionCreateScriptFromSnapshot (handle : jlong) (jsource : String) (jsnapshot : List Byte)

/-- Run the wrapper a `SyncCall` names. -/
def SyncCall.run (F : FridaCore) (w : World) : SyncCall → RetVal × World
  | .deviceManagerEnumerateDevices handle =>
    let o := Java_dev_supersam_frida_FridaNative_deviceManagerEnumerateDevices F w handle
    (.jlongArray o.1, o.2)
  | .deviceManagerGetDeviceById handle jid timeout =>
    let o := Java_dev_supersam_frida_FridaNative_deviceManagerGetDeviceById F w handle jid timeout
    (.jlong o.1, o.2)
  | .deviceEnumerateApplications handle scope =>
    let o := Java_dev_supersam_frida_FridaNative_deviceEnumerateApplications F w handle scope
    (.jlongArray o.1, o.2)
  | .deviceEnumerateProcesses handle scope =>
    let o := Java_dev_supersam_frida_FridaNative_deviceEnumerateProcesses F w handle scope
    (.jlongArray o.1, o.2)
  | .deviceAttach handle pid =>
    let o := Java_dev_supersam_frida_FridaNative_deviceAttach F w handle pid
    (.jlong o.1, o.2)
  | .deviceSpawn handle jprogram =>
    let o := Java_dev_supersam_frida_FridaNative_deviceSpawn F w handle jprogram
    (.jint o.1, o.2)
  | .deviceResume handle pid =>
    (.void, Java_dev_supersam_frida_FridaNative_deviceResume F w handle pid)
  | .sessionCreateScript handle jsource =>
    let o := Java_dev_supersam_frida_FridaNative_sessionCreateScript F w handle jsource
    (.jlong o.1, o.2)
  | .sessionDetach handle =>
    (.void, Java_dev_supersam_frida_FridaNative_sessionDetach F w handle)
  | .scriptLoad handle =>
    (.void, Java_dev_supersam_frida_FridaNative_scriptLoad F w handle)
  | .scriptUnload handle =>
    (.void, Java_dev_supersam_frida_FridaNative_scriptUnload F w handle)
  | .deviceEnableSpawnGating handle =>
    (.void, Java_dev_supersam_frida_FridaNative_deviceEnableSpawnGating F w handle)
  | .deviceDisableSpawnGating handle =>
    (.void, Java_dev_supersam_frida_FridaNative_deviceDisableSpawnGating F w handle)
  | .deviceEnumeratePendingChildren handle =>
    let o := Java_dev_supersam_frida_FridaNative_deviceEnumeratePendingChildren F w handle
    (.jlongArray o.1, o.2)
  | .deviceManagerAddRemoteDevice handle jaddress =>
    let o := Java_dev_supersam_frida_FridaNative_deviceManagerAddRemoteDevice F w handle jaddress
    (.jlong o.1, o.2)
  | .deviceManagerRemoveRemoteDevice handle jaddress =>
    (.void, Java_dev_supersam_frida_FridaNative_deviceManagerRemoveRemoteDevice F w handle jaddress)
  | .sessionSnapshotScript handle jembedScript jwarmupScript =>
    let o := Java_dev_supersam_frida_FridaNative_sessionSnapshotScript F w handle jembedScript
      jwarmupScript
    (.jbyteArray o.1, o.2)
  | .sessionCreateScriptFromSnapshot handle jsource jsnapshot =>
    let o := Java_dev_supersam_frida_FridaNative_sessionCreateScriptFromSnapshot F w handle
      jsource jsnapshot
    (.jlong o.1, o.2)

/-- The snapshot options `sessionSnapshotScript` passes to frida-core. -/
def snapshotOptionsFor (F : FridaCore) (jwarmupScript : Option String) : FridaSnapshotOptions :=
  match jwarmupScript with
  | none => F.frida_snapshot_options_new
  | some js =>
    if js ≠ "" then frida_snapshot_options_set_warmup_script F.frida_snapshot_options_new js
    else F.frida_snapshot_options_new

/-- The script options `sessionCreateScriptFromSnapshot` passes to frida-core. -/
def scriptOptionsFor (F : FridaCore) (jsnapshot : List Byte) : FridaScriptOptions :=
  frida_script_options_set_snapshot F.frida_script_options_new
    (g_bytes_new F (GetByteArrayElements jsnapshot) (jsizeToGsize (GetArrayLength jsnapshot)))

/-- What the frida-core call made by the wrapper stores through `&error`. -/
def SyncCall.nativeError (F : FridaCore) : SyncCall → Option GError
  | .deviceManagerEnumerateDevices handle =>
    (F.frida_device_manager_enumerate_devices_sync (jlongToPtr handle)).error
  | .deviceManagerGetDeviceById handle jid timeout =>
    (F.frida_device_manager_get_device_by_id_sync (jlongToPtr handle) jid timeout).error
  | .deviceEnumerateApplications handle scope =>
    (F.frida_device_enumerate_applications_sync (jlongToPtr handle)
      (query_options_set_scope F.frida_application_query_options_new scope)).error
  | .deviceEnumerateProcesses handle scope =>
    (F.frida_device_enumerate_processes_sync (jlongToPtr handle)
      (query_options_set_scope F.frida_process_query_options_new scope)).error
  | .deviceAttach handle pid =>
    (F.frida_device_attach_sync (jlongToPtr handle) (jintToGuint pid)).error
  | .deviceSpawn handle jprogram => (F.frida_device_spawn_sync (jlongToPtr handle) jprogram).error
  | .deviceResume handle pid =>
    (F.frida_device_resume_sync (jlongToPtr handle) (jintToGuint pid)).error
  | .sessionCreateScript handle jsource =>
    (F.frida_session_create_script_sync (jlongToPtr handle) jsource
      F.frida_script_options_new).error
  | .sessionDetach handle => (F.frida_session_detach_sync (jlongToPtr handle)).error
  | .scriptLoad handle => (F.frida_script_load_sync (jlongToPtr handle)).error
  | .scriptUnload handle => (F.frida_script_unload_sync (jlongToPtr handle)).error
  | .deviceEnableSpawnGating handle =>
    (F.frida_device_enable_spawn_gating_sync (jlongToPtr handle)).error
  | .deviceDisableSpawnGating handle =>
    (F.frida_device_disable_spawn_gating_sync (jlongToPtr handle)).error
  | .deviceEnumeratePendingChildren handle =>
    (F.frida_device_enumerate_pending_children_sync (jlongToPtr handle)).error
  | .deviceManagerAddRemoteDevice handle jaddress =>
    (F.frida_device_manager_add_remote_device_sync (jlongToPtr handle) jaddress).error
  | .deviceManagerRemoveRemoteDevice handle jaddress =>
    (F.frida_device_manager_remove_remote_device_sync (jlongToPtr handle) jaddress).error
  | .sessionSnapshotScript handle jembedScript jwarmupScript =>
    (F.frida_session_snapshot_script_sync (jlongToPtr handle) jembedScript
      (snapshotOptionsFor F jwarmupScript)).error
  | .sessionCreateScriptFromSnapshot handle jsource jsnapshot =>
    (F.frida_session_create_script_sync (jlongToPtr handle) jsource
      (scriptOptionsFor F jsnapshot)).error

/-- The object pointer the frida-core call returns, for the wrappers whose result is a handle. -/
def SyncCall.nativeHandle (F : FridaCore) : SyncCall → Option Ptr
  | .deviceManagerGetDeviceById handle jid timeout =>
    some (F.frida_device_manager_get_device_by_id_sync (jlongToPtr handle) jid timeout).value
  | .deviceAttach handle pid =>
    some (F.frida_device_attach_sync (jlongToPtr handle) (jintToGuint pid)).value
  | .sessionCreateScript handle jsource =>
    some (F.frida_session_create_script_sync (jlongToPtr handle) jsource
      F.frida_script_options_new).value
  | .deviceManagerAddRemoteDevice handle jaddress =>
    some (F.frida_device_manager_add_remote_device_sync (jlongToPtr handle) jaddress).value
  | .sessionCreateScriptFromSnapshot handle jsource jsnapshot =>
    some (F.frida_session_create_script_sync (jlongToPtr handle) jsource
      (scriptOptionsFor F jsnapshot)).value
  | _ => none

/-- The managed exceptions thrown by the bridge, in order. -/
def thrownOf (ops : List Op) : List Throwable :=
  ops.filterMap (fun o => match o with
    | .ThrowNew cls message => some ⟨cls, message⟩
    | _ => none)

/-- The native errors freed by the bridge, in order. -/
def freedOf (ops : List Op) : List GError :=
  ops.filterMap (fun o => match o with
    | .g_error_free e => some e
    | _ => none)

/-- The part of the world that error translation is about. -/
structure ErrView where
  pending : Option Throwable
  thrown : List Throwable
  freed : List GError

/-- The error-translation view of a world. -/
def World.errView (w : World) : ErrView :=
  ⟨w.pending, thrownOf w.ops, freedOf w.ops⟩

/-- What error translation must leave behind, given the error frida-core reported. -/
def errExpected (v : ErrView) : Option GError → ErrView
  | none => v
  | some e => ⟨some ⟨"java/lang/RuntimeException", e.message⟩,
       v.thrown ++ [⟨"java/lang/RuntimeException", e.message⟩], v.freed ++ [e]⟩

/-! ## Subscription primitives -/

/-- JNI call `env->GetJavaVM(&vm)`. -/
def GetJavaVM (w : World) : JavaVM :=
  w.jvm

/-- JNI call `env->NewGlobalRef(obj)`: a new global reference to the object.  Handles are
numbered in creation order, so a handle names the one `NewGlobalRef` call that made it. -/
def NewGlobalRef (w : World) (obj : jobject) : jobject × World :=
  (w.nextGlobalRef,
   { w with globalRefs := w.globalRefs ++ [(w.nextGlobalRef, obj)],
            nextGlobalRef := w.nextGlobalRef + 1,
            ops := w.ops ++ [Op.NewGlobalRef obj w.nextGlobalRef] })

/-- JNI call `env->DeleteGlobalRef(ref)`: the global reference with that handle is gone. -/
def DeleteGlobalRef (w : World) (ref : jobject) : World :=
  { w with globalRefs := w.globalRefs.filter (fun g => !decide (g.1 = ref)),
           ops := w.ops ++ [Op.DeleteGlobalRef ref] }

/-- JNI call `env->GetObjectClass(obj)`: the class, named by the object it was asked for. -/
def GetObjectClass (obj : jobject) : jobject :=
  obj

/-- JNI call `env->GetMethodID(cls, name, sig)`. -/
def GetMethodID (_cls : jobject) (name : String) (sig : String) : jmethodID :=
  ⟨name, sig⟩

/-- GLib call `g_signal_connect(instance, detailed_signal, c_handler, data)`: the handler is
appended to the handlers installed and gets the next handler id. -/
def g_signal_connect (w : World) (inst : Ptr) (detailed_signal : String) (c_handler : GCallback)
    (data : Ptr) : Nat × World :=
  (w.nextHandlerId,
   { w with handlers :=
              w.handlers ++ [⟨inst, detailed_signal, c_handler, data, w.nextHandlerId⟩],
            nextHandlerId := w.nextHandlerId + 1,
            ops := w.ops ++ [Op.g_signal_connect inst detailed_signal w.nextHandlerId] })

/-- GLib call `g_signal_handler_disconnect(instance, handler_id)`: removes the handler with
that id from that instance; a handler id that is not connected to the instance removes
nothing. -/
def g_signal_handler_disconnect (w : World) (inst : Ptr) (handler_id : Nat) : World :=
  { w with handlers := w.handlers.filter
             (fun h => !(decide (h.inst = inst) && decide (h.id = handler_id))),
           ops := w.ops ++ [Op.g_signal_handler_disconnect inst handler_id] }

/-- Operator `new T()` answering the address `p`: a value-initialised record now lives at `p`. -/
def opNew (w : World) (p : Ptr) : World :=
  { w with heap := Function.update w.heap p (some ⟨⟨false, false⟩, 0, ⟨"", ""⟩, 0⟩),
           ops := w.ops ++ [Op.opNew p] }

/-- The assignments to the four fields of the record at `p`. -/
def store (w : World) (p : Ptr) (d : SignalData) : World :=
  { w with heap := Function.update w.heap p (some d) }

/-- Operator `delete data`: the record at `p` is gone. -/
def opDelete (w : World) (p : Ptr) : World :=
  { w with heap := Function.update w.heap p none, ops := w.ops ++ [Op.opDelete p] }

/-! ## Connect and disconnect -/

/-- Wrapper `Java_dev_supersam_frida_FridaNative_sessionConnectDetached`; `fresh` is the
address `new` answers. -/
def Java_dev_supersam_frida_FridaNative_sessionConnectDetached (w : World) (handle : jlong)
    (callback : jobject) (fresh : Ptr) : jlong × World :=
  let session := jlongToPtr handle
  let data := fresh
  let w1 := opNew w data
  let jvm := GetJavaVM w1
  let g := NewGlobalRef w1 callback
  let cbCls := GetObjectClass callback
  let methodId := GetMethodID cbCls "onDetached" "(I)V"
  let c := g_signal_connect g.2 session "detached" GCallback.on_session_detached data
  let w2 := store c.2 data ⟨jvm, g.1, methodId, c.1⟩
  (ptrToJlong data, w2)

/-- Wrapper `Java_dev_supersam_frida_FridaNative_sessionDisconnectDetached`. -/
def Java_dev_supersam_frida_FridaNative_sessionDisconnectDetached (w : World) (handle : jlong)
    (cbHandle : jlong) : Except Fault World :=
  let session := jlongToPtr handle
  let data := jlongToPtr cbHandle
  if data ≠ 0 then
    match w.heap data with
    | none => .error (.invalidRead data)
    | some d =>
      let w1 := g_signal_handler_disconnect w session d.handlerId
      let w2 := DeleteGlobalRef w1 d.callback
      .ok (opDelete w2 data)
  else .ok w

/-- Wrapper `Java_dev_supersam_frida_FridaNative_scriptConnectMessage`. -/
def Java_dev_supersam_frida_FridaNative_scriptConnectMessage (w : World) (handle : jlong)
    (callback : jobject) (fresh : Ptr) : jlong × World :=
  let script := jlongToPtr handle
  let data := fresh
  let w1 := opNew w data
  let jvm := GetJavaVM w1
  let g := NewGlobalRef w1 callback
  let cbCls := GetObjectClass callback
  let methodId := GetMethodID cbCls "onMessage" "(Ljava/lang/String;)V"
  let c := g_signal_connect g.2 script "message" GCallback.on_script_message data
  let w2 := store c.2 data ⟨jvm, g.1, methodId, c.1⟩
  (ptrToJlong data, w2)

/-- Wrapper `Java_dev_supersam_frida_FridaNative_scriptDisconnectMessage`. -/
def Java_dev_supersam_frida_FridaNative_scriptDisconnectMessage (w : World) (handle : jlong)
    (cbHandle : jlong) : Except Fault World :=
  let script := jlongToPtr handle
  let data := jlongToPtr cbHandle
  if data ≠ 0 then
    match w.heap data with
    | none => .error (.invalidRead data)
    | some d =>
      let w1 := g_signal_handler_disconnect w script d.handlerId
      let w2 := DeleteGlobalRef w1 d.callback
      .ok (opDelete w2 data)
  else .ok w

/-- Function `connect_child_signal`. -/
def connect_child_signal (w : World) (handle : jlong) (cb : jobject) (signal : String)
    (fn : GCallback) (fresh : Ptr) : jlong × World :=
  let data := fresh
  let w1 := opNew w data
  let jvm := GetJavaVM w1
  let g := NewGlobalRef w1 cb
  let methodId := GetMethodID (GetObjectClass cb) "onChild" "(J)V"
  let c := g_signal_connect g.2 (jlongToPtr handle) signal fn data
  let w2 := store c.2 data ⟨jvm, g.1, methodId, c.1⟩
  (ptrToJlong data, w2)

/-- Function `disconnect_child_signal`. -/
def disconnect_child_signal (w : World) (handle : jlong) (cbHandle : jlong) (isDevice : Bool) :
    Except Fault World :=
  let data := jlongToPtr cbHandle
  if data ≠ 0 then
    match w.heap data with
    | none => .error (.invalidRead data)
    | some d =>
      let w1 := if isDevice then g_signal_handler_disconnect w (jlongToPtr handle) d.handlerId
                else w
      let w2 := DeleteGlobalRef w1 d.callback
      .ok (opDelete w2 data)
  else .ok w

/-- Wrapper `Java_dev_supersam_frida_FridaNative_deviceConnectChildAdded`. -/
def Java_dev_supersam_frida_FridaNative_deviceConnectChildAdded (w : World) (handle : jlong)
    (cb : jobject) (fresh : Ptr) : jlong × World :=
  connect_child_signal w handle cb "child-added" GCallback.on_child_added fresh

/-- Wrapper `Java_dev_supersam_frida_FridaNative_deviceDisconnectChildAdded`. -/
def Java_dev_supersam_frida_FridaNative_deviceDisconnectChildAdded (w : World) (handle : jlong)
    (cbHandle : jlong) : Except Fault World :=
  disconnect_child_signal w handle cbHandle true

/-- Wrapper `Java_dev_supersam_frida_FridaNative_deviceConnectChildRemoved`. -/
def Java_dev_supersam_frida_FridaNative_deviceConnectChildRemoved (w : World) (handle : jlong)
    (cb : jobject) (fresh : Ptr) : jlong × World :=
  connect_child_signal w handle cb "child-removed" GCallback.on_child_removed fresh

/-- Wrapper `Java_dev_supersam_frida_FridaNative_deviceDisconnectChildRemoved`. -/
def Java_dev_supersam_frida_FridaNative_deviceDisconnectChildRemoved (w : World) (handle : jlong)
    (cbHandle : jlong) : Except Fault World :=
  disconnect_child_signal w handle cbHandle true

/-- Function `connect_device_signal`. -/
def connect_device_signal (w : World) (handle : jlong) (cb : jobject) (signal : String)
    (fn : GCallback) (fresh : Ptr) : jlong × World :=
  let data := fresh
  let w1 := opNew w data
  let jvm := GetJavaVM w1
  let g := NewGlobalRef w1 cb
  let methodId := GetMethodID (GetObjectClass cb) "onDevice" "(J)V"
  let c := g_signal_connect g.2 (jlongToPtr handle) signal fn data
  let w2 := store c.2 data ⟨jvm, g.1, methodId, c.1⟩
  (ptrToJlong data, w2)

/-- Function `disconnect_device_signal`. -/
def disconnect_device_signal (w : World) (handle : jlong) (cbHandle : jlong) :
    Except Fault World :=
  let data := jlongToPtr cbHandle
  if data ≠ 0 then
    match w.heap data with
    | none => .error (.invalidRead data)
    | some d =>
      let w1 := g_signal_handler_disconnect w (jlongToPtr handle) d.handlerId
      let w2 := DeleteGlobalRef w1 d.callback
      .ok (opDelete w2 data)
  else .ok w

/-- Wrapper `Java_dev_supersam_frida_FridaNative_deviceManagerConnectAdded`. -/
def Java_dev_supersam_frida_FridaNative_deviceManagerConnectAdded (w : World) (handle : jlong)
    (cb : jobject) (fresh : Ptr) : jlong × World :=
  connect_device_signal w handle cb "added" GCallback.on_device_added fresh

/-- Wrapper `Java_dev_supersam_frida_FridaNative_deviceManagerDisconnectAdded`. -/
def Java_dev_supersam_frida_FridaNative_deviceManagerDisconnectAdded (w : World) (handle : jlong)
    (cbHandle : jlong) : Except Fault World :=
  disconnect_device_signal w handle cbHandle

/-- Wrapper `Java_dev_supersam_frida_FridaNative_deviceManagerConnectRemoved`. -/
def Java_dev_supersam_frida_FridaNative_deviceManagerConnectRemoved (w : World) (handle : jlong)
    (cb : jobject) (fresh : Ptr) : jlong × World :=
  connect_device_signal w handle cb "removed" GCallback.on_device_removed fresh

/-- Wrapper `Java_dev_supersam_frida_FridaNative_deviceManagerDisconnectRemoved`. -/
def Java_dev_supersam_frida_FridaNative_deviceManagerDisconnectRemoved (w : World)
    (handle : jlong) (cbHandle : jlong) : Except Fault World :=
  disconnect_device_signal w handle cbHandle

/-- Wrapper `Java_dev_supersam_frida_FridaNative_deviceManagerConnectChanged`. -/
def Java_dev_supersam_frida_FridaNative_deviceManagerConnectChanged (w : World) (handle : jlong)
    (cb : jobject) (fresh : Ptr) : jlong × World :=
  let data := fresh
  let w1 := opNew w data
  let jvm := GetJavaVM w1
  let g := NewGlobalRef w1 cb
  let methodId := GetMethodID (GetObjectClass cb) "onChange" "()V"
  let c := g_signal_connect g.2 (jlongToPtr handle) "changed" GCallback.on_device_changed data
  let w2 := store c.2 data ⟨jvm, g.1, methodId, c.1⟩
  (ptrToJlong data, w2)

/-- Wrapper `Java_dev_supersam_frida_FridaNative_deviceManagerDisconnectChanged`. -/
def Java_dev_supersam_frida_FridaNative_deviceManagerDisconnectChanged (w : World)
    (handle : jlong) (cbHandle : jlong) : Except Fault World :=
  let data := jlongToPtr cbHandle
  if data ≠ 0 then
    match w.heap data with
    | none => .error (.invalidRead data)
    | some d =>
      let w1 := g_signal_handler_disconnect w (jlongToPtr handle) d.handlerId
      let w2 := DeleteGlobalRef w1 d.callback
      .ok (opDelete w2 data)
  else .ok w

/-- Wrapper `Java_dev_supersam_frida_FridaNative_scriptConnectDestroyed`. -/
def Java_dev_supersam_frida_FridaNative_scriptConnectDestroyed (w : World) (handle : jlong)
    (callback : jobject) (fresh : Ptr) : jlong × World :=
  let script := jlongToPtr handle
  let data := fresh
  let w1 := opNew w data
  let jvm := GetJavaVM w1
  let g := NewGlobalRef w1 callback
  let methodId := GetMethodID (GetObjectClass callback) "onDestroyed" "()V"
  let c := g_signal_connect g.2 script "destroyed" GCallback.on_script_destroyed data
  let w2 := store c.2 data ⟨jvm, g.1, methodId, c.1⟩
  (ptrToJlong data, w2)

/-- Wrapper `Java_dev_supersam_frida_FridaNative_scriptDisconnectDestroyed`. -/
def Java_dev_supersam_frida_FridaNative_scriptDisconnectDestroyed (w : World) (handle : jlong)
    (cbHandle : jlong) : Except Fault World :=
  let script := jlongToPtr handle
  let data := jlongToPtr cbHandle
  if data ≠ 0 then
    match w.heap data with
    | none => .error (.invalidRead data)
    | some d =>
      let w1 := g_signal_handler_disconnect w script d.handlerId
      let w2 := DeleteGlobalRef w1 d.callback
      .ok (opDelete w2 data)
  else .ok w

/-! ## Thread attachment and managed calls -/

/-- The result codes of `GetEnv` that the bridge can see. -/
inductive JniResult
  | JNI_OK
  | JNI_EDETACHED
  | JNI_EVERSION
deriving DecidableEq, Repr

/-- JNI call `vm->GetEnv(&env, JNI_VERSION_1_8)`: the result code, and whether `env` is non-null
afterwards.  A thread that is not attached gets `JNI_EDETACHED`; an attached thread gets its
environment unless the version is not supported. -/
def GetEnv (vm : JavaVM) (w : World) : JniResult × Bool :=
  if w.attached then
    if vm.supportsVersion then (JniResult.JNI_OK, true) else (JniResult.JNI_EVERSION, false)
  else (JniResult.JNI_EDETACHED, false)

/-- JNI call `vm->AttachCurrentThread(&env, nullptr)`: whether `env` is non-null afterwards, and the
world; the thread is attached when the JVM accepts it. -/
def AttachCurrentThread (vm : JavaVM) (w : World) : Bool × World :=
  if vm.attachSucceeds then
    (true, { w with attached := true, ops := w.ops ++ [Op.AttachCurrentThread] })
  else (false, { w with ops := w.ops ++ [Op.AttachCurrentThread] })

/-- JNI call `vm->DetachCurrentThread()`. -/
def DetachCurrentThread (_vm : JavaVM) (w : World) : World :=
  { w with attached := false, ops := w.ops ++ [Op.DetachCurrentThread] }

/-- JNI call `env->CallVoidMethod(obj, methodId, args...)`: the method runs; an exception it raises
becomes pending. -/
def CallVoidMethod (M : Managed) (w : World) (obj : jobject) (methodId : jmethodID)
    (args : List jvalue) : World :=
  { w with calls := w.calls ++ [⟨obj, methodId, args⟩],
           pending := (match M ⟨obj, methodId, args⟩ with
             | some t => some t
             | none => w.pending),
           ops := w.ops ++ [Op.CallVoidMethod ⟨obj, methodId, args⟩] }

/-- JNI call `env->ExceptionCheck()`. -/
def ExceptionCheck (w : World) : Bool :=
  w.pending.isSome

/-- JNI call `env->ExceptionClear()`. -/
def ExceptionClear (w : World) : World :=
  { w with pending := none, ops := w.ops ++ [Op.ExceptionClear] }

/-- JNI call `env->NewStringUTF(chars)`: the managed string with those characters. -/
def NewStringUTF (chars : String) : String :=
  chars

/-! ## Event dispatchers -/

/-- Function `on_session_detached`. -/
def on_session_detached (M : Managed) (w : World) (_session : Ptr) (reason : Int) (_crash : Ptr)
    (user_data : Ptr) : Except Fault World :=
  match w.heap user_data with
  | none => .error (.invalidRead user_data)
  | some data =>
    let q := GetEnv data.jvm w
    let a : (Bool × Bool) × World :=
      if q.1 = JniResult.JNI_EDETACHED then
        let t := AttachCurrentThread data.jvm w
        ((t.1, true), t.2)
      else ((q.2, false), w)
    let env := a.1.1
    let attached := a.1.2
    let w1 :=
      if env then
        let w2 := CallVoidMethod M a.2 data.callback data.methodId [jvalue.i reason]
        if ExceptionCheck w2 then ExceptionClear w2 else w2
      else a.2
    .ok (if attached then DetachCurrentThread data.jvm w1 else w1)

/-- Function `on_script_message`. -/
def on_script_message (M : Managed) (w : World) (_script : Ptr) (message : String)
    (_data_bytes : Ptr) (user_data : Ptr) : Except Fault World :=
  match w.heap user_data with
  | none => .error (.invalidRead user_data)
  | some data =>
    let q := GetEnv data.jvm w
    let a : (Bool × Bool) × World :=
      if q.1 = JniResult.JNI_EDETACHED then
        let t := AttachCurrentThread data.jvm w
        ((t.1, true), t.2)
      else ((q.2, false), w)
    let env := a.1.1
    let attached := a.1.2
    let w1 :=
      if env then
        let jmsg := NewStringUTF message
        let w2 := CallVoidMethod M a.2 data.callback data.methodId [jvalue.l jmsg]
        if ExceptionCheck w2 then ExceptionClear w2 else w2
      else a.2
    .ok (if attached then DetachCurrentThread data.jvm w1 else w1)

/-- Function `dispatch_child`; the `Bool` is whether `*out_env` is non-null on return. -/
def dispatch_child (M : Managed) (w : World) (data : Ptr) (child : Ptr) (_out_env : Bool) :
    Except Fault (Bool × World) :=
  match w.heap data with
  | none => .error (.invalidRead data)
  | some d =>
    let q := GetEnv d.jvm w
    let a : (Bool × Bool) × World :=
      if q.1 = JniResult.JNI_EDETACHED then
        let t := AttachCurrentThread d.jvm w
        ((t.1, true), t.2)
      else ((q.2, false), w)
    let out_env := a.1.1
    let attached := a.1.2
    let w1 :=
      if out_env then
        let wr := g_object_ref a.2 child
        let w2 := CallVoidMethod M wr d.callback d.methodId [jvalue.j (ptrToJlong child)]
        if ExceptionCheck w2 then ExceptionClear w2 else w2
      else a.2
    .ok (out_env, if attached then DetachCurrentThread d.jvm w1 else w1)

/-- Function `on_child_added`. -/
def on_child_added (M : Managed) (w : World) (_dev : Ptr) (child : Ptr) (ud : Ptr) :
    Except Fault World :=
  let env := false
  match dispatch_child M w ud child env with
  | .error f => .error f
  | .ok r => .ok r.2

/-- Function `on_child_removed`. -/
def on_child_removed (M : Managed) (w : World) (_dev : Ptr) (child : Ptr) (ud : Ptr) :
    Except Fault World :=
  let env := false
  match dispatch_child M w ud child env with
  | .error f => .error f
  | .ok r => .ok r.2

/-- Function `on_device_added`. -/
def on_device_added (M : Managed) (w : World) (_mgr : Ptr) (device : Ptr) (ud : Ptr) :
    Except Fault World :=
  match w.heap ud with
  | none => .error (.invalidRead ud)
  | some data =>
    let q := GetEnv data.jvm w
    let a : (Bool × Bool) × World :=
      if q.1 = JniResult.JNI_EDETACHED then
        let t := AttachCurrentThread data.jvm w
        ((t.1, true), t.2)
      else ((q.2, false), w)
    let env := a.1.1
    let attached := a.1.2
    let w1 :=
      if env then
        let wr := g_object_ref a.2 device
        let w2 := CallVoidMethod M wr data.callback data.methodId [jvalue.j (ptrToJlong device)]
        if ExceptionCheck w2 then ExceptionClear w2 else w2
      else a.2
    .ok (if attached then DetachCurrentThread data.jvm w1 else w1)

/-- Function `on_device_removed`. -/
def on_device_removed (M : Managed) (w : World) (_mgr : Ptr) (device : Ptr) (ud : Ptr) :
    Except Fault World :=
  match w.heap ud with
  | none => .error (.invalidRead ud)
  | some data =>
    let q := GetEnv data.jvm w
    let a : (Bool × Bool) × World :=
      if q.1 = JniResult.JNI_EDETACHED then
        let t := AttachCurrentThread data.jvm w
        ((t.1, true), t.2)
      else ((q.2, false), w)
    let env := a.1.1
    let attached := a.1.2
    let w1 :=
      if env then
        let wr := g_object_ref a.2 device
        let w2 := CallVoidMethod M wr data.callback data.methodId [jvalue.j (ptrToJlong device)]
        if ExceptionCheck w2 then ExceptionClear w2 else w2
      else a.2
    .ok (if attached then DetachCurrentThread data.jvm w1 else w1)

/-- Function `on_device_changed`. -/
def on_device_changed (M : Managed) (w : World) (_mgr : Ptr) (ud : Ptr) : Except Fault World :=
  match w.heap ud with
  | none => .error (.invalidRead ud)
  | some data =>
    let q := GetEnv data.jvm w
    let a : (Bool × Bool) × World :=
      if q.1 = JniResult.JNI_EDETACHED then
        let t := AttachCurrentThread data.jvm w
        ((t.1, true), t.2)
      else ((q.2, false), w)
    let env := a.1.1
    let attached := a.1.2
    let w1 :=
      if env then
        let w2 := CallVoidMethod M a.2 data.callback data.methodId []
        if ExceptionCheck w2 then ExceptionClear w2 else w2
      else a.2
    .ok (if attached then DetachCurrentThread data.jvm w1 else w1)

/-- Function `on_script_destroyed`. -/
def on_script_destroyed (M : Managed) (w : World) (_script : Ptr) (user_data : Ptr) :
    Except Fault World :=
  match w.heap user_data with
  | none => .error (.invalidRead user_data)
  | some data =>
    let q := GetEnv data.jvm w
    let a : (Bool × Bool) × World :=
      if q.1 = JniResult.JNI_EDETACHED then
        let t := AttachCurrentThread data.jvm w
        ((t.1, true), t.2)
      else ((q.2, false), w)
    let env := a.1.1
    let attached := a.1.2
    let w1 :=
      if env then
        let w2 := CallVoidMethod M a.2 data.callback data.methodId []
        if ExceptionCheck w2 then ExceptionClear w2 else w2
      else a.2
    .ok (if attached then DetachCurrentThread data.jvm w1 else w1)

/-! ## The dispatchers as one family -/

/-- A call of one of the eight dispatchers by GLib, with its arguments. -/
inductive DispatchCall
  | on_session_detached (session : Ptr) (reason : Int) (crash : Ptr) (user_data : Ptr)
  | on_script_message (script : Ptr) (message : String) (data_bytes : Ptr) (user_data : Ptr)
  | on_script_destroyed (script : Ptr) (user_data : Ptr)
  | on_child_added (dev : Ptr) (child : Ptr) (ud : Ptr)
  | on_child_removed (dev : Ptr) (child : Ptr) (ud : Ptr)
  | on_device_added (mgr : Ptr) (device : Ptr) (ud : Ptr)
  | on_device_removed (mgr : Ptr) (device : Ptr) (ud : Ptr)
  | on_device_changed (mgr : Ptr) (ud : Ptr)
deriving DecidableEq, Repr

/-- Run the dispatcher a `DispatchCall` names. -/
def DispatchCall.run (M : Managed) (w : World) : DispatchCall → Except Fault World
  | .on_session_detached session reason crash user_data =>
    FridaJni.on_session_detached M w session reason crash user_data
  | .on_script_message script message data_bytes user_data =>
    FridaJni.on_script_message M w script message data_bytes user_data
  | .on_script_destroyed script user_data => FridaJni.on_script_destroyed M w script user_data
  | .on_child_added dev child ud => FridaJni.on_child_added M w dev child ud
  | .on_child_removed dev child ud => FridaJni.on_child_removed M w dev child ud
  | .on_device_added mgr device ud => FridaJni.on_device_added M w mgr device ud
  | .on_device_removed mgr device ud => FridaJni.on_device_removed M w mgr device ud
  | .on_device_changed mgr ud => FridaJni.on_device_changed M w mgr ud

/-- The `user_data` pointer of a dispatcher call: the subscription record. -/
def DispatchCall.userData : DispatchCall → Ptr
  | .on_session_detached _ _ _ user_data => user_data
  | .on_script_message _ _ _ user_data => user_data
  | .on_script_destroyed _ user_data => user_data
  | .on_child_added _ _ ud => ud
  | .on_child_removed _ _ ud => ud
  | .on_device_added _ _ ud => ud
  | .on_device_removed _ _ ud => ud
  | .on_device_changed _ ud => ud

/-- The event's arguments as the managed callback is to receive them: the detach reason as an
int, the message as a string, a child or device as its handle, nothing otherwise. -/
def DispatchCall.converted : DispatchCall → List jvalue
  | .on_session_detached _ reason _ _ => [jvalue.i reason]
  | .on_script_message _ message _ _ => [jvalue.l message]
  | .on_script_destroyed _ _ => []
  | .on_child_added _ child _ => [jvalue.j (ptrToJlong child)]
  | .on_child_removed _ child _ => [jvalue.j (ptrToJlong child)]
  | .on_device_added _ device _ => [jvalue.j (ptrToJlong device)]
  | .on_device_removed _ device _ => [jvalue.j (ptrToJlong device)]
  | .on_device_changed _ _ => []

/-- The native object an event carries, if any. -/
def DispatchCall.object : DispatchCall → Option Ptr
  | .on_child_added _ child _ => some child
  | .on_child_removed _ child _ => some child
  | .on_device_added _ device _ => some device
  | .on_device_removed _ device _ => some device
  | _ => none

/-- The shape the eight dispatchers share: read the record, get an environment (attaching a
detached thread), reference the event's object if it has one, call the method, clear a pending
exception, detach if attached here. -/
def dispatchCore (M : Managed) (w : World) (user_data : Ptr) (object : Option Ptr)
    (args : List jvalue) : Except Fault World :=
  match w.heap user_data with
  | none => .error (.invalidRead user_data)
  | some data =>
    let q := GetEnv data.jvm w
    let a : (Bool × Bool) × World :=
      if q.1 = JniResult.JNI_EDETACHED then
        let t := AttachCurrentThread data.jvm w
        ((t.1, true), t.2)
      else ((q.2, false), w)
    let w1 :=
      if a.1.1 then
        let wr := match object with
          | some p => g_object_ref a.2 p
          | none => a.2
        let w2 := CallVoidMethod M wr data.callback data.methodId args
        if ExceptionCheck w2 then ExceptionClear w2 else w2
      else a.2
    .ok (if a.1.2 then DetachCurrentThread data.jvm w1 else w1)

/-! ## The connect / disconnect pairs as one family -/

/-- The eight event kinds. -/
inductive EventKind
  | detached
  | message
  | destroyed
  | child_added
  | child_removed
  | added
  | removed
  | changed
deriving DecidableEq, Repr

/-- The connect wrapper of an event kind. -/
def EventKind.connect (k : EventKind) (w : World) (handle : jlong) (callback : jobject)
    (fresh : Ptr) : jlong × World :=
  match k with
  | .detached => Java_dev_supersam_frida_FridaNative_sessionConnectDetached w handle callback fresh
  | .message => Java_dev_supersam_frida_FridaNative_scriptConnectMessage w handle callback fresh
  | .destroyed => Java_dev_supersam_frida_FridaNative_scriptConnectDestroyed w handle callback fresh
  | .child_added =>
    Java_dev_supersam_frida_FridaNative_deviceConnectChildAdded w handle callback fresh
  | .child_removed =>
    Java_dev_supersam_frida_FridaNative_deviceConnectChildRemoved w handle callback fresh
  | .added => Java_dev_supersam_frida_FridaNative_deviceManagerConnectAdded w handle callback fresh
  | .removed =>
    Java_dev_supersam_frida_FridaNative_deviceManagerConnectRemoved w handle callback fresh
  | .changed =>
    Java_dev_supersam_frida_FridaNative_deviceManagerConnectChanged w handle callback fresh

/-- The disconnect wrapper of an event kind. -/
def EventKind.disconnect (k : EventKind) (w : World) (handle : jlong) (cbHandle : jlong) :
    Except Fault World :=
  match k with
  | .detached => Java_dev_supersam_frida_FridaNative_sessionDisconnectDetached w handle cbHandle
  | .message => Java_dev_supersam_frida_FridaNative_scriptDisconnectMessage w handle cbHandle
  | .destroyed => Java_dev_supersam_frida_FridaNative_scriptDisconnectDestroyed w handle cbHandle
  | .child_added => Java_dev_supersam_frida_FridaNative_deviceDisconnectChildAdded w handle cbHandle
  | .child_removed =>
    Java_dev_supersam_frida_FridaNative_deviceDisconnectChildRemoved w handle cbHandle
  | .added => Java_dev_supersam_frida_FridaNative_deviceManagerDisconnectAdded w handle cbHandle
  | .removed => Java_dev_supersam_frida_FridaNative_deviceManagerDisconnectRemoved w handle cbHandle
  | .changed => Java_dev_supersam_frida_FridaNative_deviceManagerDisconnectChanged w handle cbHandle

/-- The signal name of an event kind. -/
def EventKind.signal : EventKind → String
  | .detached => "detached"
  | .message => "message"
  | .destroyed => "destroyed"
  | .child_added => "child-added"
  | .child_removed => "child-removed"
  | .added => "added"
  | .removed => "removed"
  | .changed => "changed"

/-- The trampoline installed for an event kind. -/
def EventKind.c_handler : EventKind → GCallback
  | .detached => GCallback.on_session_detached
  | .message => GCallback.on_script_message
  | .destroyed => GCallback.on_script_destroyed
  | .child_added => GCallback.on_child_added
  | .child_removed => GCallback.on_child_removed
  | .added => GCallback.on_device_added
  | .removed => GCallback.on_device_removed
  | .changed => GCallback.on_device_changed

/-- The callback method resolved for an event kind. -/
def EventKind.methodId : EventKind → jmethodID
  | .detached => ⟨"onDetached", "(I)V"⟩
  | .message => ⟨"onMessage", "(Ljava/lang/String;)V"⟩
  | .destroyed => ⟨"onDestroyed", "()V"⟩
  | .child_added => ⟨"onChild", "(J)V"⟩
  | .child_removed => ⟨"onChild", "(J)V"⟩
  | .added => ⟨"onDevice", "(J)V"⟩
  | .removed => ⟨"onDevice", "(J)V"⟩
  | .changed => ⟨"onChange", "()V"⟩

/-- The record a connect call on world `w` builds. -/
def EventKind.record (k : EventKind) (w : World) : SignalData :=
  ⟨w.jvm, w.nextGlobalRef, k.methodId, w.nextHandlerId⟩

/-- The handler a connect call on world `w` installs. -/
def EventKind.installed (k : EventKind) (w : World) (handle : jlong) (fresh : Ptr) : Handler :=
  ⟨jlongToPtr handle, k.signal, k.c_handler, fresh, w.nextHandlerId⟩

/-- The shape the connect wrappers share. -/
def connectCore (k : EventKind) (w : World) (handle : jlong) (callback : jobject) (fresh : Ptr) :
    jlong × World :=
  (ptrToJlong fresh,
   { w with heap := Function.update w.heap fresh (some (k.record w)),
            globalRefs := w.globalRefs ++ [(w.nextGlobalRef, callback)],
            nextGlobalRef := w.nextGlobalRef + 1,
            handlers := w.handlers ++ [k.installed w handle fresh],
            nextHandlerId := w.nextHandlerId + 1,
            ops := w.ops ++ [Op.opNew fresh, Op.NewGlobalRef callback w.nextGlobalRef,
              Op.g_signal_connect (jlongToPtr handle) k.signal w.nextHandlerId] })

/-- The shape the disconnect wrappers share. -/
def disconnectCore (w : World) (handle : jlong) (cbHandle : jlong) : Except Fault World :=
  if jlongToPtr cbHandle = 0 then .ok w
  else
    match w.heap (jlongToPtr cbHandle) with
    | none => .error (.invalidRead (jlongToPtr cbHandle))
    | some d =>
      .ok { w with
        handlers := w.handlers.filter
          (fun h => !(decide (h.inst = jlongToPtr handle) && decide (h.id = d.handlerId))),
        globalRefs := w.globalRefs.filter (fun g => !decide (g.1 = d.callback)),
        heap := Function.update w.heap (jlongToPtr cbHandle) none,
        ops := w.ops ++ [Op.g_signal_handler_disconnect (jlongToPtr handle) d.handlerId,
          Op.DeleteGlobalRef d.callback, Op.opDelete (jlongToPtr cbHandle)] }

/-! ## Signal emission (GLib) -/

/-- An emission of one of the eight signals, with the arguments GLib passes to handlers. -/
inductive Emission
  | detached (reason : Int) (crash : Ptr)
  | message (message : String) (data_bytes : Ptr)
  | destroyed
  | child_added (child : Ptr)
  | child_removed (child : Ptr)
  | added (device : Ptr)
  | removed (device : Ptr)
  | changed
deriving DecidableEq, Repr

/-- The event kind of an emission. -/
def Emission.kind : Emission → EventKind
  | .detached _ _ => .detached
  | .message _ _ => .message
  | .destroyed => .destroyed
  | .child_added _ => .child_added
  | .child_removed _ => .child_removed
  | .added _ => .added
  | .removed _ => .removed
  | .changed => .changed

/-- The call GLib makes to a handler for an emission on `h.inst`: the trampoline receives the
instance, the signal's arguments and the handler's `data`.  (A trampoline of another signal's
type is never installed under this signal by the bridge.) -/
def Emission.call (e : Emission) (h : Handler) : Option DispatchCall :=
  match e, h.c_handler with
  | .detached reason crash, .on_session_detached =>
    some (.on_session_detached h.inst reason crash h.data)
  | .message msg data_bytes, .on_script_message =>
    some (.on_script_message h.inst msg data_bytes h.data)
  | .destroyed, .on_script_destroyed => some (.on_script_destroyed h.inst h.data)
  | .child_added child, .on_child_added => some (.on_child_added h.inst child h.data)
  | .child_removed child, .on_child_removed => some (.on_child_removed h.inst child h.data)
  | .added device, .on_device_added => some (.on_device_added h.inst device h.data)
  | .removed device, .on_device_removed => some (.on_device_removed h.inst device h.data)
  | .changed, .on_device_changed => some (.on_device_changed h.inst h.data)
  | _, _ => none

/-- The handlers GLib runs for an emission on `inst`: those installed on that instance under
that signal, in connection order. -/
def emittedTo (w : World) (inst : Ptr) (e : Emission) : List Handler :=
  w.handlers.filter (fun h => decide (h.inst = inst) && decide (h.detailed_signal = e.kind.signal))

/-- Run one handler for an emission. -/
def runHandler (M : Managed) (e : Emission) (w : World) (h : Handler) : Except Fault World :=
  match e.call h with
  | some c => c.run M w
  | none => .ok w

/-- Run the given handlers one after the other. -/
def runHandlers (M : Managed) (e : Emission) : World → List Handler → Except Fault World
  | w, [] => .ok w
  | w, h :: hs =>
    match runHandler M e w h with
    | .error f => .error f
    | .ok w1 => runHandlers M e w1 hs

/-- The emission of a signal on `inst`, on the current thread. -/
def g_signal_emit (M : Managed) (w : World) (inst : Ptr) (e : Emission) : Except Fault World :=
  runHandlers M e w (emittedTo w inst e)

/-- A native thread as a dispatcher finds it: attached or not, and its pending exception. -/
structure Thread where
  attached : Bool
  pending : Option Throwable
deriving DecidableEq, Repr

/-- The world seen from thread `t`. -/
def World.onThread (w : World) (t : Thread) : World :=
  { w with attached := t.attached, pending := t.pending }

/-- Whether a dispatcher with JVM `vm` obtains a managed environment on thread `t`: an attached
thread needs the JNI version to be supported, a detached one needs the attach to succeed. -/
def envObtained (vm : JavaVM) (t : Thread) : Bool :=
  if t.attached then vm.supportsVersion else vm.attachSucceeds

/-- Deliver a sequence of events to dispatchers, each on its own thread. -/
def deliver (M : Managed) : World → List (Thread × DispatchCall) → Except Fault World
  | w, [] => .ok w
  | w, tc :: rest =>
    match tc.2.run M (w.onThread tc.1) with
    | .error f => .error f
    | .ok w1 => deliver M w1 rest

/-! ## Enumerations -/

/-- The native list an enumeration wrapper walks: its address, the size the list reports and
its element accessor. -/
structure NativeList where
  list : Ptr
  size : Nat
  get : Nat → Ptr

/-- The list the frida-core call of an enumeration wrapper returns, with the accessors the
wrapper uses on it; `none` for the other wrappers. -/
def SyncCall.nativeList (F : FridaCore) : SyncCall → Option NativeList
  | .deviceManagerEnumerateDevices handle =>
    let list := (F.frida_device_manager_enumerate_devices_sync (jlongToPtr handle)).value
    some ⟨list, F.frida_device_list_size list, F.frida_device_list_get list⟩
  | .deviceEnumerateApplications handle scope =>
    let list := (F.frida_device_enumerate_applications_sync (jlongToPtr handle)
      (query_options_set_scope F.frida_application_query_options_new scope)).value
    some ⟨list, F.frida_application_list_size list, F.frida_application_list_get list⟩
  | .deviceEnumerateProcesses handle scope =>
    let list := (F.frida_device_enumerate_processes_sync (jlongToPtr handle)
      (query_options_set_scope F.frida_process_query_options_new scope)).value
    some ⟨list, F.frida_process_list_size list, F.frida_process_list_get list⟩
  | .deviceEnumeratePendingChildren handle =>
    let list := (F.frida_device_enumerate_pending_children_sync (jlongToPtr handle)).value
    some ⟨list, F.frida_child_list_size list, F.frida_child_list_get list⟩
  | _ => none

/-- How often the bridge called `g_object_ref` on `p`. -/
def refsTaken (ops : List Op) (p : Ptr) : Nat :=
  ops.count (Op.g_object_ref p)

/-! ## Sample inputs -/

/-- A world in which the bridge has done nothing yet, seen from an attached thread. -/
def World.start : World :=
  { refcount := fun _ => 1
    pending := none
    utfChars := []
    globalRefs := []
    nextGlobalRef := 1
    heap := fun _ => none
    handlers := []
    nextHandlerId := 1
    attached := true
    jvm := ⟨true, true⟩
    calls := []
    ops := [] }

/-- A frida-core whose calls succeed, whose lists have the two elements `8192` and `8208`, and
which does not know the device `"missing"`. -/
def FridaCore.sample : FridaCore :=
  { frida_device_manager_new := 128
    frida_device_manager_enumerate_devices_sync := fun _ => ⟨4096, none⟩
    frida_device_list_size := fun _ => 2
    frida_device_list_get := fun _ i => 8192 + 16 * i
    frida_device_manager_get_device_by_id_sync := fun _ id _ =>
      if id = "missing" then ⟨0, some ⟨"Device not found"⟩⟩ else ⟨12288, none⟩
    frida_application_query_options_new := ⟨256, 0⟩
    frida_device_enumerate_applications_sync := fun _ _ => ⟨4096, none⟩
    frida_application_list_size := fun _ => 2
    frida_application_list_get := fun _ i => 8192 + 16 * i
    frida_process_query_options_new := ⟨256, 0⟩
    frida_device_enumerate_processes_sync := fun _ _ => ⟨4096, none⟩
    frida_process_list_size := fun _ => 2
    frida_process_list_get := fun _ i => 8192 + 16 * i
    frida_device_attach_sync := fun _ _ => ⟨12288, none⟩
    frida_device_spawn_sync := fun _ _ => ⟨4242, none⟩
    frida_device_resume_sync := fun _ _ => ⟨(), none⟩
    frida_script_options_new := ⟨512, none⟩
    frida_session_create_script_sync := fun _ _ _ => ⟨16384, none⟩
    frida_session_detach_sync := fun _ => ⟨(), none⟩
    frida_script_load_sync := fun _ => ⟨(), none⟩
    frida_script_unload_sync := fun _ => ⟨(), none⟩
    frida_device_enable_spawn_gating_sync := fun _ => ⟨(), none⟩
    frida_device_disable_spawn_gating_sync := fun _ => ⟨(), none⟩
    frida_device_enumerate_pending_children_sync := fun _ => ⟨4096, none⟩
    frida_child_list_size := fun _ => 2
    frida_child_list_get := fun _ i => 8192 + 16 * i
    frida_device_manager_add_remote_device_sync := fun _ _ => ⟨12288, none⟩
    frida_device_manager_remove_remote_device_sync := fun _ _ => ⟨(), none⟩
    frida_snapshot_options_new := ⟨768, none⟩
    frida_session_snapshot_script_sync := fun _ _ _ => ⟨⟨20480, [1, 2, 3]⟩, none⟩
    g_bytes_new_addr := fun _ => 24576 }

/-! ## Well-formed worlds -/

/-- What GLib, the JVM and the bridge keep true of a world: handler ids and global reference
handles in use are below the next one to be handed out, and so are the global references
stored in live records. -/
def World.WF (w : World) : Prop :=
  (∀ h ∈ w.handlers, h.id < w.nextHandlerId) ∧
  (∀ g ∈ w.globalRefs, g.1 < w.nextGlobalRef) ∧
  (∀ p d, w.heap p = some d → d.callback < w.nextGlobalRef)

/-- What `new` promises about the address it answers: not null, a 64-bit address, and not the
address of a record that is still alive. -/
def World.isFresh (w : World) (p : Ptr) : Prop :=
  p ≠ 0 ∧ p < 2 ^ 64 ∧ w.heap p = none

/-! ## What one dispatch is expected to do -/

/-- The thread a dispatcher finds when it is entered in world `w`. -/
def World.thread (w : World) : Thread :=
  ⟨w.attached, w.pending⟩

/-- The native calls with an effect that a dispatcher is expected to make between attaching
and detaching: nothing when no environment is obtained; otherwise a reference on the event's
object if it has one, the managed call, and `ExceptionClear` when an exception is pending after
it. -/
def dispatchBody (M : Managed) (d : SignalData) (t : Thread) (object : Option Ptr)
    (args : List jvalue) : List Op :=
  if envObtained d.jvm t then
    (match object with
      | some p => [Op.g_object_ref p]
      | none => []) ++
    [Op.CallVoidMethod ⟨d.callback, d.methodId, args⟩] ++
    (if (M ⟨d.callback, d.methodId, args⟩).isSome || t.pending.isSome then [Op.ExceptionClear]
      else [])
  else []

/-- The managed invocations a dispatcher is expected to make: one when an environment is
obtained, none otherwise. -/
def dispatchCalls (d : SignalData) (t : Thread) (args : List jvalue) : List Invocation :=
  if envObtained d.jvm t then [⟨d.callback, d.methodId, args⟩] else []

/-- The start world after one `scriptConnectMessage` on object handle `1` with callback `7`, the
record at `4096`. -/
def World.subscribed : World :=
  (Java_dev_supersam_frida_FridaNative_scriptConnectMessage World.start 1 7 4096).2

/-- Managed code in which every callback raises. -/
def Managed.raising : Managed :=
  fun _ => some ⟨"java/lang/IllegalStateException", "callback failed"⟩

/-- Managed code in which every callback returns. -/
def Managed.quiet : Managed :=
  fun _ => none

/-- The record `World.subscribed` holds at `4096`. -/
def SignalData.sample : SignalData :=
  ⟨⟨true, true⟩, 1, ⟨"onMessage", "(Ljava/lang/String;)V"⟩, 1⟩

/-- A native thread that is not attached to the JVM. -/
def Thread.native : Thread :=
  ⟨false, none⟩

/-- A thread of the JVM, with no exception pending. -/
def Thread.managed : Thread :=
  ⟨true, none⟩

/-- Two messages for the record at `4096`, the first emitted on a native thread, the second on
a managed one. -/
def sampleEvents : List (Thread × DispatchCall) :=
  [(Thread.native, DispatchCall.on_script_message 1 "first" 0 4096),
   (Thread.managed, DispatchCall.on_script_message 1 "second" 0 4096)]

/-- A message for the record at `4096`. -/
def DispatchCall.sample : DispatchCall :=
  DispatchCall.on_script_message 1 "hello" 0 4096

/-! ## What one emission is expected to do -/

/-- The event's arguments as managed callbacks are to receive them. -/
def Emission.converted : Emission → List jvalue
  | .detached reason _ => [jvalue.i reason]
  | .message msg _ => [jvalue.l msg]
  | .destroyed => []
  | .child_added child => [jvalue.j (ptrToJlong child)]
  | .child_removed child => [jvalue.j (ptrToJlong child)]
  | .added device => [jvalue.j (ptrToJlong device)]
  | .removed device => [jvalue.j (ptrToJlong device)]
  | .changed => []

/-- The managed invocations expected from running one handler for an emission, on a thread
with the given attachment state. -/
def handlerCalls (w : World) (attached : Bool) (e : Emission) (h : Handler) : List Invocation :=
  match e.call h, w.heap h.data with
  | some c, some d => dispatchCalls d ⟨attached, none⟩ c.converted
  | _, _ => []

/-- The managed invocations expected from running handlers one after the other. -/
def emissionCalls (w : World) (attached : Bool) (e : Emission) : List Handler → List Invocation
  | [] => []
  | h :: hs => handlerCalls w attached e h ++ emissionCalls w attached e hs

/-- Every installed handler closes over a live record. -/
def World.handlersLive (w : World) : Prop :=
  ∀ h ∈ w.handlers, ∃ d, w.heap h.data = some d

/-- One later action on the bridge: a connect (with the address `new` answers), a disconnect
that returns, an emission on some thread that returns, or a synchronous call. -/
inductive Step : World → World → Prop
  | connect (k : EventKind) (w : World) (handle : jlong) (callback : jobject) (fresh : Ptr) :
      w.isFresh fresh → Step w (k.connect w handle callback fresh).2
  | disconnect (k : EventKind) (w : World) (handle : jlong) (cbHandle : jlong) (w1 : World) :
      k.disconnect w handle cbHandle = .ok w1 → Step w w1
  | emit (M : Managed) (w : World) (t : Thread) (inst : Ptr) (e : Emission) (w1 : World) :
      g_signal_emit M (w.onThread t) inst e = .ok w1 → Step w w1
  | sync (F : FridaCore) (w : World) (c : SyncCall) : Step w (c.run F w).2

/-- A subscription that is over: its handler token and its global reference have been handed
out, no installed handler has the token and no live record holds the reference. -/
def World.retired (w : World) (token : Nat) (ref : jobject) : Prop :=
  token < w.nextHandlerId ∧ ref < w.nextGlobalRef ∧
  (∀ h ∈ w.handlers, h.id ≠ token) ∧
  (∀ p d, w.heap p = some d → d.callback ≠ ref)

/-- The part of the world the subscription registry lives in. -/
structure Registry where
  heap : Ptr → Option SignalData
  handlers : List Handler
  nextHandlerId : Nat
  globalRefs : List (jobject × jobject)
  nextGlobalRef : Nat

/-- The registry view of a world. -/
def World.registry (w : World) : Registry :=
  ⟨w.heap, w.handlers, w.nextHandlerId, w.globalRefs, w.nextGlobalRef⟩

/-- The world expected after a connect on `w` and its matching disconnect: `w` with one handler
id and one global reference handle used up, and the six calls logged. -/
def afterPair (k : EventKind) (w : World) (handle : jlong) (callback : jobject) (fresh : Ptr) :
    World :=
  { w with
    nextGlobalRef := w.nextGlobalRef + 1,
    nextHandlerId := w.nextHandlerId + 1,
    ops := w.ops ++ [Op.opNew fresh, Op.NewGlobalRef callback w.nextGlobalRef,
      Op.g_signal_connect (jlongToPtr handle) k.signal w.nextHandlerId,
      Op.g_signal_handler_disconnect (jlongToPtr handle) w.nextHandlerId,
      Op.DeleteGlobalRef w.nextGlobalRef, Op.opDelete fresh] }

/-- Two connects in a row, for the same event kind on the same object. -/
def connectTwice (k : EventKind) (w : World) (handle : jlong) (cb1 cb2 : jobject)
    (fresh1 fresh2 : Ptr) : jlong × World :=
  k.connect (k.connect w handle cb1 fresh1).2 handle cb2 fresh2

/-- A message emission. -/
def Emission.sample : Emission :=
  Emission.message "hello" 0

/-! ## Sample inputs with a native object argument -/

/-- The start world after one `deviceConnectChildAdded` on object handle `1` with callback `7`,
the record at `4096`. -/
def World.childSubscribed : World :=
  (Java_dev_supersam_frida_FridaNative_deviceConnectChildAdded World.start 1 7 4096).2

/-- The record `World.childSubscribed` holds at `4096`. -/
def SignalData.childSample : SignalData :=
  ⟨⟨true, true⟩, 1, ⟨"onChild", "(J)V"⟩, 1⟩

/-- A child-added event carrying the child at `8192`, for the record at `4096`. -/
def DispatchCall.childSample : DispatchCall :=
  DispatchCall.on_child_added 1 8192 4096

/-! ## The wrappers that take a managed string -/

/-- A call of one of the eight wrappers that obtain a native copy of a managed string. -/
inductive StringCall
  | deviceManagerGetDeviceById (handle : jlong) (jid : String) (timeout : jint)
  | deviceSpawn (handle : jlong) (jprogram : String)
  | sessionCreateScript (handle : jlong) (jsource : String)
  | scriptPost (handle : jlong) (jmessage : String)
  | deviceManagerAddRemoteDevice (handle : jlong) (jaddress : String)
  | deviceManagerRemoveRemoteDevice (handle : jlong) (jaddress : String)
  | sessionSnapshotScript (handle : jlong) (jembedScript : String) (jwarmupScript : Option String)
  | sessionCreateScriptFromSnapshot (handle : jlong) (jsource : String) (jsnapshot : List Byte)

/-- The world after the wrapper a `StringCall` names has returned. -/
def StringCall.run (F : FridaCore) (w : World) : StringCall → World
  | .deviceManagerGetDeviceById handle jid timeout =>
    (Java_dev_supersam_frida_FridaNative_deviceManagerGetDeviceById F w handle jid timeout).2
  | .deviceSpawn handle jprogram =>
    (Java_dev_supersam_frida_FridaNative_deviceSpawn F w handle jprogram).2
  | .sessionCreateScript handle jsource =>
    (Java_dev_supersam_frida_FridaNative_sessionCreateScript F w handle jsource).2
  | .scriptPost handle jmessage =>
    Java_dev_supersam_frida_FridaNative_scriptPost w handle jmessage
  | .deviceManagerAddRemoteDevice handle jaddress =>
    (Java_dev_supersam_frida_FridaNative_deviceManagerAddRemoteDevice F w handle jaddress).2
  | .deviceManagerRemoveRemoteDevice handle jaddress =>
    Java_dev_supersam_frida_FridaNative_deviceManagerRemoveRemoteDevice F w handle jaddress
  | .sessionSnapshotScript handle jembedScript jwarmupScript =>
    (Java_dev_supersam_frida_FridaNative_sessionSnapshotScript F w handle jembedScript
      jwarmupScript).2
  | .sessionCreateScriptFromSnapshot handle jsource jsnapshot =>
    (Java_dev_supersam_frida_FridaNative_sessionCreateScriptFromSnapshot F w handle jsource
      jsnapshot).2

/-- The managed strings a wrapper obtains a native copy of, in the order it obtains them; a
null warm-up script is not copied. -/
def StringCall.strings : StringCall → List String
  | .deviceManagerGetDeviceById _ jid _ => [jid]
  | .deviceSpawn _ jprogram => [jprogram]
  | .sessionCreateScript _ jsource => [jsource]
  | .scriptPost _ jmessage => [jmessage]
  | .deviceManagerAddRemoteDevice _ jaddress => [jaddress]
  | .deviceManagerRemoveRemoteDevice _ jaddress => [jaddress]
  | .sessionSnapshotScript _ jembedScript none => [jembedScript]
  | .sessionSnapshotScript _ jembedScript (some jwarmupScript) => [jembedScript, jwarmupScript]
  | .sessionCreateScriptFromSnapshot _ jsource _ => [jsource]

/-- The `GetStringUTFChars` and `ReleaseStringUTFChars` calls among the calls made, in order. -/
def stringOps (ops : List Op) : List Op :=
  ops.filter (fun o => match o with
    | .GetStringUTFChars _ => true
    | .ReleaseStringUTFChars _ => true
    | _ => false)

/-- The part of the world that string marshalling is about: the outstanding copies and the
string calls made. -/
def World.strView (w : World) : List String × List Op :=
  (w.utfChars, stringOps w.ops)

/-! ## Sample inputs for snapshots -/

/-- The sample frida-core, except that a snapshot capture succeeds with a buffer of `2 ^ 32`
zero bytes at `20480`. -/
def FridaCore.hugeSnapshot : FridaCore :=
  { FridaCore.sample with
    frida_session_snapshot_script_sync := fun _ _ _ =>
      ⟨⟨20480, List.replicate 4294967296 0⟩, none⟩ }

/-! ## Sequences of connects and disconnects -/

/-- Every installed handler closes over a record that is alive and whose callback reference
is still held. -/
def World.handlersSound (w : World) : Prop :=
  ∀ h ∈ w.handlers, ∃ d, w.heap h.data = some d ∧ ∃ o, (d.callback, o) ∈ w.globalRefs

/-- What the registry keeps true under matched use: handler ids and global reference handles
in use are below the next ones; every installed handler closes over a live record that stores
the handler's id and a global reference that is still held; no two live records store the same
global reference. -/
def World.consistent (w : World) : Prop :=
  (∀ h ∈ w.handlers, h.id < w.nextHandlerId) ∧
  (∀ g ∈ w.globalRefs, g.1 < w.nextGlobalRef) ∧
  (∀ p d, w.heap p = some d → d.callback < w.nextGlobalRef) ∧
  (∀ h ∈ w.handlers, ∃ d, w.heap h.data = some d ∧ d.handlerId = h.id ∧
    ∃ o, (d.callback, o) ∈ w.globalRefs) ∧
  (∀ p q dp dq, w.heap p = some dp → w.heap q = some dq → dp.callback = dq.callback → p = q)

/-- A connect, or a disconnect that is given a live subscription handle together with the
object handle its handler is installed on. -/
inductive MatchedStep : World → World → Prop
  | connect (k : EventKind) (w : World) (handle : jlong) (callback : jobject) (fresh : Ptr) :
      w.isFresh fresh → MatchedStep w (k.connect w handle callback fresh).2
  | disconnect (k : EventKind) (w : World) (handle : jlong) (cbHandle : jlong) (d : SignalData)
      (w1 : World) :
      w.heap (jlongToPtr cbHandle) = some d →
      (∀ h ∈ w.handlers, h.data = jlongToPtr cbHandle → h.inst = jlongToPtr handle) →
      k.disconnect w handle cbHandle = .ok w1 → MatchedStep w w1

/-- The start world after a `message` connect (record at `4096`), its matching disconnect, and
a second `message` connect whose record `new` places at `4096` again. -/
def World.resubscribed : World :=
  (EventKind.message.connect (afterPair EventKind.message World.start 1 7 4096) 1 9 4096).2

/-! ## Properties -/

theorem thrownOf_append (a b : List Op) : thrownOf (a ++ b) = thrownOf a ++ thrownOf b := by
  simp [thrownOf, List.filterMap_append]

theorem freedOf_append (a b : List Op) : freedOf (a ++ b) = freedOf a ++ freedOf b := by
  simp [freedOf, List.filterMap_append]

theorem errView_frida_unref (w : World) (p : Ptr) : (frida_unref w p).errView = w.errView := by
  simp [frida_unref, World.errView, thrownOf_append, freedOf_append, thrownOf, freedOf]

theorem errView_g_bytes_unref (w : World) (p : Ptr) : (g_bytes_unref w p).errView = w.errView := by
  simp [g_bytes_unref, World.errView, thrownOf_append, freedOf_append, thrownOf, freedOf]

theorem errView_g_object_ref (w : World) (p : Ptr) : (g_object_ref w p).errView = w.errView := by
  simp [g_object_ref, World.errView, thrownOf_append, freedOf_append, thrownOf, freedOf]

theorem errView_GetStringUTFChars (w : World) (s : String) :
    (GetStringUTFChars w s).2.errView = w.errView := by
  simp [GetStringUTFChars, World.errView, thrownOf_append, freedOf_append, thrownOf, freedOf]

theorem fst_GetStringUTFChars (w : World) (s : String) : (GetStringUTFChars w s).1 = s := rfl

theorem errView_ReleaseStringUTFChars (w : World) (s : String) :
    (ReleaseStringUTFChars w s).errView = w.errView := by
  simp [ReleaseStringUTFChars, World.errView, thrownOf_append, freedOf_append, thrownOf, freedOf]

theorem errView_throw_none (w : World) : (throw_from_gerror w none).errView = w.errView := rfl

theorem errView_throw_some (w : World) (e : GError) :
    (throw_from_gerror w (some e)).errView =
      ⟨some ⟨"java/lang/RuntimeException", e.message⟩,
       w.errView.thrown ++ [⟨"java/lang/RuntimeException", e.message⟩],
       w.errView.freed ++ [e]⟩ := by
  simp [throw_from_gerror, ThrowNew, g_error_free, FindClass, World.errView, thrownOf_append,
    freedOf_append, thrownOf, freedOf]

theorem errView_child_loop (F : FridaCore) (list : Ptr) (n : Nat) (a : List jlong) (w : World) :
    ((List.range n).foldl
      (fun (acc : List jlong × World) i =>
        let child := F.frida_child_list_get list i
        let w1 := g_object_ref acc.2 child
        (acc.1.set i (ptrToJlong child), w1))
      (a, w)).2.errView = w.errView := by
  induction n with
  | zero => simp
  | succ k ih => simp [List.range_succ, List.foldl_append, errView_g_object_ref, ih]

theorem run_errView (F : FridaCore) (w : World) (c : SyncCall) :
    (c.run F w).2.errView = errExpected w.errView (c.nativeError F) := by
  cases c <;>
    simp only [SyncCall.run, SyncCall.nativeError,
      Java_dev_supersam_frida_FridaNative_deviceManagerEnumerateDevices,
      Java_dev_supersam_frida_FridaNative_deviceManagerGetDeviceById,
      Java_dev_supersam_frida_FridaNative_deviceEnumerateApplications,
      Java_dev_supersam_frida_FridaNative_deviceEnumerateProcesses,
      Java_dev_supersam_frida_FridaNative_deviceAttach,
      Java_dev_supersam_frida_FridaNative_deviceSpawn,
      Java_dev_supersam_frida_FridaNative_deviceResume,
      Java_dev_supersam_frida_FridaNative_sessionCreateScript,
      Java_dev_supersam_frida_FridaNative_sessionDetach,
      Java_dev_supersam_frida_FridaNative_scriptLoad,
      Java_dev_supersam_frida_FridaNative_scriptUnload,
      Java_dev_supersam_frida_FridaNative_deviceEnableSpawnGating,
      Java_dev_supersam_frida_FridaNative_deviceDisableSpawnGating,
      Java_dev_supersam_frida_FridaNative_deviceEnumeratePendingChildren,
      Java_dev_supersam_frida_FridaNative_deviceManagerAddRemoteDevice,
      Java_dev_supersam_frida_FridaNative_deviceManagerRemoveRemoteDevice,
      Java_dev_supersam_frida_FridaNative_sessionSnapshotScript,
      Java_dev_supersam_frida_FridaNative_sessionCreateScriptFromSnapshot,
      fst_GetStringUTFChars, scriptOptionsFor]
  case sessionSnapshotScript handle jembedScript jwarmupScript =>
    cases jwarmupScript <;> simp only [snapshotOptionsFor, fst_GetStringUTFChars] <;>
      generalize SyncResult.error _ = r <;> cases r <;>
      simp [errExpected, errView_throw_some, errView_frida_unref, errView_g_bytes_unref,
        errView_GetStringUTFChars, errView_ReleaseStringUTFChars]
  all_goals
    generalize SyncResult.error _ = r
    cases r <;>
      simp [errExpected, errView_throw_some, errView_frida_unref, errView_g_bytes_unref,
        errView_GetStringUTFChars, errView_ReleaseStringUTFChars, errView_child_loop]

theorem run_sentinel (F : FridaCore) (w : World) (c : SyncCall) (e : GError)
    (h : c.nativeError F = some e) : (c.run F w).1.isSentinel = true := by
  cases c
  case sessionSnapshotScript handle jembedScript jwarmupScript =>
    cases jwarmupScript <;>
      simp only [SyncCall.nativeError, snapshotOptionsFor, ne_eq, ite_not] at h <;>
      simp [SyncCall.run, Java_dev_supersam_frida_FridaNative_sessionSnapshotScript,
        fst_GetStringUTFChars, h, RetVal.isSentinel]
  all_goals
    simp only [SyncCall.nativeError, scriptOptionsFor] at h
    simp [SyncCall.run, RetVal.isSentinel,
      Java_dev_supersam_frida_FridaNative_deviceManagerEnumerateDevices,
      Java_dev_supersam_frida_FridaNative_deviceManagerGetDeviceById,
      Java_dev_supersam_frida_FridaNative_deviceEnumerateApplications,
      Java_dev_supersam_frida_FridaNative_deviceEnumerateProcesses,
      Java_dev_supersam_frida_FridaNative_deviceAttach,
      Java_dev_supersam_frida_FridaNative_deviceSpawn,
      Java_dev_supersam_frida_FridaNative_sessionCreateScript,
      Java_dev_supersam_frida_FridaNative_deviceEnumeratePendingChildren,
      Java_dev_supersam_frida_FridaNative_deviceManagerAddRemoteDevice,
      Java_dev_supersam_frida_FridaNative_sessionCreateScriptFromSnapshot,
      fst_GetStringUTFChars, h]

/-- C1: for each of the eighteen wrappers that pass `&error` to frida-core, a managed exception
is thrown exactly when the native call set an error.  Without an error the pending exception,
the exceptions thrown and the errors freed are what they were.  With an error `e` exactly one
`RuntimeException` carrying `e.message` is thrown and is pending, `e` is freed exactly once, the
wrapper returns its sentinel (`0`, or a null array), and a non-null handle returned by the
native call is not what the wrapper returns. -/
theorem C1_native_error_becomes_one_exception (F : FridaCore) (w : World) (c : SyncCall) :
    (thrownOf (c.run F w).2.ops ≠ thrownOf w.ops ↔ (c.nativeError F).isSome = true) ∧
    match c.nativeError F with
    | none =>
      (c.run F w).2.pending = w.pending ∧
      thrownOf (c.run F w).2.ops = thrownOf w.ops ∧
      freedOf (c.run F w).2.ops = freedOf w.ops
    | some e =>
      (c.run F w).2.pending = some ⟨"java/lang/RuntimeException", e.message⟩ ∧
      thrownOf (c.run F w).2.ops =
        thrownOf w.ops ++ [⟨"java/lang/RuntimeException", e.message⟩] ∧
      freedOf (c.run F w).2.ops = freedOf w.ops ++ [e] ∧
      (c.run F w).1.isSentinel = true ∧
      match c.nativeHandle F with
      | none => True
      | some p => ptrToJlong p = 0 ∨ (c.run F w).1 ≠ RetVal.jlong (ptrToJlong p) := by
  have hv := run_errView F w c
  have hs := run_sentinel F w c
  cases he : c.nativeError F with
  | none =>
    rw [he] at hv
    simp only [errExpected, World.errView, ErrView.mk.injEq] at hv
    simp [hv.1, hv.2.1, hv.2.2]
  | some e =>
    rw [he] at hv
    simp only [errExpected, World.errView, ErrView.mk.injEq] at hv
    have hsent := hs e he
    refine ⟨by simp [hv.2.1], hv.1, hv.2.1, hv.2.2, hsent, ?_⟩
    cases hh : c.nativeHandle F with
    | none => trivial
    | some p =>
      by_cases hp : ptrToJlong p = 0
      · exact Or.inl hp
      · refine Or.inr (fun hEq => hp ?_)
        rw [hEq] at hsent
        simpa [RetVal.isSentinel] using hsent

theorem DispatchCall.run_eq_core (M : Managed) (w : World) (c : DispatchCall) :
    c.run M w = dispatchCore M w c.userData c.object c.converted := by
  cases c <;>
    simp only [DispatchCall.run, DispatchCall.userData, DispatchCall.object,
      DispatchCall.converted, dispatchCore, FridaJni.on_session_detached,
      FridaJni.on_script_message, FridaJni.on_script_destroyed, FridaJni.on_child_added,
      FridaJni.on_child_removed, FridaJni.on_device_added, FridaJni.on_device_removed,
      FridaJni.on_device_changed, dispatch_child, NewStringUTF] <;>
    cases w.heap _ <;> rfl

theorem EventKind.connect_eq_core (k : EventKind) (w : World) (handle : jlong)
    (callback : jobject) (fresh : Ptr) :
    k.connect w handle callback fresh = connectCore k w handle callback fresh := by
  cases k <;>
    simp [EventKind.connect, connectCore, EventKind.record, EventKind.installed,
      EventKind.signal, EventKind.c_handler, EventKind.methodId,
      Java_dev_supersam_frida_FridaNative_sessionConnectDetached,
      Java_dev_supersam_frida_FridaNative_scriptConnectMessage,
      Java_dev_supersam_frida_FridaNative_scriptConnectDestroyed,
      Java_dev_supersam_frida_FridaNative_deviceConnectChildAdded,
      Java_dev_supersam_frida_FridaNative_deviceConnectChildRemoved,
      Java_dev_supersam_frida_FridaNative_deviceManagerConnectAdded,
      Java_dev_supersam_frida_FridaNative_deviceManagerConnectRemoved,
      Java_dev_supersam_frida_FridaNative_deviceManagerConnectChanged,
      connect_child_signal, connect_device_signal, opNew, store, GetJavaVM, NewGlobalRef,
      GetObjectClass, GetMethodID, g_signal_connect]

theorem EventKind.disconnect_eq_core (k : EventKind) (w : World) (handle : jlong)
    (cbHandle : jlong) : k.disconnect w handle cbHandle = disconnectCore w handle cbHandle := by
  cases k <;>
    simp only [EventKind.disconnect, disconnectCore,
      Java_dev_supersam_frida_FridaNative_sessionDisconnectDetached,
      Java_dev_supersam_frida_FridaNative_scriptDisconnectMessage,
      Java_dev_supersam_frida_FridaNative_scriptDisconnectDestroyed,
      Java_dev_supersam_frida_FridaNative_deviceDisconnectChildAdded,
      Java_dev_supersam_frida_FridaNative_deviceDisconnectChildRemoved,
      Java_dev_supersam_frida_FridaNative_deviceManagerDisconnectAdded,
      Java_dev_supersam_frida_FridaNative_deviceManagerDisconnectRemoved,
      Java_dev_supersam_frida_FridaNative_deviceManagerDisconnectChanged,
      disconnect_child_signal, disconnect_device_signal] <;>
    by_cases h0 : jlongToPtr cbHandle = 0 <;>
    simp [h0] <;>
    cases w.heap (jlongToPtr cbHandle) <;>
    simp [opDelete, DeleteGlobalRef, g_signal_handler_disconnect]

/-! ### Enumerations -/

theorem fill_loop (f : Nat → Int) (n : Nat) (a : List Int) :
    ((List.range n).foldl (fun elems i => elems.set i (f i)) a).length = a.length ∧
    (∀ i, i < n → i < a.length →
      ((List.range n).foldl (fun elems i => elems.set i (f i)) a)[i]? = some (f i)) ∧
    (∀ i, n ≤ i →
      ((List.range n).foldl (fun elems i => elems.set i (f i)) a)[i]? = a[i]?) := by
  induction n with
  | zero => simp
  | succ k ih =>
    obtain ⟨hl, hlt, hge⟩ := ih
    simp only [List.range_succ, List.foldl_append, List.foldl_cons, List.foldl_nil]
    refine ⟨by simp [hl], ?_, ?_⟩
    · intro i hi hia
      by_cases hik : i = k
      · subst hik
        simp [List.getElem?_set, hl, hia]
      · have : i < k := by omega
        rw [List.getElem?_set_ne (Ne.symm hik)]
        exact hlt i this hia
    · intro i hi
      have hne : k ≠ i := by omega
      rw [List.getElem?_set_ne hne]
      exact hge i (by omega)

theorem child_loop_fst (F : FridaCore) (list : Ptr) (n : Nat) (a : List jlong) (w : World) :
    ((List.range n).foldl
      (fun (acc : List jlong × World) i =>
        let child := F.frida_child_list_get list i
        let w1 := g_object_ref acc.2 child
        (acc.1.set i (ptrToJlong child), w1))
      (a, w)).1 =
    (List.range n).foldl (fun elems i => elems.set i (ptrToJlong (F.frida_child_list_get list i)))
      a := by
  induction n with
  | zero => simp
  | succ k ih => simp [List.range_succ, List.foldl_append, ih]

theorem enumerate_result (F : FridaCore) (w : World) (c : SyncCall) (L : NativeList)
    (hL : c.nativeList F = some L) (hok : c.nativeError F = none) :
    (c.run F w).1 = RetVal.jlongArray (some
      ((List.range L.size).foldl (fun elems i => elems.set i (ptrToJlong (L.get i)))
        (List.replicate L.size 0))) := by
  cases c <;> simp only [SyncCall.nativeList, Option.some.injEq, reduceCtorEq] at hL <;>
    subst hL <;> simp only [SyncCall.nativeError] at hok <;>
    simp [SyncCall.run, Java_dev_supersam_frida_FridaNative_deviceManagerEnumerateDevices,
      Java_dev_supersam_frida_FridaNative_deviceEnumerateApplications,
      Java_dev_supersam_frida_FridaNative_deviceEnumerateProcesses,
      Java_dev_supersam_frida_FridaNative_deviceEnumeratePendingChildren,
      hok, NewLongArray, GetLongArrayElements, ReleaseLongArrayElements, child_loop_fst]

/-- C2: a successful enumeration call (devices, applications, processes, pending children)
returns a non-null handle array whose length is the size the native list reports and whose
entry at every index `i` below that size is the handle of the element the list accessor
returns at `i`. -/
theorem C2_enumeration_returns_the_list_in_order (F : FridaCore) (w : World) (c : SyncCall)
    (L : NativeList) (hL : c.nativeList F = some L) (hok : c.nativeError F = none) :
    ∃ a : List jlong, (c.run F w).1 = RetVal.jlongArray (some a) ∧ a.length = L.size ∧
      ∀ i, i < L.size → a[i]? = some (ptrToJlong (L.get i)) := by
  refine ⟨_, enumerate_result F w c L hL hok, ?_, ?_⟩
  · simpa using (fill_loop (fun i => ptrToJlong (L.get i)) L.size (List.replicate L.size 0)).1
  · intro i hi
    exact (fill_loop (fun i => ptrToJlong (L.get i)) L.size (List.replicate L.size 0)).2.1 i hi
      (by simpa using hi)

/-- C2 at a sample input: the pending children of the sample frida-core. -/
theorem C2_enumeration_returns_the_list_in_order_witness :
    ∃ a : List jlong,
      ((SyncCall.deviceEnumeratePendingChildren 1).run FridaCore.sample World.start).1 =
        RetVal.jlongArray (some a) ∧ a.length = 2 ∧
      ∀ i, i < 2 → a[i]? = some (ptrToJlong (8192 + 16 * i)) :=
  C2_enumeration_returns_the_list_in_order FridaCore.sample World.start
    (SyncCall.deviceEnumeratePendingChildren 1) ⟨4096, 2, fun i => 8192 + 16 * i⟩ rfl rfl

theorem refsTaken_append (a b : List Op) (p : Ptr) :
    refsTaken (a ++ b) p = refsTaken a p + refsTaken b p := by
  simp [refsTaken, List.count_append]

/-- The devices, applications and processes wrappers never call `g_object_ref`: on every
input, success or failure, the number of references the bridge has taken on any object is what
it was before the call. -/
theorem three_enumerations_take_no_reference (F : FridaCore) (w : World) (handle : jlong)
    (scope : jint) (p : Ptr) :
    refsTaken (Java_dev_supersam_frida_FridaNative_deviceManagerEnumerateDevices F w handle).2.ops
      p = refsTaken w.ops p ∧
    refsTaken (Java_dev_supersam_frida_FridaNative_deviceEnumerateApplications F w handle
      scope).2.ops p = refsTaken w.ops p ∧
    refsTaken (Java_dev_supersam_frida_FridaNative_deviceEnumerateProcesses F w handle
      scope).2.ops p = refsTaken w.ops p := by
  refine ⟨?_, ?_, ?_⟩
  · simp only [Java_dev_supersam_frida_FridaNative_deviceManagerEnumerateDevices]
    generalize (F.frida_device_manager_enumerate_devices_sync (jlongToPtr handle)).error = r
    cases r <;>
      simp [throw_from_gerror, ThrowNew, g_error_free, frida_unref, refsTaken_append, refsTaken]
  · simp only [Java_dev_supersam_frida_FridaNative_deviceEnumerateApplications]
    generalize (F.frida_device_enumerate_applications_sync (jlongToPtr handle)
      (query_options_set_scope F.frida_application_query_options_new scope)).error = r
    cases r <;>
      simp [throw_from_gerror, ThrowNew, g_error_free, frida_unref, refsTaken_append, refsTaken]
  · simp only [Java_dev_supersam_frida_FridaNative_deviceEnumerateProcesses]
    generalize (F.frida_device_enumerate_processes_sync (jlongToPtr handle)
      (query_options_set_scope F.frida_process_query_options_new scope)).error = r
    cases r <;>
      simp [throw_from_gerror, ThrowNew, g_error_free, frida_unref, refsTaken_append, refsTaken]

/-- C3 (the code at a failing input): on the sample list with the elements `8192` and `8208`,
the devices, applications and processes wrappers return the two handles, never call
`g_object_ref` and leave both reference counts as the list accessor left them; their only
native call with an effect on the list is its release (the applications and processes wrappers
first release their query options at `256`).  The pending-children wrapper on the same list
takes one reference on each element before it releases the list. -/
theorem C3_only_pending_children_takes_references :
    (Java_dev_supersam_frida_FridaNative_deviceManagerEnumerateDevices
        FridaCore.sample World.start 1).1 = some [8192, 8208] ∧
    (Java_dev_supersam_frida_FridaNative_deviceManagerEnumerateDevices
        FridaCore.sample World.start 1).2.ops = [Op.frida_unref 4096] ∧
    (Java_dev_supersam_frida_FridaNative_deviceManagerEnumerateDevices
        FridaCore.sample World.start 1).2.refcount 8192 = World.start.refcount 8192 ∧
    (Java_dev_supersam_frida_FridaNative_deviceManagerEnumerateDevices
        FridaCore.sample World.start 1).2.refcount 8208 = World.start.refcount 8208 ∧
    (Java_dev_supersam_frida_FridaNative_deviceEnumerateApplications
        FridaCore.sample World.start 1 0).1 = some [8192, 8208] ∧
    (Java_dev_supersam_frida_FridaNative_deviceEnumerateApplications
        FridaCore.sample World.start 1 0).2.ops = [Op.frida_unref 256, Op.frida_unref 4096] ∧
    (Java_dev_supersam_frida_FridaNative_deviceEnumerateApplications
        FridaCore.sample World.start 1 0).2.refcount 8192 = World.start.refcount 8192 ∧
    (Java_dev_supersam_frida_FridaNative_deviceEnumerateProcesses
        FridaCore.sample World.start 1 0).1 = some [8192, 8208] ∧
    (Java_dev_supersam_frida_FridaNative_deviceEnumerateProcesses
        FridaCore.sample World.start 1 0).2.ops = [Op.frida_unref 256, Op.frida_unref 4096] ∧
    (Java_dev_supersam_frida_FridaNative_deviceEnumerateProcesses
        FridaCore.sample World.start 1 0).2.refcount 8192 = World.start.refcount 8192 ∧
    (Java_dev_supersam_frida_FridaNative_deviceEnumeratePendingChildren
        FridaCore.sample World.start 1).1 = some [8192, 8208] ∧
    (Java_dev_supersam_frida_FridaNative_deviceEnumeratePendingChildren
        FridaCore.sample World.start 1).2.ops =
      [Op.g_object_ref 8192, Op.g_object_ref 8208, Op.frida_unref 4096] ∧
    (Java_dev_supersam_frida_FridaNative_deviceEnumeratePendingChildren
        FridaCore.sample World.start 1).2.refcount 8192 = World.start.refcount 8192 + 1 ∧
    (Java_dev_supersam_frida_FridaNative_deviceEnumeratePendingChildren
        FridaCore.sample World.start 1).2.refcount 8208 = World.start.refcount 8208 + 1 := by
  refine ⟨?_, ?_, ?_, ?_, ?_, ?_, ?_, ?_, ?_, ?_, ?_, ?_, ?_, ?_⟩ <;> decide

/-! ### Handles -/

theorem jlongToPtr_ptrToJlong (p : Nat) (h : p < 2 ^ 64) : jlongToPtr (ptrToJlong p) = p := by
  unfold jlongToPtr ptrToJlong
  have hm : p % 2 ^ 64 = p := Nat.mod_eq_of_lt h
  rw [hm]
  simp only [Nat.reducePow, Int.reducePow] at h ⊢
  split
  · have key : (p : Int) % 18446744073709551616 = p := by omega
    rw [key]
    exact Int.toNat_ofNat p
  · have key : ((p : Int) - 18446744073709551616) % 18446744073709551616 = p := by omega
    rw [key]
    exact Int.toNat_ofNat p

theorem jlongToPtr_zero : jlongToPtr 0 = 0 := by
  decide

theorem World.start_WF : World.start.WF := by
  refine ⟨?_, ?_, ?_⟩ <;> simp [World.start]

/-! ### Connect and disconnect -/

/-- C4, as stated, fails: after `sessionConnectDetached` on the start world (object handle `1`,
callback `7`, record at `4096`) the first `sessionDisconnectDetached` succeeds, and the second
one, given the same subscription handle, passes the null check and reads the freed record. -/
theorem C4_second_disconnect_reads_the_freed_record :
    ∃ w2,
      Java_dev_supersam_frida_FridaNative_sessionDisconnectDetached
        (Java_dev_supersam_frida_FridaNative_sessionConnectDetached World.start 1 7 4096).2 1
        (Java_dev_supersam_frida_FridaNative_sessionConnectDetached World.start 1 7 4096).1
        = .ok w2 ∧
      Java_dev_supersam_frida_FridaNative_sessionDisconnectDetached w2 1
        (Java_dev_supersam_frida_FridaNative_sessionConnectDetached World.start 1 7 4096).1
        = .error (Fault.invalidRead 4096) ∧
      Java_dev_supersam_frida_FridaNative_sessionDisconnectDetached w2 1
        (Java_dev_supersam_frida_FridaNative_sessionConnectDetached World.start 1 7 4096).1
        ≠ .ok w2 := by
  refine ⟨_, rfl, ?_, ?_⟩
  · rfl
  · intro h
    exact Except.noConfusion
      (Eq.trans (Eq.symm h) (rfl : _ = Except.error (Fault.invalidRead 4096)))

theorem filter_installed (hs : List Handler) (x : Handler)
    (hlt : ∀ h ∈ hs, h.id < x.id) :
    (hs ++ [x]).filter (fun h => !(decide (h.inst = x.inst) && decide (h.id = x.id))) = hs := by
  rw [List.filter_append]
  have h1 : hs.filter (fun h => !(decide (h.inst = x.inst) && decide (h.id = x.id))) = hs := by
    apply List.filter_eq_self.mpr
    intro h hh
    have hne : h.id ≠ x.id := Nat.ne_of_lt (hlt h hh)
    simp [hne]
  rw [h1]
  simp

theorem filter_globalRef (gs : List (jobject × jobject)) (r : Nat) (o : jobject)
    (hlt : ∀ g ∈ gs, g.1 < r) :
    (gs ++ [(r, o)]).filter (fun g => !decide (g.1 = r)) = gs := by
  rw [List.filter_append]
  have h1 : gs.filter (fun g => !decide (g.1 = r)) = gs := by
    apply List.filter_eq_self.mpr
    intro g hg
    have hne : g.1 ≠ r := Nat.ne_of_lt (hlt g hg)
    simp [hne]
  rw [h1]
  simp

theorem disconnectCore_connectCore (k : EventKind) (w : World) (handle : jlong)
    (callback : jobject) (fresh : Ptr) (hwf : w.WF) (hfresh : w.isFresh fresh) :
    disconnectCore (connectCore k w handle callback fresh).2 handle
        (connectCore k w handle callback fresh).1 =
      .ok (afterPair k w handle callback fresh) := by
  unfold afterPair
  obtain ⟨h0, h64, hnone⟩ := hfresh
  obtain ⟨hH, hG, _⟩ := hwf
  have hrt : jlongToPtr (ptrToJlong fresh) = fresh := jlongToPtr_ptrToJlong fresh h64
  have hf := filter_installed w.handlers (k.installed w handle fresh) (by
    intro h hh
    exact hH h hh)
  have hg := filter_globalRef w.globalRefs w.nextGlobalRef callback hG
  have hheap : Function.update (Function.update w.heap fresh (some (k.record w))) fresh none
      = w.heap := by
    rw [Function.update_idem]
    exact Function.update_eq_self_iff.mpr hnone.symm
  simp only [EventKind.installed] at hf
  simp only [EventKind.record] at hheap
  simp only [disconnectCore, connectCore, hrt, if_neg h0, Function.update_same,
    EventKind.record, EventKind.installed, hf, hg, hheap, List.append_assoc, List.cons_append,
    List.nil_append]

/-- C4, amended: the null check is the only guard of a disconnect.  With the zero subscription
handle every disconnect returns the world unchanged: no handler is disconnected, no callback
reference released, no record freed.  After a connect and its matching disconnect, a second
disconnect with the same subscription handle is not stopped by the check: it reads the freed
record. -/
theorem C4_only_the_zero_handle_is_guarded (k : EventKind) (w : World) (handle : jlong)
    (callback : jobject) (fresh : Ptr) (hwf : w.WF) (hfresh : w.isFresh fresh) :
    k.disconnect w handle 0 = .ok w ∧
    ∃ w2,
      k.disconnect (k.connect w handle callback fresh).2 handle
        (k.connect w handle callback fresh).1 = .ok w2 ∧
      k.disconnect w2 handle (k.connect w handle callback fresh).1
        = .error (Fault.invalidRead fresh) := by
  refine ⟨?_, ?_⟩
  · rw [EventKind.disconnect_eq_core]
    simp [disconnectCore, jlongToPtr_zero]
  · rw [EventKind.connect_eq_core, EventKind.disconnect_eq_core,
      disconnectCore_connectCore k w handle callback fresh hwf hfresh]
    refine ⟨_, rfl, ?_⟩
    rw [EventKind.disconnect_eq_core]
    have hrt : jlongToPtr (ptrToJlong fresh) = fresh := jlongToPtr_ptrToJlong fresh hfresh.2.1
    simp [disconnectCore, connectCore, afterPair, hrt, hfresh.1, hfresh.2.2]

/-- C4, amended, at a sample input: the `message` kind on the start world. -/
theorem C4_only_the_zero_handle_is_guarded_witness :
    EventKind.message.disconnect World.start 1 0 = .ok World.start ∧
    ∃ w2,
      EventKind.message.disconnect (EventKind.message.connect World.start 1 7 4096).2 1
        (EventKind.message.connect World.start 1 7 4096).1 = .ok w2 ∧
      EventKind.message.disconnect w2 1 (EventKind.message.connect World.start 1 7 4096).1
        = .error (Fault.invalidRead 4096) :=
  C4_only_the_zero_handle_is_guarded EventKind.message World.start 1 7 4096 World.start_WF
    ⟨by decide, by decide, rfl⟩

/-- C5: for each of the eight event kinds, a connect adds one handler to the object (with the
token it stores in the record), one global reference to the callback and one record; the
matching disconnect, given the same object handle and the subscription handle the connect
returned, succeeds, disconnects the handler with the stored token, deletes that global
reference and frees that record, so that the handlers, the global references and the records
are exactly those before the connect, and nothing else in the world has changed. -/
theorem C5_disconnect_undoes_connect (k : EventKind) (w : World) (handle : jlong)
    (callback : jobject) (fresh : Ptr) (hwf : w.WF) (hfresh : w.isFresh fresh) :
    (k.connect w handle callback fresh).2.handlers = w.handlers ++ [k.installed w handle fresh] ∧
    (k.connect w handle callback fresh).2.globalRefs =
      w.globalRefs ++ [(w.nextGlobalRef, callback)] ∧
    (k.connect w handle callback fresh).2.heap =
      Function.update w.heap fresh (some (k.record w)) ∧
    ∃ w2,
      k.disconnect (k.connect w handle callback fresh).2 handle
        (k.connect w handle callback fresh).1 = .ok w2 ∧
      w2.handlers = w.handlers ∧ w2.globalRefs = w.globalRefs ∧ w2.heap = w.heap ∧
      w2.refcount = w.refcount ∧ w2.pending = w.pending ∧ w2.utfChars = w.utfChars ∧
      w2.attached = w.attached ∧ w2.calls = w.calls ∧
      w2.ops = w.ops ++ [Op.opNew fresh, Op.NewGlobalRef callback w.nextGlobalRef,
        Op.g_signal_connect (jlongToPtr handle) k.signal (k.record w).handlerId,
        Op.g_signal_handler_disconnect (jlongToPtr handle) (k.record w).handlerId,
        Op.DeleteGlobalRef (k.record w).callback, Op.opDelete fresh] := by
  rw [EventKind.connect_eq_core, EventKind.disconnect_eq_core,
    disconnectCore_connectCore k w handle callback fresh hwf hfresh]
  refine ⟨rfl, rfl, rfl, _, rfl, rfl, rfl, rfl, rfl, rfl, rfl, rfl, rfl, rfl⟩

/-- C5 at a sample input: the `child-added` kind on the start world. -/
theorem C5_disconnect_undoes_connect_witness :
    (EventKind.child_added.connect World.start 1 7 4096).2.handlers =
      World.start.handlers ++ [EventKind.child_added.installed World.start 1 4096] ∧
    (EventKind.child_added.connect World.start 1 7 4096).2.globalRefs =
      World.start.globalRefs ++ [(World.start.nextGlobalRef, 7)] ∧
    (EventKind.child_added.connect World.start 1 7 4096).2.heap =
      Function.update World.start.heap 4096 (some (EventKind.child_added.record World.start)) ∧
    ∃ w2,
      EventKind.child_added.disconnect (EventKind.child_added.connect World.start 1 7 4096).2 1
        (EventKind.child_added.connect World.start 1 7 4096).1 = .ok w2 ∧
      w2.handlers = World.start.handlers ∧ w2.globalRefs = World.start.globalRefs ∧
      w2.heap = World.start.heap ∧
      w2.refcount = World.start.refcount ∧ w2.pending = World.start.pending ∧
      w2.utfChars = World.start.utfChars ∧
      w2.attached = World.start.attached ∧ w2.calls = World.start.calls ∧
      w2.ops = World.start.ops ++ [Op.opNew 4096, Op.NewGlobalRef 7 World.start.nextGlobalRef,
        Op.g_signal_connect (jlongToPtr 1) EventKind.child_added.signal
          (EventKind.child_added.record World.start).handlerId,
        Op.g_signal_handler_disconnect (jlongToPtr 1)
          (EventKind.child_added.record World.start).handlerId,
        Op.DeleteGlobalRef (EventKind.child_added.record World.start).callback,
        Op.opDelete 4096] :=
  C5_disconnect_undoes_connect EventKind.child_added World.start 1 7 4096 World.start_WF
    ⟨by decide, by decide, rfl⟩

/-! ### Dispatch -/

theorem dispatchCore_spec (M : Managed) (w : World) (ud : Ptr) (object : Option Ptr)
    (args : List jvalue) (d : SignalData) (hd : w.heap ud = some d) :
    ∃ w1, dispatchCore M w ud object args = .ok w1 ∧
      w1.heap = w.heap ∧ w1.handlers = w.handlers ∧ w1.nextHandlerId = w.nextHandlerId ∧
      w1.globalRefs = w.globalRefs ∧ w1.nextGlobalRef = w.nextGlobalRef ∧ w1.jvm = w.jvm ∧
      w1.utfChars = w.utfChars ∧
      w1.attached = w.attached ∧
      w1.calls = w.calls ++ dispatchCalls d w.thread args ∧
      w1.pending = (if envObtained d.jvm w.thread then none else w.pending) ∧
      w1.ops = w.ops ++
        (if w.attached then dispatchBody M d w.thread object args
         else [Op.AttachCurrentThread] ++ dispatchBody M d w.thread object args ++
              [Op.DetachCurrentThread]) := by
  refine ⟨_, by simp only [dispatchCore, hd]; rfl, ?_⟩
  cases ha : w.attached <;> cases hs : d.jvm.supportsVersion <;>
    cases hat : d.jvm.attachSucceeds <;> cases hm : M ⟨d.callback, d.methodId, args⟩ <;>
    cases hp : w.pending <;> cases object <;>
    simp [GetEnv, AttachCurrentThread, DetachCurrentThread, CallVoidMethod, ExceptionCheck,
      ExceptionClear, g_object_ref, dispatchBody, dispatchCalls, envObtained, World.thread,
      ha, hs, hat, hm, hp]

theorem DispatchCall.run_spec (M : Managed) (w : World) (c : DispatchCall) (d : SignalData)
    (hd : w.heap c.userData = some d) :
    ∃ w1, c.run M w = .ok w1 ∧
      w1.heap = w.heap ∧ w1.handlers = w.handlers ∧ w1.nextHandlerId = w.nextHandlerId ∧
      w1.globalRefs = w.globalRefs ∧ w1.nextGlobalRef = w.nextGlobalRef ∧ w1.jvm = w.jvm ∧
      w1.utfChars = w.utfChars ∧
      w1.attached = w.attached ∧
      w1.calls = w.calls ++ dispatchCalls d w.thread c.converted ∧
      w1.pending = (if envObtained d.jvm w.thread then none else w.pending) ∧
      w1.ops = w.ops ++
        (if w.attached then dispatchBody M d w.thread c.object c.converted
         else [Op.AttachCurrentThread] ++ dispatchBody M d w.thread c.object c.converted ++
              [Op.DetachCurrentThread]) := by
  rw [DispatchCall.run_eq_core]
  exact dispatchCore_spec M w c.userData c.object c.converted d hd

theorem dispatchBody_no_attach (M : Managed) (d : SignalData) (t : Thread) (object : Option Ptr)
    (args : List jvalue) :
    Op.AttachCurrentThread ∉ dispatchBody M d t object args ∧
    Op.DetachCurrentThread ∉ dispatchBody M d t object args := by
  unfold dispatchBody
  cases object <;> by_cases h1 : envObtained d.jvm t = true <;>
    by_cases h2 : ((M ⟨d.callback, d.methodId, args⟩).isSome || t.pending.isSome) = true <;>
    simp [h1, h2]

theorem dispatchBody_has_call (M : Managed) (d : SignalData) (t : Thread) (object : Option Ptr)
    (args : List jvalue) (inv : Invocation) (h : inv ∈ dispatchCalls d t args) :
    Op.CallVoidMethod inv ∈ dispatchBody M d t object args := by
  unfold dispatchCalls at h
  unfold dispatchBody
  split at h
  · rename_i he
    simp only [List.mem_singleton] at h
    subst h
    simp [he]
  · simp at h

/-- C8: events delivered to the dispatchers of one live subscription record, each on a thread
on which a managed environment is obtained, produce exactly one invocation of the registered
method on the registered callback per event, in emission order, with the event's arguments
converted (reason as an int, message as a string, child or device as its handle, none for
changed and destroyed): nothing is dropped, duplicated or reordered. -/
theorem C8_events_are_delivered_in_order (M : Managed) (w : World) (ud : Ptr) (d : SignalData)
    (events : List (Thread × DispatchCall)) (hd : w.heap ud = some d)
    (hud : ∀ tc ∈ events, tc.2.userData = ud)
    (henv : ∀ tc ∈ events, envObtained d.jvm tc.1 = true) :
    ∃ w1, deliver M w events = .ok w1 ∧
      w1.calls = w.calls ++
        events.map (fun tc => (⟨d.callback, d.methodId, tc.2.converted⟩ : Invocation)) := by
  induction events generalizing w with
  | nil => exact ⟨w, rfl, by simp⟩
  | cons tc rest ih =>
    have hu : tc.2.userData = ud := hud tc (List.mem_cons_self _ _)
    have he : envObtained d.jvm tc.1 = true := henv tc (List.mem_cons_self _ _)
    have hd1 : (w.onThread tc.1).heap tc.2.userData = some d := by
      rw [hu]
      exact hd
    obtain ⟨w1, hrun, hheap, -, -, -, -, -, -, -, hcalls, -, -⟩ :=
      DispatchCall.run_spec M (w.onThread tc.1) tc.2 d hd1
    have hd2 : w1.heap ud = some d := by
      rw [hheap]
      exact hd
    obtain ⟨w2, hdel, hc2⟩ := ih w1 hd2
      (fun x hx => hud x (List.mem_cons_of_mem _ hx))
      (fun x hx => henv x (List.mem_cons_of_mem _ hx))
    refine ⟨w2, ?_, ?_⟩
    · simp only [deliver, hrun]
      exact hdel
    · have ht : (w.onThread tc.1).thread = tc.1 := rfl
      rw [hc2, hcalls, ht]
      simp [dispatchCalls, he, World.onThread]

/-- C8 at a sample input: two messages delivered to the record of `World.subscribed`, the
first on a native thread, the second on a managed one. -/
theorem C8_events_are_delivered_in_order_witness :
    ∃ w1, deliver Managed.raising World.subscribed sampleEvents = .ok w1 ∧
      w1.calls = World.subscribed.calls ++
        sampleEvents.map (fun tc =>
          (⟨SignalData.sample.callback, SignalData.sample.methodId, tc.2.converted⟩ :
            Invocation)) :=
  C8_events_are_delivered_in_order Managed.raising World.subscribed 4096 SignalData.sample
    sampleEvents rfl (by decide) (by decide)

/-- C9: each of the eight dispatchers, entered on a thread in any attachment state with a live
record, returns with the thread in the attachment state it had on entry.  A thread that was
detached is attached first and detached last, and whatever the dispatcher does for the event
(the managed call included) lies between the two; a thread that was attached is neither
attached nor detached. -/
theorem C9_dispatch_restores_thread_attachment (M : Managed) (w : World) (c : DispatchCall)
    (d : SignalData) (hd : w.heap c.userData = some d) :
    ∃ w1, c.run M w = .ok w1 ∧ w1.attached = w.attached ∧
      w1.ops = w.ops ++
        (if w.attached then dispatchBody M d w.thread c.object c.converted
         else [Op.AttachCurrentThread] ++ dispatchBody M d w.thread c.object c.converted ++
              [Op.DetachCurrentThread]) ∧
      Op.AttachCurrentThread ∉ dispatchBody M d w.thread c.object c.converted ∧
      Op.DetachCurrentThread ∉ dispatchBody M d w.thread c.object c.converted ∧
      w1.calls = w.calls ++ dispatchCalls d w.thread c.converted ∧
      ∀ inv ∈ dispatchCalls d w.thread c.converted,
        Op.CallVoidMethod inv ∈ dispatchBody M d w.thread c.object c.converted := by
  obtain ⟨w1, hrun, -, -, -, -, -, -, -, hatt, hcalls, -, hops⟩ :=
    DispatchCall.run_spec M w c d hd
  exact ⟨w1, hrun, hatt, hops, (dispatchBody_no_attach M d w.thread c.object c.converted).1,
    (dispatchBody_no_attach M d w.thread c.object c.converted).2, hcalls,
    fun inv hinv => dispatchBody_has_call M d w.thread c.object c.converted inv hinv⟩

/-- C9 at a sample input: `on_script_message` entered on a native thread. -/
theorem C9_dispatch_restores_thread_attachment_witness :
    ∃ w1, DispatchCall.sample.run Managed.quiet
        (World.subscribed.onThread Thread.native) = .ok w1 ∧
      w1.attached = (World.subscribed.onThread Thread.native).attached ∧
      w1.ops = (World.subscribed.onThread Thread.native).ops ++
        (if (World.subscribed.onThread Thread.native).attached then
          dispatchBody Managed.quiet SignalData.sample
            (World.subscribed.onThread Thread.native).thread
            DispatchCall.sample.object
            DispatchCall.sample.converted
         else [Op.AttachCurrentThread] ++
          dispatchBody Managed.quiet SignalData.sample
            (World.subscribed.onThread Thread.native).thread
            DispatchCall.sample.object
            DispatchCall.sample.converted ++
          [Op.DetachCurrentThread]) ∧
      Op.AttachCurrentThread ∉
        dispatchBody Managed.quiet SignalData.sample
          (World.subscribed.onThread Thread.native).thread
          DispatchCall.sample.object
          DispatchCall.sample.converted ∧
      Op.DetachCurrentThread ∉
        dispatchBody Managed.quiet SignalData.sample
          (World.subscribed.onThread Thread.native).thread
          DispatchCall.sample.object
          DispatchCall.sample.converted ∧
      w1.calls = (World.subscribed.onThread Thread.native).calls ++
        dispatchCalls SignalData.sample (World.subscribed.onThread Thread.native).thread
          DispatchCall.sample.converted ∧
      ∀ inv ∈ dispatchCalls SignalData.sample (World.subscribed.onThread Thread.native).thread
          DispatchCall.sample.converted,
        Op.CallVoidMethod inv ∈
          dispatchBody Managed.quiet SignalData.sample
            (World.subscribed.onThread Thread.native).thread
            DispatchCall.sample.object
            DispatchCall.sample.converted :=
  C9_dispatch_restores_thread_attachment Managed.quiet (World.subscribed.onThread Thread.native)
    DispatchCall.sample SignalData.sample rfl

/-- C10: each of the eight dispatchers, entered with a live record on a thread that has no
exception pending, returns with no exception pending, whether the managed callback returned or
raised; when the callback raised, the dispatcher calls `ExceptionClear` right after the managed
call. -/
theorem C10_dispatch_leaves_no_pending_exception (M : Managed) (w : World) (c : DispatchCall)
    (d : SignalData) (hd : w.heap c.userData = some d) (hp : w.pending = none) :
    ∃ w1, c.run M w = .ok w1 ∧ w1.pending = none ∧
      w1.calls = w.calls ++ dispatchCalls d w.thread c.converted ∧
      ∀ inv ∈ dispatchCalls d w.thread c.converted, (M inv).isSome = true →
        ∃ pre post,
          w1.ops = w.ops ++ pre ++ [Op.CallVoidMethod inv, Op.ExceptionClear] ++ post := by
  obtain ⟨w1, hrun, -, -, -, -, -, -, -, -, hcalls, hpend, hops⟩ :=
    DispatchCall.run_spec M w c d hd
  refine ⟨w1, hrun, ?_, hcalls, ?_⟩
  · rw [hpend, hp]
    simp
  · intro inv hinv hM
    unfold dispatchCalls at hinv
    split at hinv
    · rename_i he
      simp only [List.mem_singleton] at hinv
      subst hinv
      refine ⟨(if w.attached then [] else [Op.AttachCurrentThread]) ++
          (match c.object with
            | some p => [Op.g_object_ref p]
            | none => []),
        (if w.attached then [] else [Op.DetachCurrentThread]), ?_⟩
      rw [hops]
      cases hatt : w.attached <;> cases c.object <;> simp [dispatchBody, he, hM]
    · simp at hinv

/-- C10 at a sample input: a callback that raises, entered on a native thread. -/
theorem C10_dispatch_leaves_no_pending_exception_witness :
    ∃ w1, DispatchCall.sample.run Managed.raising (World.subscribed.onThread Thread.native)
        = .ok w1 ∧ w1.pending = none ∧
      w1.calls = (World.subscribed.onThread Thread.native).calls ++
        dispatchCalls SignalData.sample (World.subscribed.onThread Thread.native).thread
          DispatchCall.sample.converted ∧
      ∀ inv ∈ dispatchCalls SignalData.sample (World.subscribed.onThread Thread.native).thread
          DispatchCall.sample.converted, (Managed.raising inv).isSome = true →
        ∃ pre post, w1.ops = (World.subscribed.onThread Thread.native).ops ++ pre ++
          [Op.CallVoidMethod inv, Op.ExceptionClear] ++ post :=
  C10_dispatch_leaves_no_pending_exception Managed.raising
    (World.subscribed.onThread Thread.native) DispatchCall.sample SignalData.sample rfl rfl

/-! ### Emission -/

theorem envObtained_attached (vm : JavaVM) (t1 t2 : Thread) (h : t1.attached = t2.attached) :
    envObtained vm t1 = envObtained vm t2 := by
  simp [envObtained, h]

theorem dispatchCalls_attached (d : SignalData) (t1 t2 : Thread) (args : List jvalue)
    (h : t1.attached = t2.attached) : dispatchCalls d t1 args = dispatchCalls d t2 args := by
  simp [dispatchCalls, envObtained_attached d.jvm t1 t2 h]

theorem DispatchCall.run_ok_live (M : Managed) (w w1 : World) (c : DispatchCall)
    (h : c.run M w = .ok w1) : ∃ d, w.heap c.userData = some d := by
  rw [DispatchCall.run_eq_core] at h
  unfold dispatchCore at h
  cases hd : w.heap c.userData with
  | none => simp [hd] at h
  | some d => exact ⟨d, rfl⟩

theorem Emission.call_userData (e : Emission) (h : Handler) (c : DispatchCall)
    (hc : e.call h = some c) : c.userData = h.data ∧ c.converted = e.converted := by
  cases e <;> cases hh : h.c_handler <;> simp [Emission.call, hh] at hc <;> subst hc <;>
    simp [DispatchCall.userData, DispatchCall.converted, Emission.converted]

theorem runHandler_ok (M : Managed) (e : Emission) (w w1 : World) (h : Handler)
    (hrun : runHandler M e w h = .ok w1) :
    w1.heap = w.heap ∧ w1.handlers = w.handlers ∧ w1.nextHandlerId = w.nextHandlerId ∧
    w1.globalRefs = w.globalRefs ∧ w1.nextGlobalRef = w.nextGlobalRef ∧ w1.jvm = w.jvm ∧
    w1.attached = w.attached ∧
    w1.calls = w.calls ++ handlerCalls w w.attached e h := by
  unfold runHandler at hrun
  cases hc : e.call h with
  | none =>
    simp only [hc] at hrun
    cases hrun
    simp [handlerCalls, hc]
  | some c =>
    simp only [hc] at hrun
    obtain ⟨d, hd⟩ := DispatchCall.run_ok_live M w w1 c hrun
    obtain ⟨w2, hrun2, hheap, hhs, hnh, hg, hng, hjvm, -, hatt, hcalls, -, -⟩ :=
      DispatchCall.run_spec M w c d hd
    rw [hrun2] at hrun
    cases hrun
    have hud := (Emission.call_userData e h c hc).1
    rw [hud] at hd
    refine ⟨hheap, hhs, hnh, hg, hng, hjvm, hatt, ?_⟩
    rw [hcalls]
    simp only [handlerCalls, hc, hd]
    rw [dispatchCalls_attached d w.thread ⟨w.attached, none⟩ c.converted rfl]

theorem handlerCalls_congr (w w1 : World) (a : Bool) (e : Emission) (h : Handler)
    (hheap : w1.heap = w.heap) : handlerCalls w1 a e h = handlerCalls w a e h := by
  simp [handlerCalls, hheap]

theorem emissionCalls_congr (w w1 : World) (a : Bool) (e : Emission) (hs : List Handler)
    (hheap : w1.heap = w.heap) : emissionCalls w1 a e hs = emissionCalls w a e hs := by
  induction hs with
  | nil => rfl
  | cons h hs ih => simp [emissionCalls, ih, handlerCalls_congr w w1 a e h hheap]

theorem runHandlers_ok (M : Managed) (e : Emission) (hs : List Handler) (w w1 : World)
    (hrun : runHandlers M e w hs = .ok w1) :
    w1.heap = w.heap ∧ w1.handlers = w.handlers ∧ w1.nextHandlerId = w.nextHandlerId ∧
    w1.globalRefs = w.globalRefs ∧ w1.nextGlobalRef = w.nextGlobalRef ∧ w1.jvm = w.jvm ∧
    w1.attached = w.attached ∧
    w1.calls = w.calls ++ emissionCalls w w.attached e hs := by
  induction hs generalizing w with
  | nil =>
    simp only [runHandlers] at hrun
    cases hrun
    simp [emissionCalls]
  | cons h hs ih =>
    simp only [runHandlers] at hrun
    cases h1 : runHandler M e w h with
    | error f => simp [h1] at hrun
    | ok w2 =>
      simp only [h1] at hrun
      obtain ⟨a1, a2, a3, a4, a5, a6, a7, a8⟩ := runHandler_ok M e w w2 h h1
      obtain ⟨b1, b2, b3, b4, b5, b6, b7, b8⟩ := ih w2 hrun
      refine ⟨b1.trans a1, b2.trans a2, b3.trans a3, b4.trans a4, b5.trans a5, b6.trans a6,
        b7.trans a7, ?_⟩
      rw [b8, a8, a7, emissionCalls_congr w w2 w.attached e hs a1]
      simp [emissionCalls]

theorem runHandlers_total (M : Managed) (e : Emission) (hs : List Handler) (w : World)
    (hlive : ∀ h ∈ hs, ∃ d, w.heap h.data = some d) :
    ∃ w1, runHandlers M e w hs = .ok w1 := by
  induction hs generalizing w with
  | nil => exact ⟨w, rfl⟩
  | cons h hs ih =>
    have h1 : ∃ w2, runHandler M e w h = .ok w2 := by
      unfold runHandler
      cases hc : e.call h with
      | none => exact ⟨w, rfl⟩
      | some c =>
        obtain ⟨d, hd⟩ := hlive h (List.mem_cons_self _ _)
        rw [← (Emission.call_userData e h c hc).1] at hd
        obtain ⟨w2, hrun2, -⟩ := DispatchCall.run_spec M w c d hd
        exact ⟨w2, hrun2⟩
    obtain ⟨w2, h2⟩ := h1
    have hheap := (runHandler_ok M e w w2 h h2).1
    obtain ⟨w3, h3⟩ := ih w2 (by
      intro x hx
      rw [hheap]
      exact hlive x (List.mem_cons_of_mem _ hx))
    exact ⟨w3, by simp only [runHandlers, h2]; exact h3⟩

theorem registry_frida_unref (w : World) (p : Ptr) : (frida_unref w p).registry = w.registry :=
  rfl

theorem registry_g_bytes_unref (w : World) (p : Ptr) :
    (g_bytes_unref w p).registry = w.registry :=
  rfl

theorem registry_g_object_ref (w : World) (p : Ptr) : (g_object_ref w p).registry = w.registry :=
  rfl

theorem registry_GetStringUTFChars (w : World) (s : String) :
    (GetStringUTFChars w s).2.registry = w.registry :=
  rfl

theorem registry_ReleaseStringUTFChars (w : World) (s : String) :
    (ReleaseStringUTFChars w s).registry = w.registry :=
  rfl

theorem registry_throw_from_gerror (w : World) (e : Option GError) :
    (throw_from_gerror w e).registry = w.registry := by
  cases e <;> rfl

theorem registry_child_loop (F : FridaCore) (list : Ptr) (n : Nat) (a : List jlong) (w : World) :
    ((List.range n).foldl
      (fun (acc : List jlong × World) i =>
        let child := F.frida_child_list_get list i
        let w1 := g_object_ref acc.2 child
        (acc.1.set i (ptrToJlong child), w1))
      (a, w)).2.registry = w.registry := by
  induction n with
  | zero => simp
  | succ k ih => simp [List.range_succ, List.foldl_append, registry_g_object_ref, ih]

theorem run_registry (F : FridaCore) (w : World) (c : SyncCall) :
    (c.run F w).2.registry = w.registry := by
  cases c
  case sessionSnapshotScript handle jembedScript jwarmupScript =>
    cases jwarmupScript <;>
      simp only [SyncCall.run, Java_dev_supersam_frida_FridaNative_sessionSnapshotScript] <;>
      split_ifs <;>
      simp only [registry_throw_from_gerror, registry_frida_unref, registry_g_bytes_unref,
        registry_GetStringUTFChars, registry_ReleaseStringUTFChars]
  all_goals
    simp only [SyncCall.run,
      Java_dev_supersam_frida_FridaNative_deviceManagerEnumerateDevices,
      Java_dev_supersam_frida_FridaNative_deviceManagerGetDeviceById,
      Java_dev_supersam_frida_FridaNative_deviceEnumerateApplications,
      Java_dev_supersam_frida_FridaNative_deviceEnumerateProcesses,
      Java_dev_supersam_frida_FridaNative_deviceAttach,
      Java_dev_supersam_frida_FridaNative_deviceSpawn,
      Java_dev_supersam_frida_FridaNative_deviceResume,
      Java_dev_supersam_frida_FridaNative_sessionCreateScript,
      Java_dev_supersam_frida_FridaNative_sessionDetach,
      Java_dev_supersam_frida_FridaNative_scriptLoad,
      Java_dev_supersam_frida_FridaNative_scriptUnload,
      Java_dev_supersam_frida_FridaNative_deviceEnableSpawnGating,
      Java_dev_supersam_frida_FridaNative_deviceDisableSpawnGating,
      Java_dev_supersam_frida_FridaNative_deviceEnumeratePendingChildren,
      Java_dev_supersam_frida_FridaNative_deviceManagerAddRemoteDevice,
      Java_dev_supersam_frida_FridaNative_deviceManagerRemoveRemoteDevice,
      Java_dev_supersam_frida_FridaNative_sessionCreateScriptFromSnapshot]
    split_ifs <;>
      simp only [registry_throw_from_gerror, registry_frida_unref, registry_g_bytes_unref,
        registry_GetStringUTFChars, registry_ReleaseStringUTFChars, registry_child_loop]

theorem retired_step (token : Nat) (ref : jobject) (w w1 : World) (hs : Step w w1)
    (hr : w.retired token ref) : w1.retired token ref := by
  obtain ⟨ht, hg, hH, hR⟩ := hr
  cases hs with
  | connect k _ handle callback fresh hfresh =>
    rw [EventKind.connect_eq_core]
    refine ⟨Nat.lt_succ_of_lt ht, Nat.lt_succ_of_lt hg, ?_, ?_⟩
    · intro h hh
      simp only [connectCore, List.mem_append, List.mem_singleton] at hh
      rcases hh with hh | hh
      · exact hH h hh
      · subst hh
        exact Nat.ne_of_gt ht
    · intro p d hd
      simp only [connectCore] at hd
      by_cases hp : p = fresh
      · subst hp
        rw [Function.update_same] at hd
        cases hd
        exact Nat.ne_of_gt hg
      · rw [Function.update_noteq hp] at hd
        exact hR p d hd
  | disconnect k _ handle cbHandle _ hd =>
    rw [EventKind.disconnect_eq_core] at hd
    unfold disconnectCore at hd
    split at hd
    · cases hd
      exact ⟨ht, hg, hH, hR⟩
    · cases hrec : w.heap (jlongToPtr cbHandle) with
      | none => simp [hrec] at hd
      | some d =>
        simp only [hrec] at hd
        cases hd
        refine ⟨ht, hg, ?_, ?_⟩
        · intro h hh
          exact hH h (List.mem_of_mem_filter hh)
        · intro p d1 hd1
          by_cases hp : p = jlongToPtr cbHandle
          · subst hp
            simp at hd1
          · simp only [Function.update_noteq hp] at hd1
            exact hR p d1 hd1
  | emit M _ t inst e _ hrun =>
    obtain ⟨a1, a2, a3, -, a5, -, -, -⟩ :=
      runHandlers_ok M e (emittedTo (w.onThread t) inst e) (w.onThread t) w1 hrun
    refine ⟨?_, ?_, ?_, ?_⟩
    · rw [a3]
      exact ht
    · rw [a5]
      exact hg
    · rw [a2]
      exact hH
    · rw [a1]
      exact hR
  | sync F _ c =>
    have hreg := run_registry F w c
    simp only [World.registry, Registry.mk.injEq] at hreg
    obtain ⟨r1, r2, r3, -, r5⟩ := hreg
    refine ⟨?_, ?_, ?_, ?_⟩
    · rw [r3]
      exact ht
    · rw [r5]
      exact hg
    · rw [r2]
      exact hH
    · rw [r1]
      exact hR

theorem retired_later (token : Nat) (ref : jobject) (w w1 : World)
    (hl : Relation.ReflTransGen Step w w1) (hr : w.retired token ref) :
    w1.retired token ref := by
  induction hl with
  | refl => exact hr
  | tail _ hstep ih => exact retired_step token ref _ _ hstep ih

theorem emissionCalls_receiver (w : World) (a : Bool) (e : Emission) (hs : List Handler)
    (inv : Invocation) (hinv : inv ∈ emissionCalls w a e hs) :
    ∃ p d, w.heap p = some d ∧ inv.receiver = d.callback := by
  induction hs with
  | nil => simp [emissionCalls] at hinv
  | cons h hs ih =>
    simp only [emissionCalls, List.mem_append] at hinv
    rcases hinv with hinv | hinv
    · unfold handlerCalls at hinv
      cases hc : e.call h with
      | none => simp [hc] at hinv
      | some c =>
        cases hd : w.heap h.data with
        | none => simp [hc, hd] at hinv
        | some d =>
          simp only [hc, hd, dispatchCalls] at hinv
          split at hinv
          · simp only [List.mem_singleton] at hinv
            exact ⟨h.data, d, hd, by rw [hinv]⟩
          · simp at hinv
    · exact ih hinv

theorem emit_retired (M : Managed) (w w1 : World) (inst : Ptr) (e : Emission) (token : Nat)
    (ref : jobject) (hr : w.retired token ref) (hrun : g_signal_emit M w inst e = .ok w1) :
    (∀ h ∈ emittedTo w inst e, h.id ≠ token) ∧
    ∃ new, w1.calls = w.calls ++ new ∧ ∀ inv ∈ new, inv.receiver ≠ ref := by
  obtain ⟨-, -, hH, hR⟩ := hr
  refine ⟨fun h hh => hH h (List.mem_of_mem_filter hh), ?_⟩
  obtain ⟨-, -, -, -, -, -, -, hcalls⟩ := runHandlers_ok M e (emittedTo w inst e) w w1 hrun
  refine ⟨_, hcalls, ?_⟩
  intro inv hinv
  obtain ⟨p, d, hd, hrec⟩ := emissionCalls_receiver w w.attached e _ inv hinv
  rw [hrec]
  exact hR p d hd

theorem retired_after_disconnect (k : EventKind) (w : World) (hwf : w.WF) (w2 : World)
    (hh : w2.handlers = w.handlers) (hheap : w2.heap = w.heap)
    (hn : w2.nextHandlerId = w.nextHandlerId + 1) (hg : w2.nextGlobalRef = w.nextGlobalRef + 1) :
    w2.retired (k.record w).handlerId (k.record w).callback := by
  obtain ⟨hH, -, hR⟩ := hwf
  refine ⟨?_, ?_, ?_, ?_⟩
  · rw [hn]
    exact Nat.lt_succ_self _
  · rw [hg]
    exact Nat.lt_succ_self _
  · intro h hmem
    rw [hh] at hmem
    exact Nat.ne_of_lt (hH h hmem)
  · intro p d hd
    rw [hheap] at hd
    exact Nat.ne_of_lt (hR p d hd)

/-- C6: after a connect and its matching disconnect (same object handle, the subscription
handle the connect returned) the subscription is over for good.  An emission on the object
right after the disconnect, of any signal and on any thread, returns and makes no invocation
through the global reference that the connect stored in its record.  And in every world
reached later by further connects, disconnects, emissions and synchronous calls, an emission
that returns runs no handler with the token of that subscription and makes no invocation
through that global reference. -/
theorem C6_no_invocation_after_disconnect (k : EventKind) (w : World) (handle : jlong)
    (callback : jobject) (fresh : Ptr) (hwf : w.WF) (hlive : w.handlersLive)
    (hfresh : w.isFresh fresh) :
    (k.connect w handle callback fresh).2.heap fresh = some (k.record w) ∧
    ∃ w2,
      k.disconnect (k.connect w handle callback fresh).2 handle
        (k.connect w handle callback fresh).1 = .ok w2 ∧
      (∀ (M : Managed) (t : Thread) (e : Emission),
        ∃ w3 new, g_signal_emit M (w2.onThread t) (jlongToPtr handle) e = .ok w3 ∧
          w3.calls = w2.calls ++ new ∧
          ∀ inv ∈ new, inv.receiver ≠ (k.record w).callback) ∧
      (∀ wl, Relation.ReflTransGen Step w2 wl →
        ∀ (M : Managed) (t : Thread) (inst : Ptr) (e : Emission) (w3 : World),
          g_signal_emit M (wl.onThread t) inst e = .ok w3 →
          (∀ h ∈ emittedTo (wl.onThread t) inst e, h.id ≠ (k.record w).handlerId) ∧
          ∃ new, w3.calls = wl.calls ++ new ∧
            ∀ inv ∈ new, inv.receiver ≠ (k.record w).callback) := by
  rw [EventKind.connect_eq_core, EventKind.disconnect_eq_core,
    disconnectCore_connectCore k w handle callback fresh hwf hfresh]
  refine ⟨by simp [connectCore], _, rfl, ?_, ?_⟩
  · intro M t e
    have hret := retired_after_disconnect k w hwf
      ((afterPair k w handle callback fresh).onThread t)
      rfl rfl rfl rfl
    obtain ⟨w3, hrun⟩ := runHandlers_total M e
      (emittedTo ((afterPair k w handle callback fresh).onThread t) (jlongToPtr handle) e)
      ((afterPair k w handle callback fresh).onThread t)
      (fun h hh => hlive h (List.mem_of_mem_filter hh))
    obtain ⟨-, new, hcalls, hnew⟩ := emit_retired M
      ((afterPair k w handle callback fresh).onThread t) w3 (jlongToPtr handle) e _ _ hret hrun
    exact ⟨w3, new, hrun, hcalls, hnew⟩
  · intro wl hl M t inst e w3 hrun
    have hret := retired_after_disconnect k w hwf
      (afterPair k w handle callback fresh)
      rfl rfl rfl rfl
    have hretl : (wl.onThread t).retired (k.record w).handlerId (k.record w).callback :=
      retired_later _ _ _ wl hl hret
    exact emit_retired M _ w3 inst e _ _ hretl hrun

theorem World.start_handlersLive : World.start.handlersLive := by
  intro h hh
  simp [World.start] at hh

/-- C6 at a sample input: the `detached` kind on the start world. -/
theorem C6_no_invocation_after_disconnect_witness :
    (EventKind.detached.connect World.start 1 7 4096).2.heap 4096 =
      some (EventKind.detached.record World.start) ∧
    ∃ w2,
      EventKind.detached.disconnect (EventKind.detached.connect World.start 1 7 4096).2 1
        (EventKind.detached.connect World.start 1 7 4096).1 = .ok w2 ∧
      (∀ (M : Managed) (t : Thread) (e : Emission),
        ∃ w3 new, g_signal_emit M (w2.onThread t) (jlongToPtr 1) e = .ok w3 ∧
          w3.calls = w2.calls ++ new ∧
          ∀ inv ∈ new, inv.receiver ≠ (EventKind.detached.record World.start).callback) ∧
      (∀ wl, Relation.ReflTransGen Step w2 wl →
        ∀ (M : Managed) (t : Thread) (inst : Ptr) (e : Emission) (w3 : World),
          g_signal_emit M (wl.onThread t) inst e = .ok w3 →
          (∀ h ∈ emittedTo (wl.onThread t) inst e,
            h.id ≠ (EventKind.detached.record World.start).handlerId) ∧
          ∃ new, w3.calls = wl.calls ++ new ∧
            ∀ inv ∈ new, inv.receiver ≠ (EventKind.detached.record World.start).callback) :=
  C6_no_invocation_after_disconnect EventKind.detached World.start 1 7 4096 World.start_WF
    World.start_handlersLive ⟨by decide, by decide, rfl⟩

/-! ### Fan-out -/

theorem ptrToJlong_injective (p q : Nat) (hp : p < 2 ^ 64) (hq : q < 2 ^ 64)
    (h : ptrToJlong p = ptrToJlong q) : p = q := by
  have := congrArg jlongToPtr h
  rwa [jlongToPtr_ptrToJlong p hp, jlongToPtr_ptrToJlong q hq] at this

theorem emissionCalls_append (w : World) (a : Bool) (e : Emission) (xs ys : List Handler) :
    emissionCalls w a e (xs ++ ys) = emissionCalls w a e xs ++ emissionCalls w a e ys := by
  induction xs with
  | nil => simp [emissionCalls]
  | cons x xs ih => simp [emissionCalls, ih]

theorem emissionCalls_source (w : World) (a : Bool) (e : Emission) (hs : List Handler)
    (inv : Invocation) (hinv : inv ∈ emissionCalls w a e hs) :
    ∃ h ∈ hs, ∃ d, w.heap h.data = some d ∧ inv.receiver = d.callback := by
  induction hs with
  | nil => simp [emissionCalls] at hinv
  | cons h hs ih =>
    simp only [emissionCalls, List.mem_append] at hinv
    rcases hinv with hinv | hinv
    · unfold handlerCalls at hinv
      cases hc : e.call h with
      | none => simp [hc] at hinv
      | some c =>
        cases hd : w.heap h.data with
        | none => simp [hc, hd] at hinv
        | some d =>
          simp only [hc, hd, dispatchCalls] at hinv
          split at hinv
          · simp only [List.mem_singleton] at hinv
            exact ⟨h, List.mem_cons_self _ _, d, hd, by rw [hinv]⟩
          · simp at hinv
    · obtain ⟨x, hx, d, hd, hr⟩ := ih hinv
      exact ⟨x, List.mem_cons_of_mem _ hx, d, hd, hr⟩

theorem Emission.call_installed (e : Emission) (h : Handler)
    (hh : h.c_handler = e.kind.c_handler) : ∃ c, e.call h = some c := by
  cases e <;> simp [Emission.call, hh, Emission.kind, EventKind.c_handler]

theorem handlerCalls_installed (w : World) (t : Thread) (e : Emission) (h : Handler)
    (d : SignalData) (hh : h.c_handler = e.kind.c_handler) (hd : w.heap h.data = some d)
    (henv : envObtained d.jvm t = true) :
    handlerCalls w t.attached e h = [⟨d.callback, d.methodId, e.converted⟩] := by
  obtain ⟨c, hc⟩ := Emission.call_installed e h hh
  have hconv := (Emission.call_userData e h c hc).2
  have he : envObtained d.jvm ⟨t.attached, none⟩ = true := by
    rw [envObtained_attached d.jvm ⟨t.attached, none⟩ t rfl]
    exact henv
  simp [handlerCalls, hc, hd, dispatchCalls, he, hconv]

theorem heap_after_two (k : EventKind) (w : World) (handle : jlong) (cb1 cb2 : jobject)
    (fresh1 fresh2 : Ptr) (hne : fresh2 ≠ fresh1) (p : Ptr) :
    (connectCore k (connectCore k w handle cb1 fresh1).2 handle cb2 fresh2).2.heap p =
      if p = fresh2 then some (k.record (connectCore k w handle cb1 fresh1).2)
      else if p = fresh1 then some (k.record w) else w.heap p := by
  simp only [connectCore]
  by_cases h2 : p = fresh2
  · subst h2
    simp
  · by_cases h1 : p = fresh1
    · subst h1
      simp [Function.update_noteq h2, h2]
    · simp [Function.update_noteq h2, Function.update_noteq h1, h1, h2]

theorem emission_after_two (k : EventKind) (w : World) (handle : jlong) (cb1 cb2 : jobject)
    (fresh1 fresh2 : Ptr) (hwf : w.WF) (hlive : w.handlersLive) (h1n : w.heap fresh1 = none)
    (h2n : w.heap fresh2 = none) (hne : fresh2 ≠ fresh1)
    (M : Managed) (t : Thread) (e : Emission) (hk : e.kind = k)
    (henv : envObtained w.jvm t = true) :
    ∃ w3 new,
      g_signal_emit M
        ((connectCore k (connectCore k w handle cb1 fresh1).2 handle cb2 fresh2).2.onThread t)
        (jlongToPtr handle) e = .ok w3 ∧
      w3.calls = (connectCore k (connectCore k w handle cb1 fresh1).2 handle cb2 fresh2).2.calls
        ++ new ∧
      new.filter (fun inv => decide (inv.receiver = w.nextGlobalRef)) =
        [⟨w.nextGlobalRef, k.methodId, e.converted⟩] ∧
      new.filter (fun inv => decide (inv.receiver = w.nextGlobalRef + 1)) =
        [⟨w.nextGlobalRef + 1, k.methodId, e.converted⟩] := by
  subst hk
  have hheap := heap_after_two e.kind w handle cb1 cb2 fresh1 fresh2 hne
  have hem : emittedTo
      ((connectCore e.kind (connectCore e.kind w handle cb1 fresh1).2 handle cb2 fresh2).2.onThread
        t) (jlongToPtr handle) e =
      emittedTo w (jlongToPtr handle) e ++
        [e.kind.installed w handle fresh1,
         e.kind.installed (connectCore e.kind w handle cb1 fresh1).2 handle fresh2] := by
    simp [emittedTo, connectCore, World.onThread, List.filter_append, EventKind.installed]
  have hold : ∀ h ∈ emittedTo w (jlongToPtr handle) e, ∃ d,
      (connectCore e.kind (connectCore e.kind w handle cb1 fresh1).2 handle cb2 fresh2).2.heap
        h.data = some d ∧ d.callback < w.nextGlobalRef := by
    intro h hh
    obtain ⟨d, hd⟩ := hlive h (List.mem_of_mem_filter hh)
    have hd1 : h.data ≠ fresh1 := by
      intro hc
      rw [hc, h1n] at hd
      cases hd
    have hd2 : h.data ≠ fresh2 := by
      intro hc
      rw [hc, h2n] at hd
      cases hd
    refine ⟨d, ?_, hwf.2.2 h.data d hd⟩
    rw [hheap, if_neg hd2, if_neg hd1]
    exact hd
  have hr1 :
      (connectCore e.kind (connectCore e.kind w handle cb1 fresh1).2 handle cb2 fresh2).2.heap
        fresh1 = some (e.kind.record w) := by
    rw [hheap, if_neg (Ne.symm hne), if_pos rfl]
  have hr2 :
      (connectCore e.kind (connectCore e.kind w handle cb1 fresh1).2 handle cb2 fresh2).2.heap
        fresh2 = some (e.kind.record (connectCore e.kind w handle cb1 fresh1).2) := by
    rw [hheap, if_pos rfl]
  obtain ⟨w3, hrun⟩ := runHandlers_total M e
    (emittedTo
      ((connectCore e.kind (connectCore e.kind w handle cb1 fresh1).2 handle cb2 fresh2).2.onThread
        t) (jlongToPtr handle) e)
    ((connectCore e.kind (connectCore e.kind w handle cb1 fresh1).2 handle cb2 fresh2).2.onThread t)
    (by
      intro h hh
      rw [hem] at hh
      simp only [List.mem_append, List.mem_cons, List.mem_singleton, List.not_mem_nil,
        or_false] at hh
      rcases hh with hh | hh | hh
      · obtain ⟨d, hd, -⟩ := hold h hh
        exact ⟨d, hd⟩
      · subst hh
        exact ⟨_, hr1⟩
      · subst hh
        exact ⟨_, hr2⟩)
  obtain ⟨-, -, -, -, -, -, -, hcalls⟩ := runHandlers_ok M e _ _ w3 hrun
  refine ⟨w3, _, hrun, hcalls, ?_, ?_⟩
  all_goals
    rw [hem, emissionCalls_append]
    have hc1 := handlerCalls_installed
      ((connectCore e.kind (connectCore e.kind w handle cb1 fresh1).2 handle cb2 fresh2).2.onThread
        t) t e (e.kind.installed w handle fresh1) (e.kind.record w) rfl hr1 henv
    have hc2 := handlerCalls_installed
      ((connectCore e.kind (connectCore e.kind w handle cb1 fresh1).2 handle cb2 fresh2).2.onThread
        t) t e (e.kind.installed (connectCore e.kind w handle cb1 fresh1).2 handle fresh2)
      (e.kind.record (connectCore e.kind w handle cb1 fresh1).2) rfl hr2 henv
    have hatt :
        ((connectCore e.kind (connectCore e.kind w handle cb1 fresh1).2 handle cb2
          fresh2).2.onThread t).attached = t.attached := rfl
    rw [hatt]
    simp only [emissionCalls, hc1, hc2, List.filter_append]
    have hg1 : (e.kind.record w).callback = w.nextGlobalRef := rfl
    have hg2 : (e.kind.record (connectCore e.kind w handle cb1 fresh1).2).callback
        = w.nextGlobalRef + 1 := rfl
    have hm1 : (e.kind.record w).methodId = e.kind.methodId := rfl
    have hm2 : (e.kind.record (connectCore e.kind w handle cb1 fresh1).2).methodId
        = e.kind.methodId := rfl
    rw [hg1, hg2, hm1, hm2]
    have hnil : ∀ g, w.nextGlobalRef ≤ g → List.filter (fun inv => decide (inv.receiver = g))
        (emissionCalls
          ((connectCore e.kind (connectCore e.kind w handle cb1 fresh1).2 handle cb2
            fresh2).2.onThread t) t.attached e (emittedTo w (jlongToPtr handle) e)) = [] := by
      intro g hg
      rw [List.filter_eq_nil_iff]
      intro inv hinv
      obtain ⟨h, hh, d, hd, hrec⟩ := emissionCalls_source _ _ e _ inv hinv
      obtain ⟨d1, hd1, hlt⟩ := hold h hh
      have hdd : d = d1 := Option.some.inj (hd.symm.trans hd1)
      subst hdd
      have : inv.receiver ≠ g := by
        rw [hrec]
        exact Nat.ne_of_lt (Nat.lt_of_lt_of_le hlt hg)
      simpa using this
    first
      | (rw [hnil w.nextGlobalRef (Nat.le_refl _)]
         simp)
      | (rw [hnil (w.nextGlobalRef + 1) (Nat.le_succ _)]
         simp)

/-- C7: every connect creates exactly one new subscription record, at an address where no
record was alive, and nothing else in the heap changes; the handles of two connects in a row
differ.  After two connects for the same event kind on the same object with two callbacks both
records are alive, both handlers are installed and both global references are held; and one
emission of that event on the object, on a thread on which an environment is obtained,
returns and makes exactly one invocation through each of the two global references, of the
kind's method with the converted arguments. -/
theorem C7_each_connect_makes_its_own_record (k : EventKind) (w : World) (handle : jlong)
    (cb1 cb2 : jobject) (fresh1 fresh2 : Ptr) (hwf : w.WF) (hlive : w.handlersLive)
    (hf1 : w.isFresh fresh1) (hf2 : (k.connect w handle cb1 fresh1).2.isFresh fresh2) :
    (k.connect w handle cb1 fresh1).2.heap = Function.update w.heap fresh1 (some (k.record w)) ∧
    (connectTwice k w handle cb1 cb2 fresh1 fresh2).2.heap =
      Function.update (k.connect w handle cb1 fresh1).2.heap fresh2
        (some (k.record (k.connect w handle cb1 fresh1).2)) ∧
    (k.connect w handle cb1 fresh1).1 ≠ (connectTwice k w handle cb1 cb2 fresh1 fresh2).1 ∧
    (connectTwice k w handle cb1 cb2 fresh1 fresh2).2.heap fresh1 = some (k.record w) ∧
    (connectTwice k w handle cb1 cb2 fresh1 fresh2).2.heap fresh2 =
      some (k.record (k.connect w handle cb1 fresh1).2) ∧
    k.installed w handle fresh1 ∈ (connectTwice k w handle cb1 cb2 fresh1 fresh2).2.handlers ∧
    k.installed (k.connect w handle cb1 fresh1).2 handle fresh2 ∈
      (connectTwice k w handle cb1 cb2 fresh1 fresh2).2.handlers ∧
    ((k.record w).callback, cb1) ∈
      (connectTwice k w handle cb1 cb2 fresh1 fresh2).2.globalRefs ∧
    ((k.record (k.connect w handle cb1 fresh1).2).callback, cb2) ∈
      (connectTwice k w handle cb1 cb2 fresh1 fresh2).2.globalRefs ∧
    (k.record w).callback ≠ (k.record (k.connect w handle cb1 fresh1).2).callback ∧
    ∀ (M : Managed) (t : Thread) (e : Emission), e.kind = k → envObtained w.jvm t = true →
      ∃ w3 new,
        g_signal_emit M ((connectTwice k w handle cb1 cb2 fresh1 fresh2).2.onThread t)
          (jlongToPtr handle) e = .ok w3 ∧
        w3.calls = (connectTwice k w handle cb1 cb2 fresh1 fresh2).2.calls ++ new ∧
        new.filter (fun inv => decide (inv.receiver = (k.record w).callback)) =
          [⟨(k.record w).callback, k.methodId, e.converted⟩] ∧
        new.filter (fun inv => decide
            (inv.receiver = (k.record (k.connect w handle cb1 fresh1).2).callback)) =
          [⟨(k.record (k.connect w handle cb1 fresh1).2).callback, k.methodId,
            e.converted⟩] := by
  simp only [connectTwice, EventKind.connect_eq_core] at hf2 ⊢
  obtain ⟨h10, h164, h1n⟩ := hf1
  obtain ⟨h20, h264, h2c⟩ := hf2
  have hne : fresh2 ≠ fresh1 := by
    intro hc
    subst hc
    simp [connectCore] at h2c
  have h2n : w.heap fresh2 = none := by
    simpa [connectCore, Function.update_noteq hne] using h2c
  have hheap := heap_after_two k w handle cb1 cb2 fresh1 fresh2 hne
  refine ⟨rfl, rfl, ?_, ?_, ?_, ?_, ?_, ?_, ?_, ?_, ?_⟩
  · intro hc
    exact hne (ptrToJlong_injective fresh1 fresh2 h164 h264 hc).symm
  · rw [hheap, if_neg (Ne.symm hne), if_pos rfl]
  · rw [hheap, if_pos rfl]
  · simp [connectCore]
  · simp [connectCore]
  · simp [connectCore, EventKind.record]
  · simp [connectCore, EventKind.record]
  · simp [connectCore, EventKind.record]
  · intro M t e hk henv
    exact emission_after_two k w handle cb1 cb2 fresh1 fresh2 hwf hlive h1n h2n hne M t e hk henv

/-- C7 at a sample input: two `message` subscriptions on the start world. -/
theorem C7_each_connect_makes_its_own_record_witness :
    (EventKind.message.connect World.start 1 7 4096).2.heap =
      Function.update World.start.heap 4096 (some (EventKind.message.record World.start)) ∧
    (connectTwice EventKind.message World.start 1 7 9 4096 4160).2.heap =
      Function.update (EventKind.message.connect World.start 1 7 4096).2.heap 4160
        (some (EventKind.message.record (EventKind.message.connect World.start 1 7 4096).2)) ∧
    (EventKind.message.connect World.start 1 7 4096).1 ≠
      (connectTwice EventKind.message World.start 1 7 9 4096 4160).1 ∧
    (connectTwice EventKind.message World.start 1 7 9 4096 4160).2.heap 4096 =
      some (EventKind.message.record World.start) ∧
    (connectTwice EventKind.message World.start 1 7 9 4096 4160).2.heap 4160 =
      some (EventKind.message.record (EventKind.message.connect World.start 1 7 4096).2) ∧
    EventKind.message.installed World.start 1 4096 ∈
      (connectTwice EventKind.message World.start 1 7 9 4096 4160).2.handlers ∧
    EventKind.message.installed (EventKind.message.connect World.start 1 7 4096).2 1 4160 ∈
      (connectTwice EventKind.message World.start 1 7 9 4096 4160).2.handlers ∧
    ((EventKind.message.record World.start).callback, 7) ∈
      (connectTwice EventKind.message World.start 1 7 9 4096 4160).2.globalRefs ∧
    ((EventKind.message.record (EventKind.message.connect World.start 1 7 4096).2).callback, 9) ∈
      (connectTwice EventKind.message World.start 1 7 9 4096 4160).2.globalRefs ∧
    (EventKind.message.record World.start).callback ≠
      (EventKind.message.record (EventKind.message.connect World.start 1 7 4096).2).callback ∧
    ∀ (M : Managed) (t : Thread) (e : Emission), e.kind = EventKind.message →
      envObtained World.start.jvm t = true →
      ∃ w3 new,
        g_signal_emit M ((connectTwice EventKind.message World.start 1 7 9 4096 4160).2.onThread t)
          (jlongToPtr 1) e = .ok w3 ∧
        w3.calls = (connectTwice EventKind.message World.start 1 7 9 4096 4160).2.calls ++ new ∧
        new.filter (fun inv => decide
            (inv.receiver = (EventKind.message.record World.start).callback)) =
          [⟨(EventKind.message.record World.start).callback, EventKind.message.methodId,
            e.converted⟩] ∧
        new.filter (fun inv => decide
            (inv.receiver =
              (EventKind.message.record
                (EventKind.message.connect World.start 1 7 4096).2).callback)) =
          [⟨(EventKind.message.record (EventKind.message.connect World.start 1 7 4096).2).callback,
            EventKind.message.methodId, e.converted⟩] :=
  C7_each_connect_makes_its_own_record EventKind.message World.start 1 7 9 4096 4160
    World.start_WF World.start_handlersLive ⟨by decide, by decide, rfl⟩
    ⟨by decide, by decide, by decide⟩

/-! ### Reference counts -/

theorem dispatchCore_refcount (M : Managed) (w : World) (ud : Ptr) (object : Option Ptr)
    (args : List jvalue) (d : SignalData) (hd : w.heap ud = some d) :
    ∃ w1, dispatchCore M w ud object args = .ok w1 ∧
      w1.refcount =
        (match object with
          | some p =>
            if envObtained d.jvm w.thread then
              Function.update w.refcount p (w.refcount p + 1)
            else w.refcount
          | none => w.refcount) := by
  refine ⟨_, by simp only [dispatchCore, hd]; rfl, ?_⟩
  cases ha : w.attached <;> cases hs : d.jvm.supportsVersion <;>
    cases hat : d.jvm.attachSucceeds <;> cases hm : M ⟨d.callback, d.methodId, args⟩ <;>
    cases hp : w.pending <;> cases object <;>
    simp [GetEnv, AttachCurrentThread, DetachCurrentThread, CallVoidMethod, ExceptionCheck,
      ExceptionClear, g_object_ref, envObtained, World.thread, ha, hs, hat, hm, hp]

theorem dispatchBody_no_unref (M : Managed) (d : SignalData) (t : Thread) (object : Option Ptr)
    (args : List jvalue) (q : Ptr) :
    Op.frida_unref q ∉ dispatchBody M d t object args ∧
    Op.g_bytes_unref q ∉ dispatchBody M d t object args := by
  unfold dispatchBody
  cases object <;> by_cases h1 : envObtained d.jvm t = true <;>
    by_cases h2 : ((M ⟨d.callback, d.methodId, args⟩).isSome || t.pending.isSome) = true <;>
    simp [h1, h2]

/-- C11: when one of the four dispatchers that carry a native object (child-added,
child-removed, device added, device removed) runs with a live record, then, if a managed
environment is obtained, it calls `g_object_ref` on the object exactly once, immediately before
the managed call that passes the object's handle, and never releases anything, so on return the
object's reference count is one higher than on entry and every other count is as it was; if no
environment is obtained the callback is not invoked and no count changes. -/
theorem C11_dispatched_object_gains_one_reference (M : Managed) (w : World) (c : DispatchCall)
    (d : SignalData) (p : Ptr) (hd : w.heap c.userData = some d) (hobj : c.object = some p) :
    ∃ w1, c.run M w = .ok w1 ∧
      (∀ q, Op.frida_unref q ∉ w1.ops.drop w.ops.length ∧
        Op.g_bytes_unref q ∉ w1.ops.drop w.ops.length) ∧
      if envObtained d.jvm w.thread then
        w1.refcount p = w.refcount p + 1 ∧
        (∀ q, q ≠ p → w1.refcount q = w.refcount q) ∧
        w1.calls = w.calls ++ [⟨d.callback, d.methodId, [jvalue.j (ptrToJlong p)]⟩] ∧
        refsTaken w1.ops p = refsTaken w.ops p + 1 ∧
        ∃ pre post, w1.ops = w.ops ++ pre ++
          [Op.g_object_ref p,
           Op.CallVoidMethod ⟨d.callback, d.methodId, [jvalue.j (ptrToJlong p)]⟩] ++ post
      else
        w1.refcount = w.refcount ∧ w1.calls = w.calls ∧
        refsTaken w1.ops p = refsTaken w.ops p := by
  obtain ⟨w1, hrun, -, -, -, -, -, -, -, -, hcalls, -, hops⟩ := DispatchCall.run_spec M w c d hd
  have hconv : c.converted = [jvalue.j (ptrToJlong p)] := by
    cases c <;> simp [DispatchCall.object] at hobj <;> subst hobj <;> rfl
  obtain ⟨w2, hrun2, href⟩ := dispatchCore_refcount M w c.userData c.object c.converted d hd
  rw [← DispatchCall.run_eq_core, hrun] at hrun2
  cases hrun2
  rw [hobj] at href hops
  rw [hconv] at hcalls hops
  refine ⟨w1, hrun, ?_, ?_⟩
  · intro q
    have hno := dispatchBody_no_unref M d w.thread (some p) [jvalue.j (ptrToJlong p)] q
    rw [hops, List.drop_left]
    cases w.attached <;> simp [hno.1, hno.2]
  · by_cases he : envObtained d.jvm w.thread = true
    · rw [if_pos he]
      dsimp only at href
      rw [if_pos he] at href
      refine ⟨?_, ?_, ?_, ?_, ?_⟩
      · rw [href]
        simp
      · intro q hq
        rw [href, Function.update_noteq hq]
      · rw [hcalls]
        simp [dispatchCalls, he]
      · rw [hops]
        cases w.attached <;>
          by_cases h2 : ((M ⟨d.callback, d.methodId, [jvalue.j (ptrToJlong p)]⟩).isSome ||
            w.thread.pending.isSome) = true <;>
          simp [refsTaken, dispatchBody, he, h2, List.count_append, List.count_cons]
      · refine ⟨if w.attached then [] else [Op.AttachCurrentThread],
          (if (M ⟨d.callback, d.methodId, [jvalue.j (ptrToJlong p)]⟩).isSome ||
              w.thread.pending.isSome then [Op.ExceptionClear] else []) ++
          (if w.attached then [] else [Op.DetachCurrentThread]), ?_⟩
        rw [hops]
        cases w.attached <;> simp [dispatchBody, he]
    · rw [if_neg he]
      dsimp only at href
      rw [if_neg he] at href
      refine ⟨href, ?_, ?_⟩
      · rw [hcalls]
        simp [dispatchCalls, he]
      · rw [hops]
        cases w.attached <;> simp [refsTaken, dispatchBody, he, List.count_append]

/-- C11 at a sample input: a child-added event entered on a native thread. -/
theorem C11_dispatched_object_gains_one_reference_witness :
    ∃ w1, DispatchCall.childSample.run Managed.quiet
        (World.childSubscribed.onThread Thread.native) = .ok w1 ∧
      (∀ q, Op.frida_unref q ∉
          w1.ops.drop (World.childSubscribed.onThread Thread.native).ops.length ∧
        Op.g_bytes_unref q ∉
          w1.ops.drop (World.childSubscribed.onThread Thread.native).ops.length) ∧
      if envObtained SignalData.childSample.jvm
          (World.childSubscribed.onThread Thread.native).thread then
        w1.refcount 8192 = (World.childSubscribed.onThread Thread.native).refcount 8192 + 1 ∧
        (∀ q, q ≠ 8192 →
          w1.refcount q = (World.childSubscribed.onThread Thread.native).refcount q) ∧
        w1.calls = (World.childSubscribed.onThread Thread.native).calls ++
          [⟨SignalData.childSample.callback, SignalData.childSample.methodId,
            [jvalue.j (ptrToJlong 8192)]⟩] ∧
        refsTaken w1.ops 8192 =
          refsTaken (World.childSubscribed.onThread Thread.native).ops 8192 + 1 ∧
        ∃ pre post, w1.ops = (World.childSubscribed.onThread Thread.native).ops ++ pre ++
          [Op.g_object_ref 8192,
           Op.CallVoidMethod ⟨SignalData.childSample.callback, SignalData.childSample.methodId,
            [jvalue.j (ptrToJlong 8192)]⟩] ++ post
      else
        w1.refcount = (World.childSubscribed.onThread Thread.native).refcount ∧
        w1.calls = (World.childSubscribed.onThread Thread.native).calls ∧
        refsTaken w1.ops 8192 =
          refsTaken (World.childSubscribed.onThread Thread.native).ops 8192 :=
  C11_dispatched_object_gains_one_reference Managed.quiet
    (World.childSubscribed.onThread Thread.native) DispatchCall.childSample
    SignalData.childSample 8192 rfl rfl

/-- C12: the release operation with a non-zero handle makes one `frida_unref` call on the
object the handle aliases, which lowers that object's reference count by exactly one and
leaves every other count as it was; with the zero handle it makes no call and changes
nothing. -/
theorem C12_unref_releases_one_reference (w : World) (handle : jlong) (q : Ptr) :
    (Java_dev_supersam_frida_FridaNative_unref w handle).refcount q =
      (if handle ≠ 0 ∧ q = jlongToPtr handle then w.refcount q - 1 else w.refcount q) ∧
    (Java_dev_supersam_frida_FridaNative_unref w handle).ops =
      (if handle ≠ 0 then w.ops ++ [Op.frida_unref (jlongToPtr handle)] else w.ops) ∧
    Java_dev_supersam_frida_FridaNative_unref w 0 = w := by
  refine ⟨?_, ?_, ?_⟩
  · unfold Java_dev_supersam_frida_FridaNative_unref
    by_cases h : handle = 0
    · simp [h]
    · by_cases hq : q = jlongToPtr handle
      · subst hq
        simp [h, frida_unref]
      · simp [h, hq, frida_unref, Function.update_noteq hq]
  · unfold Java_dev_supersam_frida_FridaNative_unref
    by_cases h : handle = 0 <;> simp [h, frida_unref]
  · simp [Java_dev_supersam_frida_FridaNative_unref]

/-! ### String marshalling -/

theorem stringOps_append (a b : List Op) : stringOps (a ++ b) = stringOps a ++ stringOps b := by
  simp [stringOps, List.filter_append]

theorem strView_GetStringUTFChars (w : World) (s : String) :
    (GetStringUTFChars w s).2.strView =
      (s :: w.strView.1, w.strView.2 ++ [Op.GetStringUTFChars s]) := by
  simp [GetStringUTFChars, World.strView, stringOps_append, stringOps]

theorem strView_ReleaseStringUTFChars (w : World) (s : String) :
    (ReleaseStringUTFChars w s).strView =
      (w.strView.1.erase s, w.strView.2 ++ [Op.ReleaseStringUTFChars s]) := by
  simp [ReleaseStringUTFChars, World.strView, stringOps_append, stringOps]

theorem strView_frida_unref (w : World) (p : Ptr) : (frida_unref w p).strView = w.strView := by
  simp [frida_unref, World.strView, stringOps_append, stringOps]

theorem strView_g_bytes_unref (w : World) (p : Ptr) :
    (g_bytes_unref w p).strView = w.strView := by
  simp [g_bytes_unref, World.strView, stringOps_append, stringOps]

theorem strView_frida_script_post (w : World) (p : Ptr) (s : String) :
    (frida_script_post w p s).strView = w.strView := by
  simp [frida_script_post, World.strView, stringOps_append, stringOps]

theorem strView_throw_from_gerror (w : World) (e : Option GError) :
    (throw_from_gerror w e).strView = w.strView := by
  cases e <;>
    simp [throw_from_gerror, ThrowNew, g_error_free, World.strView, stringOps_append, stringOps]

theorem run_strView (F : FridaCore) (w : World) (c : StringCall) :
    (c.run F w).strView =
      (w.strView.1,
       w.strView.2 ++ c.strings.map Op.GetStringUTFChars ++
         c.strings.reverse.map Op.ReleaseStringUTFChars) := by
  cases c
  case sessionSnapshotScript handle jembedScript jwarmupScript =>
    cases jwarmupScript <;>
      simp only [StringCall.run, StringCall.strings,
        Java_dev_supersam_frida_FridaNative_sessionSnapshotScript] <;>
      split_ifs <;>
      simp [strView_throw_from_gerror, strView_frida_unref, strView_g_bytes_unref,
        strView_GetStringUTFChars, strView_ReleaseStringUTFChars, fst_GetStringUTFChars]
  case scriptPost handle jmessage =>
    simp [StringCall.run, StringCall.strings, Java_dev_supersam_frida_FridaNative_scriptPost,
      strView_frida_script_post, strView_GetStringUTFChars, strView_ReleaseStringUTFChars,
      fst_GetStringUTFChars]
  all_goals
    simp only [StringCall.run, StringCall.strings,
      Java_dev_supersam_frida_FridaNative_deviceManagerGetDeviceById,
      Java_dev_supersam_frida_FridaNative_deviceSpawn,
      Java_dev_supersam_frida_FridaNative_sessionCreateScript,
      Java_dev_supersam_frida_FridaNative_deviceManagerAddRemoteDevice,
      Java_dev_supersam_frida_FridaNative_deviceManagerRemoveRemoteDevice,
      Java_dev_supersam_frida_FridaNative_sessionCreateScriptFromSnapshot]
    split_ifs <;>
      simp [strView_throw_from_gerror, strView_frida_unref, strView_g_bytes_unref,
        strView_GetStringUTFChars, strView_ReleaseStringUTFChars, fst_GetStringUTFChars]

/-- C13: for each of the eight wrappers that take a managed string (get device by id, spawn,
create script, post, add and remove remote device, snapshot script, create script from
snapshot), on every path, success or native failure: the string calls the wrapper makes are one
`GetStringUTFChars` per string argument followed by one `ReleaseStringUTFChars` per copy, in
reverse order, so every copy obtained is released exactly once before the wrapper returns; the
outstanding copies after the call are those before it, and in the same number. -/
theorem C13_every_string_copy_is_released_once (F : FridaCore) (w : World) (c : StringCall) :
    stringOps (c.run F w).ops =
      stringOps w.ops ++ c.strings.map Op.GetStringUTFChars ++
        c.strings.reverse.map Op.ReleaseStringUTFChars ∧
    (c.run F w).utfChars = w.utfChars ∧
    (c.run F w).utfChars.length = w.utfChars.length := by
  have h := run_strView F w c
  simp only [World.strView, Prod.mk.injEq] at h
  exact ⟨h.2, h.1, by rw [h.1]⟩

/-! ### Snapshots -/

theorem gsizeToJsize_small (n : Nat) (h : n < 2 ^ 31) : gsizeToJsize n = (n : Int) := by
  unfold gsizeToJsize
  have hm : n % 2 ^ 32 = n := Nat.mod_eq_of_lt (by omega)
  rw [hm, if_pos h]

theorem jsizeToGsize_length (n : Nat) (h : n < 2 ^ 31) : jsizeToGsize (n : Int) = n := by
  unfold jsizeToGsize
  simp only [Int.reducePow] at h ⊢
  have key : (n : Int) % 18446744073709551616 = n := by omega
  rw [key]
  exact Int.toNat_ofNat n

theorem copy_region (raw : List Byte) :
    SetByteArrayRegion (NewByteArray (raw.length : Int)) (raw.length : Int) raw = some raw := by
  have hneg : ¬ ((raw.length : Int) < 0) := by omega
  simp [SetByteArrayRegion, NewByteArray, hneg]

/-- C14, as stated, fails: a successful snapshot capture whose native buffer has `2 ^ 32` bytes
returns the empty managed array, because the buffer's size is cast to the 32-bit `jsize`. -/
theorem C14_snapshot_of_four_gibibytes_comes_back_empty :
    (SyncCall.sessionSnapshotScript 1 "x" none).nativeError FridaCore.hugeSnapshot = none ∧
    (FridaCore.hugeSnapshot.frida_session_snapshot_script_sync (jlongToPtr 1) "x"
      (snapshotOptionsFor FridaCore.hugeSnapshot none)).value.data.length = 4294967296 ∧
    (Java_dev_supersam_frida_FridaNative_sessionSnapshotScript FridaCore.hugeSnapshot World.start
      1 "x" none).1 = some [] := by
  refine ⟨rfl, ?_, ?_⟩
  · simp only [FridaCore.hugeSnapshot, List.length_replicate]
  · have hz : gsizeToJsize 4294967296 = 0 := by decide
    simp only [Java_dev_supersam_frida_FridaNative_sessionSnapshotScript,
      FridaCore.hugeSnapshot, List.length_replicate, hz, Option.isSome_none, Bool.false_eq_true,
      if_false, NewByteArray, SetByteArrayRegion, Int.toNat_zero, List.take_zero,
      List.replicate_zero, List.drop_nil, List.append_nil, Option.map_some', lt_self_iff_false]

theorem snapshot_capture_small (F : FridaCore) (w : World) (handle : jlong)
    (jembedScript : String) (jwarmupScript : Option String)
    (hok : (SyncCall.sessionSnapshotScript handle jembedScript jwarmupScript).nativeError F =
      none)
    (hlen : (F.frida_session_snapshot_script_sync (jlongToPtr handle) jembedScript
      (snapshotOptionsFor F jwarmupScript)).value.data.length < 2 ^ 31) :
    (Java_dev_supersam_frida_FridaNative_sessionSnapshotScript F w handle jembedScript
      jwarmupScript).1 =
    some (F.frida_session_snapshot_script_sync (jlongToPtr handle) jembedScript
      (snapshotOptionsFor F jwarmupScript)).value.data := by
  simp only [SyncCall.nativeError] at hok
  cases jwarmupScript <;>
    simp only [snapshotOptionsFor, ne_eq, ite_not] at hok hlen ⊢ <;>
    simp only [Java_dev_supersam_frida_FridaNative_sessionSnapshotScript, fst_GetStringUTFChars,
      ne_eq, ite_not, hok, Option.isSome_none, Bool.false_eq_true, if_false,
      gsizeToJsize_small _ hlen, copy_region]

theorem snapshot_install (F : FridaCore) (w : World) (handle : jlong) (jsource : String)
    (a : List Byte) (ha : a.length < 2 ^ 31) :
    scriptOptionsFor F a =
      ⟨F.frida_script_options_new.addr, some ⟨F.g_bytes_new_addr a, a⟩⟩ ∧
    (Java_dev_supersam_frida_FridaNative_sessionCreateScriptFromSnapshot F w handle jsource
      a).1 =
      (if (F.frida_session_create_script_sync (jlongToPtr handle) jsource
            ⟨F.frida_script_options_new.addr, some ⟨F.g_bytes_new_addr a, a⟩⟩).error.isSome
        then 0
        else ptrToJlong (F.frida_session_create_script_sync (jlongToPtr handle) jsource
            ⟨F.frida_script_options_new.addr, some ⟨F.g_bytes_new_addr a, a⟩⟩).value) := by
  have hopts : scriptOptionsFor F a =
      ⟨F.frida_script_options_new.addr, some ⟨F.g_bytes_new_addr a, a⟩⟩ := by
    simp [scriptOptionsFor, frida_script_options_set_snapshot, g_bytes_new, GetArrayLength,
      GetByteArrayElements, jsizeToGsize_length a.length ha]
  refine ⟨hopts, ?_⟩
  have hw : Java_dev_supersam_frida_FridaNative_sessionCreateScriptFromSnapshot F w handle
      jsource a =
      (if (F.frida_session_create_script_sync (jlongToPtr handle) jsource
            (scriptOptionsFor F a)).error.isSome
        then (0, throw_from_gerror
          (frida_unref (ReleaseStringUTFChars (g_bytes_unref (GetStringUTFChars w jsource).2
            (F.g_bytes_new_addr (a.take (jsizeToGsize (a.length : Int))))) jsource)
            F.frida_script_options_new.addr)
          (F.frida_session_create_script_sync (jlongToPtr handle) jsource
            (scriptOptionsFor F a)).error)
        else (ptrToJlong (F.frida_session_create_script_sync (jlongToPtr handle) jsource
            (scriptOptionsFor F a)).value,
          frida_unref (ReleaseStringUTFChars (g_bytes_unref (GetStringUTFChars w jsource).2
            (F.g_bytes_new_addr (a.take (jsizeToGsize (a.length : Int))))) jsource)
            F.frida_script_options_new.addr)) := rfl
  rw [hw, hopts]
  split_ifs <;> rfl

/-- C14, amended: snapshot bytes cross the boundary unchanged when they fit a managed array.
A successful snapshot capture whose native buffer has fewer than `2 ^ 31` bytes returns a
managed array with exactly the bytes of the buffer.  Snapshot-based script creation, given a
managed array `a` (fewer than `2 ^ 31` bytes, as every managed array), calls frida-core with
script options whose snapshot is a new buffer holding exactly the bytes of `a`.  Hence the
captured array, fed back, installs a buffer with the bytes of the captured buffer. -/
theorem C14_snapshot_bytes_cross_unchanged (F : FridaCore) (w w2 : World) (handle session : jlong)
    (jembedScript : String) (jwarmupScript : Option String) (jsource : String) (a : List Byte)
    (hok : (SyncCall.sessionSnapshotScript handle jembedScript jwarmupScript).nativeError F =
      none)
    (hlen : (F.frida_session_snapshot_script_sync (jlongToPtr handle) jembedScript
      (snapshotOptionsFor F jwarmupScript)).value.data.length < 2 ^ 31)
    (ha : a.length < 2 ^ 31) :
    (Java_dev_supersam_frida_FridaNative_sessionSnapshotScript F w handle jembedScript
      jwarmupScript).1 =
      some (F.frida_session_snapshot_script_sync (jlongToPtr handle) jembedScript
        (snapshotOptionsFor F jwarmupScript)).value.data ∧
    scriptOptionsFor F a =
      ⟨F.frida_script_options_new.addr, some ⟨F.g_bytes_new_addr a, a⟩⟩ ∧
    (Java_dev_supersam_frida_FridaNative_sessionCreateScriptFromSnapshot F w2 session jsource
      a).1 =
      (if (F.frida_session_create_script_sync (jlongToPtr session) jsource
            ⟨F.frida_script_options_new.addr, some ⟨F.g_bytes_new_addr a, a⟩⟩).error.isSome
        then 0
        else ptrToJlong (F.frida_session_create_script_sync (jlongToPtr session) jsource
            ⟨F.frida_script_options_new.addr, some ⟨F.g_bytes_new_addr a, a⟩⟩).value) ∧
    ∀ captured,
      (Java_dev_supersam_frida_FridaNative_sessionSnapshotScript F w handle jembedScript
        jwarmupScript).1 = some captured →
      (scriptOptionsFor F captured).snapshot.map (fun g => g.data) =
        some (F.frida_session_snapshot_script_sync (jlongToPtr handle) jembedScript
          (snapshotOptionsFor F jwarmupScript)).value.data := by
  have hcap := snapshot_capture_small F w handle jembedScript jwarmupScript hok hlen
  have hinst := snapshot_install F w2 session jsource a ha
  refine ⟨hcap, hinst.1, hinst.2, ?_⟩
  intro captured hc
  rw [hcap] at hc
  cases hc
  rw [(snapshot_install F w2 session jsource _ hlen).1]
  rfl

/-- C14, amended, at a sample input: the three-byte snapshot of the sample frida-core and a
two-byte managed array. -/
theorem C14_snapshot_bytes_cross_unchanged_witness :
    (Java_dev_supersam_frida_FridaNative_sessionSnapshotScript FridaCore.sample World.start 1
      "x" none).1 =
      some (FridaCore.sample.frida_session_snapshot_script_sync (jlongToPtr 1) "x"
        (snapshotOptionsFor FridaCore.sample none)).value.data ∧
    scriptOptionsFor FridaCore.sample [4, 5] =
      ⟨FridaCore.sample.frida_script_options_new.addr,
        some ⟨FridaCore.sample.g_bytes_new_addr [4, 5], [4, 5]⟩⟩ ∧
    (Java_dev_supersam_frida_FridaNative_sessionCreateScriptFromSnapshot FridaCore.sample
      World.start 1 "y" [4, 5]).1 =
      (if (FridaCore.sample.frida_session_create_script_sync (jlongToPtr 1) "y"
            ⟨FridaCore.sample.frida_script_options_new.addr,
              some ⟨FridaCore.sample.g_bytes_new_addr [4, 5], [4, 5]⟩⟩).error.isSome
        then 0
        else ptrToJlong (FridaCore.sample.frida_session_create_script_sync (jlongToPtr 1) "y"
            ⟨FridaCore.sample.frida_script_options_new.addr,
              some ⟨FridaCore.sample.g_bytes_new_addr [4, 5], [4, 5]⟩⟩).value) ∧
    ∀ captured,
      (Java_dev_supersam_frida_FridaNative_sessionSnapshotScript FridaCore.sample World.start 1
        "x" none).1 = some captured →
      (scriptOptionsFor FridaCore.sample captured).snapshot.map (fun g => g.data) =
        some (FridaCore.sample.frida_session_snapshot_script_sync (jlongToPtr 1) "x"
          (snapshotOptionsFor FridaCore.sample none)).value.data :=
  C14_snapshot_bytes_cross_unchanged FridaCore.sample World.start World.start 1 1 "x" none "y"
    [4, 5] rfl (by decide) (by decide)

/-! ### Handle encoding -/

theorem ptrToJlong_range (p : Nat) :
    -(2 : Int) ^ 63 ≤ ptrToJlong p ∧ ptrToJlong p < (2 : Int) ^ 63 := by
  unfold ptrToJlong
  have hlt : p % 2 ^ 64 < 2 ^ 64 := Nat.mod_lt _ (by decide)
  simp only [Nat.reducePow, Int.reducePow] at hlt ⊢
  generalize p % 18446744073709551616 = m at hlt ⊢
  by_cases hm : m < 9223372036854775808
  · rw [if_pos hm]
    refine ⟨?_, ?_⟩
    · show (-9223372036854775808 : Int) ≤ (m : Int)
      omega
    · show (m : Int) < 9223372036854775808
      omega
  · rw [if_neg hm]
    refine ⟨?_, ?_⟩
    · show (-9223372036854775808 : Int) ≤ (m : Int) - 18446744073709551616
      omega
    · show (m : Int) - 18446744073709551616 < 9223372036854775808
      omega

theorem ptrToJlong_jlongToPtr (h : Int) (hlo : -(2 : Int) ^ 63 ≤ h) (hhi : h < (2 : Int) ^ 63) :
    ptrToJlong (jlongToPtr h) = h := by
  unfold ptrToJlong jlongToPtr
  simp only [Nat.reducePow, Int.reducePow] at hlo hhi ⊢
  have hnn : 0 ≤ h % 18446744073709551616 := Int.emod_nonneg _ (by decide)
  have hlt : h % 18446744073709551616 < 18446744073709551616 := Int.emod_lt_of_pos _ (by decide)
  obtain ⟨n, hn⟩ := Int.eq_ofNat_of_zero_le hnn
  have hnat : (h % 18446744073709551616).toNat = n := by
    rw [hn]
    exact Int.toNat_ofNat n
  rw [hnat]
  have hnlt : n < 18446744073709551616 := by omega
  have hmod : n % 18446744073709551616 = n := Nat.mod_eq_of_lt hnlt
  rw [hmod]
  by_cases hm : n < 9223372036854775808
  · rw [if_pos hm]
    show (n : Int) = h
    omega
  · rw [if_neg hm]
    show (n : Int) - 18446744073709551616 = h
    omega

/-- C15: the handle encoding loses nothing.  For every 64-bit address `p`, the handle
`(jlong)(intptr_t)p` is a signed 64-bit integer and `(T*)(intptr_t)` of it is `p` again; two
addresses have the same handle exactly when they are the same address, and the handle is zero
exactly when the address is null.  Conversely every `jlong` is the handle of the address it
converts to, so two handles are equal exactly when they alias the same address.  In
particular the handle `deviceManagerNew` returns converts back to the object frida-core
created. -/
theorem C15_handle_round_trip (p q : Nat) (h1 h2 : Int) (hp : p < 2 ^ 64) (hq : q < 2 ^ 64)
    (hr1 : -(2 : Int) ^ 63 ≤ h1 ∧ h1 < (2 : Int) ^ 63)
    (hr2 : -(2 : Int) ^ 63 ≤ h2 ∧ h2 < (2 : Int) ^ 63) :
    jlongToPtr (ptrToJlong p) = p ∧
    (-(2 : Int) ^ 63 ≤ ptrToJlong p ∧ ptrToJlong p < (2 : Int) ^ 63) ∧
    (ptrToJlong p = ptrToJlong q ↔ p = q) ∧
    (ptrToJlong p = 0 ↔ p = 0) ∧
    ptrToJlong (jlongToPtr h1) = h1 ∧
    (h1 = h2 ↔ jlongToPtr h1 = jlongToPtr h2) ∧
    (h1 = 0 ↔ jlongToPtr h1 = 0) ∧
    ∀ F : FridaCore, F.frida_device_manager_new = p →
      jlongToPtr (Java_dev_supersam_frida_FridaNative_deviceManagerNew F) = p := by
  have hz : ptrToJlong 0 = 0 := by decide
  refine ⟨jlongToPtr_ptrToJlong p hp, ptrToJlong_range p, ?_, ?_,
    ptrToJlong_jlongToPtr h1 hr1.1 hr1.2, ?_, ?_, ?_⟩
  · exact ⟨ptrToJlong_injective p q hp hq, fun h => by rw [h]⟩
  · constructor
    · intro h
      exact ptrToJlong_injective p 0 hp (by decide) (h.trans hz.symm)
    · intro h
      rw [h]
      exact hz
  · constructor
    · intro h
      rw [h]
    · intro h
      have := congrArg ptrToJlong h
      rwa [ptrToJlong_jlongToPtr h1 hr1.1 hr1.2, ptrToJlong_jlongToPtr h2 hr2.1 hr2.2] at this
  · constructor
    · intro h
      rw [h]
      exact jlongToPtr_zero
    · intro h
      have := congrArg ptrToJlong h
      rwa [ptrToJlong_jlongToPtr h1 hr1.1 hr1.2, hz] at this
  · intro F hF
    unfold Java_dev_supersam_frida_FridaNative_deviceManagerNew
    rw [hF]
    exact jlongToPtr_ptrToJlong p hp

/-- C15 at a sample input: an address in the upper half of the address space, whose handle is
negative. -/
theorem C15_handle_round_trip_witness :
    jlongToPtr (ptrToJlong 18446744073709547520) = 18446744073709547520 ∧
    (-(2 : Int) ^ 63 ≤ ptrToJlong 18446744073709547520 ∧
      ptrToJlong 18446744073709547520 < (2 : Int) ^ 63) ∧
    (ptrToJlong 18446744073709547520 = ptrToJlong 4096 ↔ 18446744073709547520 = 4096) ∧
    (ptrToJlong 18446744073709547520 = 0 ↔ 18446744073709547520 = 0) ∧
    ptrToJlong (jlongToPtr (-4096)) = -4096 ∧
    ((-4096 : Int) = 4096 ↔ jlongToPtr (-4096) = jlongToPtr 4096) ∧
    ((-4096 : Int) = 0 ↔ jlongToPtr (-4096) = 0) ∧
    ∀ F : FridaCore, F.frida_device_manager_new = 18446744073709547520 →
      jlongToPtr (Java_dev_supersam_frida_FridaNative_deviceManagerNew F) =
        18446744073709547520 :=
  C15_handle_round_trip 18446744073709547520 4096 (-4096) 4096 (by decide) (by decide)
    (by decide) (by decide)

/-! ### Installed handlers and live records -/

/-- C16, as stated, fails: after `scriptConnectMessage` on object handle `1` (record at
`4096`), `scriptDisconnectMessage` given the live subscription handle `4096` and the object
handle `2` returns; it has freed the record and released the callback reference, and the
handler is still installed on object `1`, closing over the freed record. -/
theorem C16_disconnect_on_another_object_leaves_a_dangling_handler :
    World.start.handlersSound ∧
    World.subscribed.handlersSound ∧
    World.subscribed.heap (jlongToPtr 4096) = some SignalData.sample ∧
    ∃ w2,
      Java_dev_supersam_frida_FridaNative_scriptDisconnectMessage World.subscribed 2 4096
        = .ok w2 ∧
      w2.handlers = [⟨1, "message", GCallback.on_script_message, 4096, 1⟩] ∧
      w2.heap 4096 = none ∧
      w2.globalRefs = [] ∧
      ¬ w2.handlersSound := by
  refine ⟨?_, ?_, by decide, _, rfl, by decide, by decide, by decide, ?_⟩
  · intro h hh
    simp [World.start] at hh
  · intro h hh
    have hh1 : h = ⟨1, "message", GCallback.on_script_message, 4096, 1⟩ := by
      have hl : World.subscribed.handlers =
          [⟨1, "message", GCallback.on_script_message, 4096, 1⟩] := by decide
      rw [hl] at hh
      simpa using hh
    subst hh1
    exact ⟨SignalData.sample, by decide, 7, by decide⟩
  · intro hs
    obtain ⟨d, hd, -⟩ := hs ⟨1, "message", GCallback.on_script_message, 4096, 1⟩ (by decide)
    have hnone : (opDelete (DeleteGlobalRef (g_signal_handler_disconnect World.subscribed
        (jlongToPtr 2) SignalData.sample.handlerId) SignalData.sample.callback)
        (jlongToPtr 4096)).heap 4096 = none := by decide
    exact Option.noConfusion (hnone.symm.trans hd)

theorem consistent_connect (k : EventKind) (w : World) (handle : jlong) (callback : jobject)
    (fresh : Ptr) (hc : w.consistent) (hfresh : w.isFresh fresh) :
    (connectCore k w handle callback fresh).2.consistent := by
  obtain ⟨c1, c2, c3, c4, c5⟩ := hc
  obtain ⟨-, -, hnone⟩ := hfresh
  refine ⟨?_, ?_, ?_, ?_, ?_⟩
  · intro h hh
    simp only [connectCore, List.mem_append, List.mem_singleton] at hh ⊢
    rcases hh with hh | hh
    · exact Nat.lt_succ_of_lt (c1 h hh)
    · subst hh
      exact Nat.lt_succ_self _
  · intro g hg
    simp only [connectCore, List.mem_append, List.mem_singleton] at hg ⊢
    rcases hg with hg | hg
    · exact Nat.lt_succ_of_lt (c2 g hg)
    · subst hg
      exact Nat.lt_succ_self _
  · intro p d hd
    simp only [connectCore] at hd ⊢
    by_cases hp : p = fresh
    · subst hp
      rw [Function.update_same] at hd
      cases hd
      exact Nat.lt_succ_self _
    · rw [Function.update_noteq hp] at hd
      exact Nat.lt_succ_of_lt (c3 p d hd)
  · intro h hh
    simp only [connectCore, List.mem_append, List.mem_singleton] at hh ⊢
    rcases hh with hh | hh
    · obtain ⟨d, hd, hid, o, ho⟩ := c4 h hh
      have hne : h.data ≠ fresh := by
        intro he
        rw [he, hnone] at hd
        cases hd
      exact ⟨d, by rw [Function.update_noteq hne]; exact hd, hid, o, Or.inl ho⟩
    · subst hh
      exact ⟨k.record w, by simp [EventKind.installed], rfl, callback, Or.inr rfl⟩
  · intro p q dp dq hp hq hcb
    simp only [connectCore] at hp hq
    by_cases h1 : p = fresh
    · by_cases h2 : q = fresh
      · rw [h1, h2]
      · subst h1
        rw [Function.update_same] at hp
        rw [Function.update_noteq h2] at hq
        cases hp
        have := c3 q dq hq
        simp only [EventKind.record] at hcb
        rw [← hcb] at this
        exact absurd this (Nat.lt_irrefl _)
    · by_cases h2 : q = fresh
      · subst h2
        rw [Function.update_same] at hq
        rw [Function.update_noteq h1] at hp
        cases hq
        have := c3 p dp hp
        simp only [EventKind.record] at hcb
        rw [hcb] at this
        exact absurd this (Nat.lt_irrefl _)
      · rw [Function.update_noteq h1] at hp
        rw [Function.update_noteq h2] at hq
        exact c5 p q dp dq hp hq hcb

theorem consistent_disconnect (w w1 : World) (handle cbHandle : jlong) (hc : w.consistent)
    (hmatch : ∀ h ∈ w.handlers, h.data = jlongToPtr cbHandle → h.inst = jlongToPtr handle)
    (hrun : disconnectCore w handle cbHandle = .ok w1) : w1.consistent := by
  obtain ⟨c1, c2, c3, c4, c5⟩ := hc
  unfold disconnectCore at hrun
  split at hrun
  · cases hrun
    exact ⟨c1, c2, c3, c4, c5⟩
  · cases hrec : w.heap (jlongToPtr cbHandle) with
    | none => simp [hrec] at hrun
    | some d =>
      simp only [hrec] at hrun
      cases hrun
      refine ⟨?_, ?_, ?_, ?_, ?_⟩
      · intro h hh
        exact c1 h (List.mem_of_mem_filter hh)
      · intro g hg
        exact c2 g (List.mem_of_mem_filter hg)
      · intro p dp hp
        by_cases hpe : p = jlongToPtr cbHandle
        · subst hpe
          simp at hp
        · simp only [Function.update_noteq hpe] at hp
          exact c3 p dp hp
      · intro h hh
        have hmem : h ∈ w.handlers := List.mem_of_mem_filter hh
        have hkeep := (List.mem_filter.mp hh).2
        obtain ⟨dh, hdh, hid, o, ho⟩ := c4 h hmem
        have hne : h.data ≠ jlongToPtr cbHandle := by
          intro he
          have hinst := hmatch h hmem he
          rw [he, hrec] at hdh
          cases hdh
          simp [hinst, hid] at hkeep
        refine ⟨dh, ?_, hid, o, ?_⟩
        · show Function.update w.heap (jlongToPtr cbHandle) none h.data = some dh
          rw [Function.update_noteq hne]
          exact hdh
        · show (dh.callback, o) ∈ w.globalRefs.filter (fun g => !decide (g.1 = d.callback))
          rw [List.mem_filter]
          refine ⟨ho, ?_⟩
          have hcb : dh.callback ≠ d.callback := by
            intro he
            exact hne (c5 h.data (jlongToPtr cbHandle) dh d hdh hrec he)
          simp [hcb]
      · intro p q dp dq hp hq hcb
        by_cases hpe : p = jlongToPtr cbHandle
        · subst hpe
          simp at hp
        · by_cases hqe : q = jlongToPtr cbHandle
          · subst hqe
            simp at hq
          · simp only [Function.update_noteq hpe] at hp
            simp only [Function.update_noteq hqe] at hq
            exact c5 p q dp dq hp hq hcb

theorem consistent_step (w w1 : World) (hs : MatchedStep w w1) (hc : w.consistent) :
    w1.consistent := by
  cases hs with
  | connect k _ handle callback fresh hfresh =>
    rw [EventKind.connect_eq_core]
    exact consistent_connect k w handle callback fresh hc hfresh
  | disconnect k _ handle cbHandle d _ hlive hmatch hrun =>
    rw [EventKind.disconnect_eq_core] at hrun
    exact consistent_disconnect w w1 handle cbHandle hc hmatch hrun

theorem consistent_sound (w : World) (hc : w.consistent) : w.handlersSound := by
  intro h hh
  obtain ⟨d, hd, -, o, ho⟩ := hc.2.2.2.1 h hh
  exact ⟨d, hd, o, ho⟩

theorem disconnect_live_returns (k : EventKind) (w : World) (handle cbHandle : jlong)
    (d : SignalData) (hlive : w.heap (jlongToPtr cbHandle) = some d) :
    ∃ w1, k.disconnect w handle cbHandle = .ok w1 := by
  rw [EventKind.disconnect_eq_core]
  unfold disconnectCore
  split
  · exact ⟨w, rfl⟩
  · simp only [hlive]
    exact ⟨_, rfl⟩

theorem World.start_consistent : World.start.consistent := by
  refine ⟨?_, ?_, ?_, ?_, ?_⟩ <;> simp [World.start]

/-- C16, amended: in every world reached from a consistent one (the start world is) by connects
and by disconnects that are each given a live subscription handle together with the object
handle its handler is installed on, every installed handler closes over a record that has not
been freed and whose callback reference has not been released; the world is consistent again,
and a disconnect given a live subscription handle returns. -/
theorem C16_matched_disconnects_keep_handlers_live (w w1 : World) (hc : w.consistent)
    (hsteps : Relation.ReflTransGen MatchedStep w w1) :
    w1.handlersSound ∧ w1.consistent ∧
    ∀ (k : EventKind) (handle cbHandle : jlong) (d : SignalData),
      w1.heap (jlongToPtr cbHandle) = some d →
      ∃ w2, k.disconnect w1 handle cbHandle = .ok w2 := by
  have hc1 : w1.consistent := by
    induction hsteps with
    | refl => exact hc
    | tail _ hstep ih => exact consistent_step _ _ hstep ih
  exact ⟨consistent_sound w1 hc1, hc1,
    fun k handle cbHandle d hlive => disconnect_live_returns k w1 handle cbHandle d hlive⟩

theorem sample_matched_steps :
    Relation.ReflTransGen MatchedStep World.start World.resubscribed := by
  have h1 : MatchedStep World.start (EventKind.message.connect World.start 1 7 4096).2 :=
    MatchedStep.connect EventKind.message World.start 1 7 4096 ⟨by decide, by decide, rfl⟩
  have hd : EventKind.message.disconnect (EventKind.message.connect World.start 1 7 4096).2 1
      4096 = .ok (afterPair EventKind.message World.start 1 7 4096) := by
    have h := disconnectCore_connectCore EventKind.message World.start 1 7 4096 World.start_WF
      ⟨by decide, by decide, rfl⟩
    rw [EventKind.connect_eq_core, EventKind.disconnect_eq_core]
    exact h
  have h2 : MatchedStep (EventKind.message.connect World.start 1 7 4096).2
      (afterPair EventKind.message World.start 1 7 4096) :=
    MatchedStep.disconnect EventKind.message _ 1 4096 SignalData.sample _ (by decide)
      (by decide) hd
  have h3 : MatchedStep (afterPair EventKind.message World.start 1 7 4096) World.resubscribed :=
    MatchedStep.connect EventKind.message _ 1 9 4096 ⟨by decide, by decide, rfl⟩
  exact Relation.ReflTransGen.tail
    (Relation.ReflTransGen.tail (Relation.ReflTransGen.single h1) h2) h3

/-- C16, amended, at a sample input: a `message` connect on the start world, its matching
disconnect, and a second connect whose handler is then installed. -/
theorem C16_matched_disconnects_keep_handlers_live_witness :
    World.resubscribed.handlersSound ∧
    World.resubscribed.consistent ∧
    ∀ (k : EventKind) (handle cbHandle : jlong) (d : SignalData),
      World.resubscribed.heap (jlongToPtr cbHandle) = some d →
      ∃ w2, k.disconnect World.resubscribed handle cbHandle = .ok w2 :=
  C16_matched_disconnects_keep_handlers_live World.start World.resubscribed
    World.start_consistent sample_matched_steps

end FridaJni
